import Mathlib

/-!
# Badminton tournament backend: registration engine and role rules

A shallow embedding of `backend/internal/models`, of `backend/internal/views` and of the
handlers of `backend/internal/controllers` that register players and teams, form teams,
create and update tournaments, and create and update accounts.

Modelling conventions.

* A table is the list of its visible rows in primary-key order, together with the
  next key the store hands out.  `First` is the first row of the list that matches,
  `Count` is the number of matching rows, `Create` appends a row carrying the next key,
  `Save` rewrites the row(s) carrying the key of the saved value.
* The store refuses a write in two cases: a user whose username or email another row of
  the user table holds (tag `unique`), and a tournament inserted under a key in use.  The
  handler then takes its `database_error` (500) branch and nothing is written.  The other
  `database_error` branches, taken only when the storage driver reports an error, are not
  reachable in the model.
* Of the relations a request body can carry, the one that decides a column of the row
  written is modelled: `admin` of a tournament.  Rows the mapping library would write to
  other tables for the members `matches`, `players` and `teams` are not modelled.
* Go's `uint` and `int` are 64 bit wide here.  Keys are `Nat`; `MaxPlayers` and
  `MaxTeams` are `Int` (they are signed in the source and nothing forces them positive).
* Time stamps, dates and floating point fees are left out of the rows.
* A request body enters a handler decoded: `Except.error` carries the text of a decoding
  error, `Except.ok` the request struct; the `binding` tags are then checked by `validate`.
  The `Data` of a success response is the list of the members of the JSON object written.
-/

namespace Badminton

/-! ## models -/

/-- Source: `models.RolePlayer`. -/
def RolePlayer : String := "player"

/-- Source: `models.RoleAdmin`. -/
def RoleAdmin : String := "admin"

/-- Source: `models.TournamentSingles`. -/
def TournamentSingles : String := "singles"

/-- Source: `models.TournamentDoubles`. -/
def TournamentDoubles : String := "doubles"

/-- Source: `models.TournamentUpcoming`. -/
def TournamentUpcoming : String := "upcoming"

/-- Source: `models.TournamentOngoing`. -/
def TournamentOngoing : String := "ongoing"

/-- Source: `models.TournamentCompleted`. -/
def TournamentCompleted : String := "completed"

/-- Source: `models.TournamentCancelled`. -/
def TournamentCancelled : String := "cancelled"

/-- Modelled from the spec: the embedded `models.BaseModel` declaration is not among the
sources; the handlers use only its primary key `ID` (an unsigned integer assigned by the
store on `Create`), which is the one field kept here. -/
structure BaseModel where
  ID : Nat
deriving DecidableEq, Repr

/-- Source: `models.User` (relations left out). -/
structure User extends BaseModel where
  Username : String
  Email : String
  Password : String
  FullName : String
  Role : String
  IsActive : Bool
  Ranking : Int
deriving DecidableEq, Repr

/-- Source: `models.Team` (relations left out). -/
structure Team extends BaseModel where
  Name : String
  Description : String
deriving DecidableEq, Repr

/-- Source: `models.TeamPlayer` (relations left out). -/
structure TeamPlayer extends BaseModel where
  TeamID : Nat
  PlayerID : Nat
  Role : String
deriving DecidableEq, Repr

/-- Source: `models.Tournament` (dates, fees and relations left out); `Type_` is the
field `Type`. -/
structure Tournament extends BaseModel where
  Name : String
  Description : String
  Type_ : String
  Status : String
  MaxPlayers : Int
  MaxTeams : Int
  AdminID : Nat
deriving DecidableEq, Repr

/-- Source: `models.TournamentPlayer` (relations left out). -/
structure TournamentPlayer extends BaseModel where
  TournamentID : Nat
  PlayerID : Nat
  Status : String
deriving DecidableEq, Repr

/-- Source: `models.TournamentTeam` (relations left out). -/
structure TournamentTeam extends BaseModel where
  TournamentID : Nat
  TeamID : Nat
  Status : String
deriving DecidableEq, Repr

/-- Source: `User.IsAdmin`. -/
def User.IsAdmin (u : User) : Bool := u.Role == RoleAdmin

/-- Source: `User.IsPlayer`. -/
def User.IsPlayer (u : User) : Bool := u.Role == RolePlayer

/-- Source: `Tournament.IsTeamTournament`. -/
def Tournament.IsTeamTournament (t : Tournament) : Bool := t.Type_ == TournamentDoubles

/-- Source: `Tournament.GetMaxParticipants`. -/
def Tournament.GetMaxParticipants (t : Tournament) : Int :=
  if t.IsTeamTournament then t.MaxTeams else t.MaxPlayers

/-- Source: `models.MatchPending`. -/
def MatchPending : String := "pending"

/-- Source: `models.MatchOngoing`. -/
def MatchOngoing : String := "ongoing"

/-- Source: `models.MatchCompleted`. -/
def MatchCompleted : String := "completed"

/-- Source: `models.MatchCancelled`. -/
def MatchCancelled : String := "cancelled"

/-- Source: `models.MatchSingles`. -/
def MatchSingles : String := "singles"

/-- Source: `models.MatchDoubles`. -/
def MatchDoubles : String := "doubles"

/-- Source: `models.Match` (the preloaded relations left out); `Type_` is the field `Type`, a
`*uint` is an `Option Nat`, and `MatchDate` is the instant as a number. -/
structure Match extends BaseModel where
  TournamentID : Option Nat
  Type_ : String
  Status : String
  MatchDate : Int
  Round : String
  Player1ID : Option Nat
  Player2ID : Option Nat
  Player1Score : Int
  Player2Score : Int
  Team1ID : Option Nat
  Team2ID : Option Nat
  Team1Score : Int
  Team2Score : Int
  WinnerPlayerID : Option Nat
  WinnerTeamID : Option Nat
deriving DecidableEq, Repr

/-- Source: `Match.IsTeamMatch`. -/
def Match.IsTeamMatch (m : Match) : Bool := m.Type_ == MatchDoubles

/-- Source: `Match.SetWinner`: the match after the call on `m`. -/
def Match.SetWinner (m : Match) (playerID teamID : Option Nat) : Match :=
  let m1 : Match :=
    if m.IsTeamMatch then { m with WinnerTeamID := teamID }
    else { m with WinnerPlayerID := playerID }
  { m1 with Status := MatchCompleted }

/-! ## views -/

/-- Source: `views.ErrorResponse`. -/
structure ErrorResponse where
  Error : String
  Message : String
deriving DecidableEq, Repr

/-- Source: `views.UserResponse`. -/
structure UserResponse where
  ID : Nat
  Username : String
  Email : String
  FullName : String
  Role : String
  IsActive : Bool
  Ranking : Int
deriving DecidableEq, Repr

/-- Source: `views.PlayerResponse`. -/
structure PlayerResponse where
  ID : Nat
  Name : String
  Email : String
  Ranking : Int
deriving DecidableEq, Repr

/-- Source: `views.TournamentResponse`, without `StartDate`, `EndDate` and `MatchCount`
(dates and the match relation are left out of the rows). -/
structure TournamentResponse where
  ID : Nat
  Name : String
  Description : String
  Status : String
  MaxPlayers : Int
deriving DecidableEq, Repr

/-- Source: `views.ToUserResponse`. -/
def ToUserResponse (user : User) : UserResponse :=
  { ID := user.ID, Username := user.Username, Email := user.Email,
    FullName := user.FullName, Role := user.Role, IsActive := user.IsActive,
    Ranking := user.Ranking }

/-- Source: `views.ToTournamentResponse`, without the members left out of
`TournamentResponse`. -/
def ToTournamentResponse (tournament : Tournament) : TournamentResponse :=
  { ID := tournament.ID, Name := tournament.Name, Description := tournament.Description,
    Status := tournament.Status, MaxPlayers := tournament.GetMaxParticipants }

/-- A JSON value placed in a `gin.H` map or in a response struct. -/
inductive Value where
  | num (n : Nat)
  | str (s : String)
  | int (i : Int)
  | bool (b : Bool)
  | user (u : UserResponse)
deriving DecidableEq, Repr

/-- The members of a `views.UserResponse` as `c.JSON` writes them, by the `json` tags
(`ranking` is `omitempty`). -/
def UserResponse.members (r : UserResponse) : List (String × Value) :=
  [("id", Value.num r.ID), ("username", Value.str r.Username), ("email", Value.str r.Email),
   ("full_name", Value.str r.FullName), ("role", Value.str r.Role),
   ("is_active", Value.bool r.IsActive)]
  ++ (if r.Ranking = 0 then [] else [("ranking", Value.int r.Ranking)])

/-- The members of a `views.PlayerResponse` as `c.JSON` writes them. -/
def PlayerResponse.members (r : PlayerResponse) : List (String × Value) :=
  [("id", Value.num r.ID), ("name", Value.str r.Name), ("email", Value.str r.Email),
   ("ranking", Value.int r.Ranking)]

/-- The members of a `views.TournamentResponse` as `c.JSON` writes them. -/
def TournamentResponse.members (r : TournamentResponse) : List (String × Value) :=
  [("id", Value.num r.ID), ("name", Value.str r.Name),
   ("description", Value.str r.Description), ("status", Value.str r.Status),
   ("max_players", Value.int r.MaxPlayers)]

/-- Source: `views.SuccessResponse`; `Data` is `none` when the handler leaves it unset. -/
structure SuccessResponse where
  Message : String
  Data : Option (List (String × Value))
deriving DecidableEq, Repr

/-- The value handed to `c.JSON`. -/
inductive Body where
  | error (e : ErrorResponse)
  | success (s : SuccessResponse)
  | user (u : UserResponse)
  | registrations (rows : List TournamentPlayer)
deriving DecidableEq, Repr

/-- What `c.JSON(status, body)` sends. -/
structure HTTPResponse where
  status : Nat
  body : Body
deriving DecidableEq, Repr

/-- Constant `http.StatusOK` and the other status codes the handlers send. -/
def StatusOK : Nat := 200
def StatusCreated : Nat := 201
def StatusBadRequest : Nat := 400
def StatusForbidden : Nat := 403
def StatusNotFound : Nat := 404
def StatusConflict : Nat := 409
def StatusUnauthorized : Nat := 401
def StatusInternalServerError : Nat := 500

/-- Source: `c.JSON(status, views.ErrorResponse{Error: e, Message: m})`. -/
def errorJSON (status : Nat) (e m : String) : HTTPResponse :=
  { status := status, body := Body.error { Error := e, Message := m } }

/-- Source: `c.JSON(status, views.SuccessResponse{Message: m, Data: d})`. -/
def successJSON (status : Nat) (m : String) (d : Option (List (String × Value))) :
    HTTPResponse :=
  { status := status, body := Body.success { Message := m, Data := d } }

/-- The `error` field of a response body, `none` for a success body. -/
def HTTPResponse.errorCode (r : HTTPResponse) : Option String :=
  match r.body with
  | Body.error e => some e.Error
  | Body.success _ => none
  | Body.user _ => none
  | Body.registrations _ => none

/-! ## strconv.ParseUint(s, 10, 32) -/

/-- The digit loop of `strconv.ParseUint` for base 10: `n` is the value read so far.  A
byte that is not a decimal digit is a syntax error, a value at or over `cutoff` before the
multiplication or over `maxVal` after the addition is a range error; both are `none`.
Since `n ≤ maxVal < 2 ^ 32` on entry, `n * 10 + d` stays below `2 ^ 64` and the
wrap-around test `n1 < n` of the source never fires. -/
def parseUintLoop (maxVal cutoff : Nat) : List Char → Nat → Option Nat
  | [], n => some n
  | c :: cs, n =>
    if '0'.toNat ≤ c.toNat ∧ c.toNat ≤ '9'.toNat then
      let d := c.toNat - '0'.toNat
      if n ≥ cutoff then none
      else
        let n10 := n * 10
        let n1 := n10 + d
        if n1 < n10 ∨ n1 > maxVal then none
        else parseUintLoop maxVal cutoff cs n1
    else none

/-- Source: `strconv.ParseUint(s, 10, 32)`: `none` stands for a non-nil error. -/
def ParseUint32 (s : String) : Option Nat :=
  match s.toList with
  | [] => none
  | cs => parseUintLoop (2 ^ 32 - 1) ((2 ^ 64 - 1) / 10 + 1) cs 0

/-! ## the store -/

/-- The tables the registration handlers read and write, each with the next primary key
of the tables they insert into. -/
structure DB where
  users : List User := []
  teams : List Team := []
  teamPlayers : List TeamPlayer := []
  tournaments : List Tournament := []
  tournamentPlayers : List TournamentPlayer := []
  tournamentTeams : List TournamentTeam := []
  nextTeamID : Nat := 1
  nextTeamPlayerID : Nat := 1
  nextTournamentPlayerID : Nat := 1
  nextTournamentTeamID : Nat := 1
  nextUserID : Nat := 1
  nextTournamentID : Nat := 1
deriving DecidableEq, Repr

/-- Source: `db.First(&tournament, id)`. -/
def DB.firstTournament (db : DB) (id : Nat) : Option Tournament :=
  db.tournaments.find? (fun t => t.ID == id)

/-- Source: `db.Where("tournament_id = ? AND player_id = ?", t, p).First(&r)`. -/
def DB.firstTournamentPlayer (db : DB) (t p : Nat) : Option TournamentPlayer :=
  db.tournamentPlayers.find? (fun r => r.TournamentID == t && r.PlayerID == p)

/-- Source: `db.Model(&models.TournamentPlayer{}).Where("tournament_id = ?", t)`
followed by `.Count(&n)`. -/
def DB.countTournamentPlayers (db : DB) (t : Nat) : Nat :=
  db.tournamentPlayers.countP (fun r => r.TournamentID == t)

/-- Source: `db.Create(&registration)` on the tournament-player table: the store assigns
the key. -/
def DB.createTournamentPlayer (db : DB) (r : TournamentPlayer) : DB × TournamentPlayer :=
  let r1 : TournamentPlayer := { r with ID := db.nextTournamentPlayerID }
  ({ db with tournamentPlayers := db.tournamentPlayers ++ [r1],
             nextTournamentPlayerID := db.nextTournamentPlayerID + 1 }, r1)

/-- Source: `db.Save(&registration)` on the tournament-player table: every column of the
row with the key of `r` is rewritten. -/
def DB.saveTournamentPlayer (db : DB) (r : TournamentPlayer) : DB :=
  { db with tournamentPlayers :=
      db.tournamentPlayers.map (fun x => if x.ID = r.ID then r else x) }

/-- Source: `db.Where("team_id = ? AND player_id = ?", team, p).First(&teamPlayer)`. -/
def DB.firstTeamPlayer (db : DB) (team p : Nat) : Option TeamPlayer :=
  db.teamPlayers.find? (fun r => r.TeamID == team && r.PlayerID == p)

/-- Source: `db.Where("tournament_id = ? AND team_id = ?", t, team).First(&r)`. -/
def DB.firstTournamentTeam (db : DB) (t team : Nat) : Option TournamentTeam :=
  db.tournamentTeams.find? (fun r => r.TournamentID == t && r.TeamID == team)

/-- Source: `db.Create(&registration)` on the tournament-team table. -/
def DB.createTournamentTeam (db : DB) (r : TournamentTeam) : DB × TournamentTeam :=
  let r1 : TournamentTeam := { r with ID := db.nextTournamentTeamID }
  ({ db with tournamentTeams := db.tournamentTeams ++ [r1],
             nextTournamentTeamID := db.nextTournamentTeamID + 1 }, r1)

/-! ## controllers: tournament registration -/

/-- Source: `TournamentRegistrationController.RegisterForTournament`: `userObj` is the user the
authentication middleware put in the context, `tournamentIDParam` the path parameter. -/
def RegisterForTournament (db : DB) (userObj : User) (tournamentIDParam : String) :
    DB × HTTPResponse :=
  if !userObj.IsPlayer then
    (db, errorJSON StatusForbidden "player_required"
      "Only players can register for tournaments")
  else
    match ParseUint32 tournamentIDParam with
    | none => (db, errorJSON StatusBadRequest "invalid_tournament_id" "Invalid tournament ID")
    | some tournamentID =>
      match db.firstTournament tournamentID with
      | none => (db, errorJSON StatusNotFound "tournament_not_found" "Tournament not found")
      | some tournament =>
        if tournament.Status ≠ TournamentUpcoming then
          (db, errorJSON StatusBadRequest "registration_closed"
            "Registration is closed for this tournament")
        else
          match db.firstTournamentPlayer tournamentID userObj.ID with
          | some _ =>
            (db, errorJSON StatusConflict "already_registered"
              "You are already registered for this tournament")
          | none =>
            let registrationCount := db.countTournamentPlayers tournamentID
            let maxParticipants := tournament.GetMaxParticipants
            if (registrationCount : Int) ≥ maxParticipants then
              (db, errorJSON StatusBadRequest "tournament_full" "Tournament is full")
            else
              let created := db.createTournamentPlayer
                { ID := 0, TournamentID := tournamentID, PlayerID := userObj.ID,
                  Status := "registered" }
              (created.1, successJSON StatusCreated "Successfully registered for tournament"
                (some [("registration_id", Value.num created.2.ID)]))

/-- Source: `TournamentRegistrationController.UnregisterFromTournament`. -/
def UnregisterFromTournament (db : DB) (userObj : User) (tournamentIDParam : String) :
    DB × HTTPResponse :=
  match ParseUint32 tournamentIDParam with
  | none => (db, errorJSON StatusBadRequest "invalid_tournament_id" "Invalid tournament ID")
  | some tournamentID =>
    match db.firstTournamentPlayer tournamentID userObj.ID with
    | none =>
      (db, errorJSON StatusNotFound "registration_not_found"
        "You are not registered for this tournament")
    | some registration =>
      let registration : TournamentPlayer := { registration with Status := "withdrawn" }
      (db.saveTournamentPlayer registration,
        successJSON StatusOK "Successfully withdrawn from tournament" none)

/-- Source: `TournamentRegistrationController.GetMyRegistrations`: the rows the handler returns
(`player_id = ? AND status != 'withdrawn'`). -/
def GetMyRegistrations (db : DB) (userObj : User) : List TournamentPlayer :=
  db.tournamentPlayers.filter (fun r => r.PlayerID == userObj.ID && r.Status != "withdrawn")

/-- Source: `TournamentRegistrationController.RegisterTeamForTournament`: `body` is the outcome of
`c.ShouldBindJSON(&req)` before validation, either the decoded `team_id` or the decoding
error text; `binding:"required"` then rejects the zero value. -/
def RegisterTeamForTournament (db : DB) (userObj : User) (tournamentIDParam : String)
    (body : Except String Nat) : DB × HTTPResponse :=
  match ParseUint32 tournamentIDParam with
  | none => (db, errorJSON StatusBadRequest "invalid_tournament_id" "Invalid tournament ID")
  | some tournamentID =>
    match body with
    | Except.error msg => (db, errorJSON StatusBadRequest "invalid_input" msg)
    | Except.ok teamID =>
      if teamID = 0 then
        (db, errorJSON StatusBadRequest "invalid_input"
          "Key: 'TeamID' Error:Field validation for 'TeamID' failed on the 'required' tag")
      else
        match db.firstTournament tournamentID with
        | none => (db, errorJSON StatusNotFound "tournament_not_found" "Tournament not found")
        | some tournament =>
          if !tournament.IsTeamTournament then
            (db, errorJSON StatusBadRequest "singles_tournament"
              "This is a singles tournament, not doubles")
          else
            match db.firstTeamPlayer teamID userObj.ID with
            | none =>
              (db, errorJSON StatusForbidden "not_team_member"
                "You are not a member of this team")
            | some _ =>
              match db.firstTournamentTeam tournamentID teamID with
              | some _ =>
                (db, errorJSON StatusConflict "team_already_registered"
                  "Team is already registered for this tournament")
              | none =>
                let created := db.createTournamentTeam
                  { ID := 0, TournamentID := tournamentID, TeamID := teamID,
                    Status := "registered" }
                (created.1,
                  successJSON StatusCreated "Team successfully registered for tournament"
                    (some [("registration_id", Value.num created.2.ID)]))

/-! ## binding of request bodies -/

/-- Text of one failed `binding` tag, in the wording of the validation library behind
`ShouldBindJSON`.  No statement depends on the wording. -/
def fieldError (field tag : String) : String :=
  "Key: '" ++ field ++ "' Error:Field validation for '" ++ field ++ "' failed on the '"
    ++ tag ++ "' tag"

/-- The first tag of a field that its value does not pass; the tags come in the order of
the `binding` string, each with whether the value passes it. -/
def firstFailure : List (String × Bool) → Option String
  | [] => none
  | (tag, ok) :: rest => if ok then firstFailure rest else some tag

/-- Validation of a decoded request: the fields in declaration order with their tags;
`none` when every field passes, else the error text. -/
def validate (fields : List (String × List (String × Bool))) : Option String :=
  match fields.filterMap (fun f => (firstFailure f.2).map (fieldError f.1)) with
  | [] => none
  | errs => some ("\n".intercalate errs)

/-- The request struct of `CreateTeam`, as decoded from the body. -/
structure CreateTeamRequest where
  Name : String
  Description : String
  PartnerID : Nat
deriving DecidableEq, Repr

/-! ## the store: users and teams -/

/-- Source: `db.First(&user, id)` with a numeric key. -/
def DB.firstUser (db : DB) (id : Nat) : Option User :=
  db.users.find? (fun u => u.ID == id)

/-- Source: `db.Create(&team)`. -/
def DB.createTeam (db : DB) (t : Team) : DB × Team :=
  let t1 : Team := { t with ID := db.nextTeamID }
  ({ db with teams := db.teams ++ [t1], nextTeamID := db.nextTeamID + 1 }, t1)

/-- Source: `db.Create(&tp)` on the team-player table. -/
def DB.createTeamPlayer (db : DB) (r : TeamPlayer) : DB × TeamPlayer :=
  let r1 : TeamPlayer := { r with ID := db.nextTeamPlayerID }
  ({ db with teamPlayers := db.teamPlayers ++ [r1],
             nextTeamPlayerID := db.nextTeamPlayerID + 1 }, r1)

/-! ## controllers: team formation -/

/-- Source: `TournamentRegistrationController.CreateTeam`: `body` is the outcome of decoding
the request body, the `binding:"required"` tags of `Name` and `PartnerID` are checked by
`validate`. -/
def CreateTeam (db : DB) (userObj : User) (body : Except String CreateTeamRequest) :
    DB × HTTPResponse :=
  match body with
  | Except.error msg => (db, errorJSON StatusBadRequest "invalid_input" msg)
  | Except.ok req =>
    match validate [("Name", [("required", req.Name != "")]),
                    ("PartnerID", [("required", req.PartnerID != 0)])] with
    | some msg => (db, errorJSON StatusBadRequest "invalid_input" msg)
    | none =>
      match db.firstUser req.PartnerID with
      | none => (db, errorJSON StatusNotFound "partner_not_found" "Partner not found")
      | some partner =>
        if !partner.IsPlayer then
          (db, errorJSON StatusBadRequest "partner_not_player" "Partner must be a player")
        else
          let created := db.createTeam
            { ID := 0, Name := req.Name, Description := req.Description }
          let team := created.2
          let teamPlayers : List TeamPlayer :=
            [{ ID := 0, TeamID := team.ID, PlayerID := userObj.ID, Role := "captain" },
             { ID := 0, TeamID := team.ID, PlayerID := partner.ID, Role := "player" }]
          let db2 := teamPlayers.foldl (fun d tp => (d.createTeamPlayer tp).1) created.1
          (db2, successJSON StatusCreated "Team created successfully"
            (some [("team_id", Value.num team.ID), ("team_name", Value.str team.Name)]))

/-! ## controllers: accounts -/

/-- What the account handlers take from outside the sources under study: the password
hashing library, the token issuer of the authentication middleware, the `email` rule of the
validation library, and what the store returns for a lookup by a text. -/
structure Env where
  /-- Result of `bcrypt.GenerateFromPassword` on a password, `none` for an error. -/
  GenerateFromPassword : String → Option String
  /-- Whether `bcrypt.CompareHashAndPassword hash password` returns no error. -/
  CompareHashAndPassword : String → String → Bool
  /-- Result of `middleware.GenerateToken`, `none` for an error. -/
  GenerateToken : User → Option String
  /-- Whether a string passes the `email` tag. -/
  isEmail : String → Bool
  /-- Result of `db.First(&user, text)` on the user table for a `text` that is no plain
  numeral, `none` for an error or an empty result: the mapping library hands such a text
  to the store as a condition, and how the store reads it is not fixed by the sources. -/
  rawFirst : String → List User → Option User

/-- Source: `User.HashPassword`: the user with the hashed password, `none` for an error. -/
def User.HashPassword (env : Env) (u : User) : Option User :=
  match env.GenerateFromPassword u.Password with
  | none => none
  | some hashedPassword => some { u with Password := hashedPassword }

/-- Source: `User.CheckPassword`. -/
def User.CheckPassword (env : Env) (u : User) (password : String) : Bool :=
  env.CompareHashAndPassword u.Password password

/-- Whether a row with another key holds the username or the email of `u`: the columns
`username` and `email` of `models.User` carry the tag `unique`, so the store refuses to
write `u`. -/
def DB.userConflict (db : DB) (u : User) : Bool :=
  db.users.any (fun x => x.ID != u.ID && (x.Username == u.Username || x.Email == u.Email))

/-- Source: `db.Create(&user)`: the store assigns the key, and a field with a `default:` tag
that holds its zero value takes the default; `none` is the error of the store when the
username or the email is held by a row of the table (tag `unique`), and nothing is
written then. -/
def DB.createUser (db : DB) (u : User) : Option (DB × User) :=
  let u1 : User :=
    { u with
      ID := db.nextUserID,
      Role := if u.Role = "" then "player" else u.Role,
      IsActive := if u.IsActive = false then true else u.IsActive }
  if db.users.any (fun x => x.Username == u.Username || x.Email == u.Email) then none
  else some ({ db with users := db.users ++ [u1], nextUserID := db.nextUserID + 1 }, u1)

/-- Source: `db.Save(&user)` for a user the request has read from the table (by the handler
or by the authentication middleware): every column of the row with its key is rewritten;
`none` is the error of the store when a row with another key holds the username or the
email of the saved user (tag `unique`), and nothing is written then. -/
def DB.saveUser (db : DB) (u : User) : Option DB :=
  if db.userConflict u then none
  else some { db with users := db.users.map (fun x => if x.ID = u.ID then u else x) }

/-- Source: `db.Where("role = ? AND id = ?", "player", id).First(&user)`. -/
def DB.firstPlayer (db : DB) (id : Nat) : Option User :=
  db.users.find? (fun u => u.Role == "player" && u.ID == id)

/-- The key a path parameter names when it is a plain decimal numeral: digits only,
without sign and without a leading zero, below `2 ^ 63`. -/
def parseKey (s : String) : Option Nat :=
  let cs := s.toList
  let n := cs.foldl (fun n c => n * 10 + (c.toNat - '0'.toNat)) 0
  if cs ≠ [] ∧ cs.all Char.isDigit = true ∧ (cs.head? ≠ some '0' ∨ cs.length = 1) ∧
      n < 2 ^ 63
  then some n else none

/-- Source: `db.First(&targetUser, userID)` with the string `userID` of the path, which the
handler does not parse (the sibling handlers call `strconv.ParseUint` first): a plain
numeral is a lookup by key, and every other text goes to the store as it is
(`env.rawFirst`); an error and an empty result are both `none`. -/
def DB.firstUserWhere (db : DB) (env : Env) (userID : String) : Option User :=
  match parseKey userID with
  | some id => db.users.find? (fun u => u.ID == id)
  | none => env.rawFirst userID db.users

/-- The request struct of `Register`. -/
structure RegisterRequest where
  Username : String
  Email : String
  Password : String
  FullName : String
deriving DecidableEq, Repr

/-- The request struct of `CreatePlayer`. -/
structure CreatePlayerRequest where
  Name : String
  Email : String
  Username : String
  Password : String
  Ranking : Int
deriving DecidableEq, Repr

/-- The request struct of `UpdateProfile`. -/
structure UpdateProfileRequest where
  FullName : String
  Email : String
  Ranking : Int
deriving DecidableEq, Repr

/-- The request struct of `ChangePassword`. -/
structure ChangePasswordRequest where
  CurrentPassword : String
  NewPassword : String
deriving DecidableEq, Repr

/-- The request struct of `UpdatePlayer`. -/
structure UpdatePlayerRequest where
  Name : String
  Email : String
  Ranking : Int
deriving DecidableEq, Repr

/-- Source: `AuthController.Register`: `body` is the outcome of decoding the request body. -/
def Register (env : Env) (db : DB) (body : Except String RegisterRequest) :
    DB × HTTPResponse :=
  match body with
  | Except.error msg => (db, errorJSON StatusBadRequest "invalid_input" msg)
  | Except.ok req =>
    match validate
      [("Username", [("required", req.Username != "")]),
       ("Email", [("required", req.Email != ""), ("email", env.isEmail req.Email)]),
       ("Password", [("required", req.Password != ""),
                     ("min", decide (6 ≤ req.Password.length))]),
       ("FullName", [("required", req.FullName != "")])] with
    | some msg => (db, errorJSON StatusBadRequest "invalid_input" msg)
    | none =>
      let user : User :=
        { ID := 0, Username := req.Username, Email := req.Email, Password := req.Password,
          FullName := req.FullName, Role := RolePlayer, IsActive := false, Ranking := 0 }
      match user.HashPassword env with
      | none =>
        (db, errorJSON StatusInternalServerError "password_hash_failed"
          "Failed to hash password")
      | some user =>
        match db.createUser user with
        | none =>
          (db, errorJSON StatusInternalServerError "database_error"
            "Failed to create user account")
        | some created =>
          match env.GenerateToken created.2 with
          | none =>
            (created.1, errorJSON StatusInternalServerError "token_generation_failed"
              "Failed to generate authentication token")
          | some token =>
            (created.1, successJSON StatusCreated "User registered successfully"
              (some [("user", Value.user (ToUserResponse created.2)),
                     ("token", Value.str token)]))

/-- Source: `PlayerController.CreatePlayer`. -/
def CreatePlayer (env : Env) (db : DB) (body : Except String CreatePlayerRequest) :
    DB × HTTPResponse :=
  match body with
  | Except.error msg => (db, errorJSON StatusBadRequest "invalid_input" msg)
  | Except.ok req =>
    match validate
      [("Name", [("required", req.Name != "")]),
       ("Email", [("required", req.Email != ""), ("email", env.isEmail req.Email)]),
       ("Username", [("required", req.Username != "")]),
       ("Password", [("required", req.Password != ""),
                     ("min", decide (6 ≤ req.Password.length))])] with
    | some msg => (db, errorJSON StatusBadRequest "invalid_input" msg)
    | none =>
      let user : User :=
        { ID := 0, Username := req.Username, Email := req.Email, Password := req.Password,
          FullName := req.Name, Role := RolePlayer, Ranking := req.Ranking,
          IsActive := true }
      match user.HashPassword env with
      | none =>
        (db, errorJSON StatusInternalServerError "password_hash_failed"
          "Failed to hash password")
      | some user =>
        match db.createUser user with
        | none =>
          (db, errorJSON StatusInternalServerError "database_error"
            "Failed to create player")
        | some created =>
          let user := created.2
          let playerResponse : PlayerResponse :=
            { ID := user.ID, Name := user.FullName, Email := user.Email,
              Ranking := user.Ranking }
          (created.1, successJSON StatusCreated "Player created successfully"
            (some playerResponse.members))

/-- The user `UpdateProfile` saves: the context user with the fields of the request
written over it. -/
def updatedProfile (userObj : User) (req : UpdateProfileRequest) : User :=
  let u1 : User := if req.FullName != "" then { userObj with FullName := req.FullName }
    else userObj
  let u2 : User := if req.Email != "" then { u1 with Email := req.Email } else u1
  if decide (req.Ranking > 0) && u2.IsPlayer then { u2 with Ranking := req.Ranking } else u2

/-- Source: `AuthController.UpdateProfile`: `userObj` is the user in the context. -/
def UpdateProfile (db : DB) (userObj : User) (body : Except String UpdateProfileRequest) :
    DB × HTTPResponse :=
  match body with
  | Except.error msg => (db, errorJSON StatusBadRequest "invalid_input" msg)
  | Except.ok req =>
    let userObj := updatedProfile userObj req
    match db.saveUser userObj with
    | none =>
      (db, errorJSON StatusInternalServerError "database_error" "Failed to update profile")
    | some db1 =>
      (db1, successJSON StatusOK "Profile updated successfully"
        (some (ToUserResponse userObj).members))

/-- Source: `AuthController.ChangePassword`: `userObj` is the user in the context. -/
def ChangePassword (env : Env) (db : DB) (userObj : User)
    (body : Except String ChangePasswordRequest) : DB × HTTPResponse :=
  match body with
  | Except.error msg => (db, errorJSON StatusBadRequest "invalid_input" msg)
  | Except.ok req =>
    match validate
      [("CurrentPassword", [("required", req.CurrentPassword != "")]),
       ("NewPassword", [("required", req.NewPassword != ""),
                        ("min", decide (6 ≤ req.NewPassword.length))])] with
    | some msg => (db, errorJSON StatusBadRequest "invalid_input" msg)
    | none =>
      if !userObj.CheckPassword env req.CurrentPassword then
        (db, errorJSON StatusBadRequest "invalid_current_password"
          "Current password is incorrect")
      else
        let userObj : User := { userObj with Password := req.NewPassword }
        match userObj.HashPassword env with
        | none =>
          (db, errorJSON StatusInternalServerError "password_hash_failed"
            "Failed to hash new password")
        | some userObj =>
          match db.saveUser userObj with
          | none =>
            (db, errorJSON StatusInternalServerError "database_error"
              "Failed to update password")
          | some db1 => (db1, successJSON StatusOK "Password changed successfully" none)

/-- The user `UpdatePlayer` saves: the row read with the fields of the request written
over it. -/
def updatedPlayer (user : User) (req : UpdatePlayerRequest) : User :=
  let u1 : User := if req.Name != "" then { user with FullName := req.Name } else user
  let u2 : User := if req.Email != "" then { u1 with Email := req.Email } else u1
  { u2 with Ranking := req.Ranking }

/-- Source: `PlayerController.UpdatePlayer`: `idParam` is the path parameter `id`. -/
def UpdatePlayer (db : DB) (idParam : String) (body : Except String UpdatePlayerRequest) :
    DB × HTTPResponse :=
  match ParseUint32 idParam with
  | none => (db, errorJSON StatusBadRequest "invalid_id" "Invalid player ID")
  | some id =>
    match db.firstPlayer id with
    | none => (db, errorJSON StatusNotFound "not_found" "Player not found")
    | some user =>
      match body with
      | Except.error msg => (db, errorJSON StatusBadRequest "invalid_input" msg)
      | Except.ok req =>
        let user := updatedPlayer user req
        let playerResponse : PlayerResponse :=
          { ID := user.ID, Name := user.FullName, Email := user.Email,
            Ranking := user.Ranking }
        match db.saveUser user with
        | none =>
          (db, errorJSON StatusInternalServerError "database_error"
            "Failed to update player")
        | some db1 =>
          (db1, successJSON StatusOK "Player updated successfully"
            (some playerResponse.members))

/-- Source: `AuthController.UpdateUserRole`: `userID` is the path parameter `user_id`, `body`
the outcome of decoding the request body, either the `role` member or the error text. -/
def UpdateUserRole (env : Env) (db : DB) (userID : String) (body : Except String String) :
    DB × HTTPResponse :=
  match body with
  | Except.error msg => (db, errorJSON StatusBadRequest "invalid_input" msg)
  | Except.ok role =>
    match validate [("Role", [("required", role != "")])] with
    | some msg => (db, errorJSON StatusBadRequest "invalid_input" msg)
    | none =>
      if role != RolePlayer && role != RoleAdmin then
        (db, errorJSON StatusBadRequest "invalid_role" "Role must be 'player' or 'admin'")
      else
        match db.firstUserWhere env userID with
        | none => (db, errorJSON StatusNotFound "user_not_found" "User not found")
        | some targetUser =>
          let targetUser : User := { targetUser with Role := role }
          match db.saveUser targetUser with
          | none =>
            (db, errorJSON StatusInternalServerError "database_error"
              "Failed to update user role")
          | some db1 =>
            (db1, successJSON StatusOK "User role updated successfully"
              (some (ToUserResponse targetUser).members))

/-- Source: `AuthController.GetProfile`: `userObj` is the user in the context. -/
def GetProfile (userObj : User) : HTTPResponse :=
  { status := StatusOK, body := Body.user (ToUserResponse userObj) }

/-- The response of `TournamentRegistrationController.GetMyRegistrations`, whose rows are
`GetMyRegistrations` (the preloaded tournament of each row left out). -/
def GetMyRegistrationsResponse (db : DB) (userObj : User) : HTTPResponse :=
  { status := StatusOK, body := Body.registrations (GetMyRegistrations db userObj) }

/-- The request struct of `Login`. -/
structure LoginRequest where
  Username : String
  Password : String
deriving DecidableEq, Repr

/-- Source: `db.Where("username = ? OR email = ?", name, name).First(&user)`. -/
def DB.firstUserByLogin (db : DB) (name : String) : Option User :=
  db.users.find? (fun u => u.Username == name || u.Email == name)

/-- Source: `AuthController.Login`: `body` is the outcome of decoding the request body.  The
handler writes nothing to the store. -/
def Login (env : Env) (db : DB) (body : Except String LoginRequest) : HTTPResponse :=
  match body with
  | Except.error msg => errorJSON StatusBadRequest "invalid_input" msg
  | Except.ok req =>
    match validate [("Username", [("required", req.Username != "")]),
                    ("Password", [("required", req.Password != "")])] with
    | some msg => errorJSON StatusBadRequest "invalid_input" msg
    | none =>
      match db.firstUserByLogin req.Username with
      | none =>
        errorJSON StatusUnauthorized "invalid_credentials" "Invalid username or password"
      | some user =>
        if !user.CheckPassword env req.Password then
          errorJSON StatusUnauthorized "invalid_credentials" "Invalid username or password"
        else if !user.IsActive then
          errorJSON StatusUnauthorized "account_deactivated"
            "Your account has been deactivated"
        else
          match env.GenerateToken user with
          | none =>
            errorJSON StatusInternalServerError "token_generation_failed"
              "Failed to generate authentication token"
          | some token =>
            successJSON StatusOK "Login successful"
              (some [("user", Value.user (ToUserResponse user)),
                     ("token", Value.str token)])

/-! ## controllers: tournaments -/

/-- The zero value of `models.User`. -/
def User.zero : User :=
  { ID := 0, Username := "", Email := "", Password := "", FullName := "", Role := "",
    IsActive := false, Ranking := 0 }

/-- The members of a request body that `ShouldBindJSON(&tournament)` writes into a
`models.Tournament`: `none` for a member that is absent or `null`, which leaves the field
as it is.  `ID` is the member `id` of the embedded `BaseModel`; `Admin` is the user decoded
from the object under `admin`, the member of the relation `Admin` (the password of a user
is hidden from JSON and stays empty; the relations of the nested user are left out).  The
members for dates and fees, and the members `matches`, `players` and `teams`, whose rows go
to other tables, are not modelled. -/
structure TournamentJSON where
  ID : Option Nat := none
  Name : Option String := none
  Description : Option String := none
  Type_ : Option String := none
  Status : Option String := none
  MaxPlayers : Option Int := none
  MaxTeams : Option Int := none
  AdminID : Option Nat := none
  Admin : Option User := none
deriving DecidableEq, Repr

/-- The columns of the tournament after `ShouldBindJSON(&tournament)` decoded the body `j`
into it. -/
def TournamentJSON.bind (j : TournamentJSON) (t : Tournament) : Tournament :=
  { t with
    ID := j.ID.getD t.ID,
    Name := j.Name.getD t.Name,
    Description := j.Description.getD t.Description,
    Type_ := j.Type_.getD t.Type_,
    Status := j.Status.getD t.Status,
    MaxPlayers := j.MaxPlayers.getD t.MaxPlayers,
    MaxTeams := j.MaxTeams.getD t.MaxTeams,
    AdminID := j.AdminID.getD t.AdminID }

/-- The relation `Admin` of the tournament after decoding the body `j` into it: before the
decoding it holds the zero value, in a new tournament and in one read by `First` alike
(nothing is preloaded). -/
def TournamentJSON.boundAdmin (j : TournamentJSON) : User := j.Admin.getD User.zero

/-- The zero value of `models.Tournament` (`var tournament models.Tournament`). -/
def Tournament.zero : Tournament :=
  { ID := 0, Name := "", Description := "", Type_ := "", Status := "", MaxPlayers := 0,
    MaxTeams := 0, AdminID := 0 }

/-- A row put into a table at the place of its key, the table being in key order. -/
def insertByKey {α : Type} (key : α → Nat) (r : α) : List α → List α
  | [] => [r]
  | x :: xs => if key r < key x then r :: x :: xs else x :: insertByKey key r xs

/-- Source: the write of the relation `Admin` that `db.Create(&tournament)` and
`db.Save(&tournament)` start with when the bound `Admin` is not the zero value.  The
relation belongs to the tournament (`foreignKey:AdminID`), so the mapping library inserts
the nested user into the user table first and lets the store skip the insert on any
conflict (a key, a username or an email in use).  The result is the store and the key the
nested user carries afterwards: the key of the body, or the key the store assigned, or 0
when the body gave none and the insert was skipped. -/
def DB.saveAdmin (db : DB) (admin : User) : DB × Nat :=
  if admin.ID = 0 then
    match db.createUser admin with
    | none => (db, 0)
    | some created => (created.1, created.2.ID)
  else if db.users.any (fun x => x.ID == admin.ID || x.Username == admin.Username ||
      x.Email == admin.Email) then (db, admin.ID)
  else
    let admin1 : User :=
      { admin with
        Role := if admin.Role = "" then "player" else admin.Role,
        IsActive := if admin.IsActive = false then true else admin.IsActive }
    ({ db with users := insertByKey (fun u => u.ID) admin1 db.users,
               nextUserID := max db.nextUserID (admin.ID + 1) }, admin.ID)

/-- The store and the tournament after the write of the relation `Admin`: a relation that
holds the zero value is not written; otherwise the mapping library sets `AdminID` of the
tournament to the key of the nested user, over what the member `admin_id` gave. -/
def DB.withAdmin (db : DB) (t : Tournament) (admin : User) : DB × Tournament :=
  if admin = User.zero then (db, t)
  else ((db.saveAdmin admin).1, { t with AdminID := (db.saveAdmin admin).2 })

/-- The tournament as the store inserts it: a field with a `default:` tag that holds its
zero value takes the default. -/
def Tournament.withDefaults (t : Tournament) : Tournament :=
  { t with
    Type_ := if t.Type_ = "" then "singles" else t.Type_,
    Status := if t.Status = "" then "upcoming" else t.Status,
    MaxPlayers := if t.MaxPlayers = 0 then 16 else t.MaxPlayers,
    MaxTeams := if t.MaxTeams = 0 then 8 else t.MaxTeams }

/-- The insert of a tournament without key: the store assigns the next key. -/
def DB.appendTournament (db : DB) (t : Tournament) : DB × Tournament :=
  let t1 : Tournament := { t.withDefaults with ID := db.nextTournamentID }
  ({ db with tournaments := db.tournaments ++ [t1],
             nextTournamentID := db.nextTournamentID + 1 }, t1)

/-- The insert of a tournament under the key it carries, which no row has. -/
def DB.insertTournament (db : DB) (t : Tournament) : DB × Tournament :=
  ({ db with tournaments := insertByKey (fun x => x.ID) t.withDefaults db.tournaments,
             nextTournamentID := max db.nextTournamentID (t.ID + 1) }, t.withDefaults)

/-- Source: `db.Create(&tournament)`, after the write of the relation `Admin`: a
tournament without key gets the next one; a tournament that carries a key is inserted
under it, and `none` is the error of the store when a row has that key. -/
def DB.createTournament (db : DB) (t : Tournament) : Option (DB × Tournament) :=
  if t.ID = 0 then some (db.appendTournament t)
  else if db.tournaments.any (fun x => x.ID == t.ID) then none
  else some (db.insertTournament t)

/-- Source: `db.Save(&tournament)`, after the write of the relation `Admin`: every column
of the row with the key of the tournament is rewritten; a tournament without key is
inserted as by `Create`, and one whose key no row has is inserted under that key. -/
def DB.saveTournament (db : DB) (t : Tournament) : DB × Tournament :=
  if t.ID = 0 then db.appendTournament t
  else if db.tournaments.any (fun x => x.ID == t.ID) then
    ({ db with tournaments := db.tournaments.map (fun x => if x.ID = t.ID then t else x) }, t)
  else db.insertTournament t

/-- Source: `TournamentController.CreateTournament`: `userObj` is the user in the context,
which the handler does not read; `body` is the outcome of decoding the request body.  The
writes of `Create` are one transaction: when the insert of the tournament fails, the
nested user is not stored either. -/
def CreateTournament (db : DB) (_userObj : User) (body : Except String TournamentJSON) :
    DB × HTTPResponse :=
  match body with
  | Except.error msg => (db, errorJSON StatusBadRequest "invalid_input" msg)
  | Except.ok j =>
    let tournament := j.bind Tournament.zero
    let related := db.withAdmin tournament j.boundAdmin
    match related.1.createTournament related.2 with
    | none =>
      (db, errorJSON StatusInternalServerError "database_error"
        "Failed to create tournament")
    | some created =>
      (created.1, successJSON StatusCreated "Tournament created successfully"
        (some (ToTournamentResponse created.2).members))

/-- Source: `TournamentController.UpdateTournament`: `userObj` is the user in the context,
which the handler does not read; `idParam` is the path parameter `id`. -/
def UpdateTournament (db : DB) (_userObj : User) (idParam : String)
    (body : Except String TournamentJSON) : DB × HTTPResponse :=
  match ParseUint32 idParam with
  | none => (db, errorJSON StatusBadRequest "invalid_id" "Invalid tournament ID")
  | some id =>
    match db.firstTournament id with
    | none => (db, errorJSON StatusNotFound "not_found" "Tournament not found")
    | some tournament =>
      match body with
      | Except.error msg => (db, errorJSON StatusBadRequest "invalid_input" msg)
      | Except.ok j =>
        let tournament := j.bind tournament
        let related := db.withAdmin tournament j.boundAdmin
        let saved := related.1.saveTournament related.2
        let tournament :=
          match saved.1.firstTournament saved.2.ID with
          | some reloaded => reloaded
          | none => saved.2
        (saved.1, successJSON StatusOK "Tournament updated successfully"
          (some (ToTournamentResponse tournament).members))

/-! ## RegisterForTournament as two steps -/

/-- The reading part of `RegisterForTournament` (lines 24 to 92): the statements up to the
capacity test, none of which writes.  `Except.error` is the response the handler returns
with, `Except.ok` the registration it goes on to create. -/
def registerCheck (db : DB) (userObj : User) (tournamentIDParam : String) :
    Except HTTPResponse TournamentPlayer :=
  if !userObj.IsPlayer then
    Except.error (errorJSON StatusForbidden "player_required"
      "Only players can register for tournaments")
  else
    match ParseUint32 tournamentIDParam with
    | none =>
      Except.error (errorJSON StatusBadRequest "invalid_tournament_id" "Invalid tournament ID")
    | some tournamentID =>
      match db.firstTournament tournamentID with
      | none =>
        Except.error (errorJSON StatusNotFound "tournament_not_found" "Tournament not found")
      | some tournament =>
        if tournament.Status ≠ TournamentUpcoming then
          Except.error (errorJSON StatusBadRequest "registration_closed"
            "Registration is closed for this tournament")
        else
          match db.firstTournamentPlayer tournamentID userObj.ID with
          | some _ =>
            Except.error (errorJSON StatusConflict "already_registered"
              "You are already registered for this tournament")
          | none =>
            let registrationCount := db.countTournamentPlayers tournamentID
            let maxParticipants := tournament.GetMaxParticipants
            if (registrationCount : Int) ≥ maxParticipants then
              Except.error (errorJSON StatusBadRequest "tournament_full" "Tournament is full")
            else
              Except.ok { ID := 0, TournamentID := tournamentID, PlayerID := userObj.ID,
                          Status := "registered" }

/-- The writing part of `RegisterForTournament` (lines 94 to 112): the `Create` and the
response. -/
def registerInsert (db : DB) (registration : TournamentPlayer) : DB × HTTPResponse :=
  let created := db.createTournamentPlayer registration
  (created.1, successJSON StatusCreated "Successfully registered for tournament"
    (some [("registration_id", Value.num created.2.ID)]))

/-- Where a `RegisterForTournament` request stands: not begun, past its reading part with
the registration it is about to create, or answered. -/
inductive Phase where
  | start (userObj : User) (tournamentIDParam : String)
  | checked (registration : TournamentPlayer)
  | done (response : HTTPResponse)
deriving DecidableEq, Repr

/-- Requests being handled at the same time over one store.  No transaction spans the two
parts of a handler, so each part is one indivisible step on the store. -/
structure Concurrent where
  db : DB
  requests : List Phase
deriving DecidableEq, Repr

/-- The next step of request `i`: its reading part, then its writing part; an answered
request, or an index past the requests, does nothing. -/
def Concurrent.step (c : Concurrent) (i : Nat) : Concurrent :=
  match c.requests.get? i with
  | some (Phase.start userObj tournamentIDParam) =>
    match registerCheck c.db userObj tournamentIDParam with
    | Except.error response =>
      { c with requests := c.requests.set i (Phase.done response) }
    | Except.ok registration =>
      { c with requests := c.requests.set i (Phase.checked registration) }
  | some (Phase.checked registration) =>
    let result := registerInsert c.db registration
    { db := result.1, requests := c.requests.set i (Phase.done result.2) }
  | _ => c

/-- The state after the steps of a schedule, a list of request indices. -/
def Concurrent.run (c : Concurrent) (schedule : List Nat) : Concurrent :=
  schedule.foldl Concurrent.step c

/-- The requests of the callers `us` for the tournament named by `param`, none begun. -/
def Concurrent.init (db : DB) (us : List User) (param : String) : Concurrent :=
  { db := db, requests := us.map (fun u => Phase.start u param) }

/-- The number of requests answered with 201. -/
def Concurrent.succeeded (c : Concurrent) : Nat :=
  c.requests.countP (fun p =>
    match p with
    | Phase.done r => r.status == StatusCreated
    | _ => false)

/-- The store after the writing parts for the registrations `regs`, in order. -/
def insertAll (db : DB) (regs : List TournamentPlayer) : DB :=
  regs.foldl (fun d r => (registerInsert d r).1) db

/-- The registration value the reading part hands to the writing part for tournament `tid`
and caller `u`. -/
def pendingRegistration (tid : Nat) (u : User) : TournamentPlayer :=
  { ID := 0, TournamentID := tid, PlayerID := u.ID, Status := "registered" }

/-! ## derived notions used by the statements -/

/-- A response has the agreed shape when a `SuccessResponse` goes with a 2xx status and an
`ErrorResponse` with a failure status; any other body has not. -/
def HTTPResponse.wellShaped (r : HTTPResponse) : Bool :=
  match r.body with
  | Body.success _ => decide (200 ≤ r.status ∧ r.status < 300)
  | Body.error _ => decide (400 ≤ r.status ∧ r.status < 600)
  | _ => false

/-- The user `UpdatePlayer` stores for the row `u` and the request `r`, field by field. -/
def storedByUpdatePlayer (u : User) (r : UpdatePlayerRequest) : User :=
  { u with
    FullName := if r.Name = "" then u.FullName else r.Name,
    Email := if r.Email = "" then u.Email else r.Email,
    Ranking := r.Ranking }

/-- The user `UpdateProfile` stores for the context user `u` and the request `r`, field by
field. -/
def storedByUpdateProfile (u : User) (r : UpdateProfileRequest) : User :=
  { u with
    FullName := if r.FullName = "" then u.FullName else r.FullName,
    Email := if r.Email = "" then u.Email else r.Email,
    Ranking := if r.Ranking > 0 ∧ u.Role = "player" then r.Ranking else u.Ranking }


/-- The owner the request body `j` gives a tournament whose `AdminID` is `stored` before
the body is decoded: the key of the user under the member `admin` when the body carries one
that is not the zero value, else the member `admin_id`, else `stored`. -/
def TournamentJSON.owner (j : TournamentJSON) (db : DB) (stored : Nat) : Nat :=
  if j.boundAdmin = User.zero then j.AdminID.getD stored
  else (db.saveAdmin j.boundAdmin).2

/-- The pairs (key, role) of the user table, in table order. -/
def DB.roles (db : DB) : List (Nat × String) := db.users.map (fun u => (u.ID, u.Role))

/-- Whether no two rows of the user table with different keys share a username or an
email: the state the `unique` tags of `models.User` keep the table in. -/
def DB.usersDistinct (db : DB) : Bool := db.users.all (fun x => !db.userConflict x)


/-- A registration row is active when its status is not `withdrawn`. -/
def TournamentPlayer.active (r : TournamentPlayer) : Bool := r.Status != "withdrawn"

/-- A team registration row is active when its status is not `withdrawn`. -/
def TournamentTeam.active (r : TournamentTeam) : Bool := r.Status != "withdrawn"

/-- Number of active player registrations of tournament `t`. -/
def DB.activePlayerCount (db : DB) (t : Nat) : Nat :=
  db.tournamentPlayers.countP (fun r => r.TournamentID == t && r.active)

/-- Number of active registrations of player `p` for tournament `t`. -/
def DB.activeRegistrations (db : DB) (t p : Nat) : Nat :=
  db.tournamentPlayers.countP (fun r => r.TournamentID == t && r.PlayerID == p && r.active)

/-- Number of active team registrations of tournament `t`. -/
def DB.activeTeamCount (db : DB) (t : Nat) : Nat :=
  db.tournamentTeams.countP (fun r => r.TournamentID == t && r.active)

/-- The row `RegisterForTournament` creates for tournament `tid` and player `p`, with the
key the store assigns to it. -/
def newRegistration (db : DB) (tid p : Nat) : TournamentPlayer :=
  { ID := db.nextTournamentPlayerID, TournamentID := tid, PlayerID := p,
    Status := "registered" }

/-- The row `RegisterTeamForTournament` creates for tournament `tid` and team `team`. -/
def newTeamRegistration (db : DB) (tid team : Nat) : TournamentTeam :=
  { ID := db.nextTournamentTeamID, TournamentID := tid, TeamID := team,
    Status := "registered" }

/-- The columns of a registration row that a withdrawal must not touch. -/
def TournamentPlayer.key (r : TournamentPlayer) : Nat × Nat × Nat :=
  (r.ID, r.TournamentID, r.PlayerID)

/-- A call of one of the two player registration handlers. -/
inductive Call where
  | register (userObj : User) (tournamentIDParam : String)
  | unregister (userObj : User) (tournamentIDParam : String)
deriving DecidableEq, Repr

/-- The store after a call. -/
def Call.run (db : DB) : Call → DB
  | Call.register u p => (RegisterForTournament db u p).1
  | Call.unregister u p => (UnregisterFromTournament db u p).1

/-- The store after a sequence of calls, handled one after the other. -/
def runCalls (db : DB) (calls : List Call) : DB := calls.foldl Call.run db

/-- A `RegisterTeamForTournament` request: caller, path parameter and decoded body. -/
structure TeamCall where
  userObj : User
  tournamentIDParam : String
  body : Except String Nat

/-- The store after a sequence of `RegisterTeamForTournament` calls. -/
def runTeamCalls (db : DB) (calls : List TeamCall) : DB :=
  calls.foldl
    (fun d c => (RegisterTeamForTournament d c.userObj c.tournamentIDParam c.body).1) db

/-! ## sample data -/

/-- A player account with key `n`. -/
def samplePlayer (n : Nat) : User :=
  { ID := n, Username := "p", Email := "p@example.org", Password := "", FullName := "P",
    Role := RolePlayer, IsActive := true, Ranking := 0 }

/-- An admin account with key `n`. -/
def sampleAdmin (n : Nat) : User :=
  { samplePlayer n with Role := RoleAdmin }

/-- An upcoming singles tournament with key 1 and room for two players. -/
def sampleTournament : Tournament :=
  { ID := 1, Name := "Open", Description := "", Type_ := TournamentSingles,
    Status := TournamentUpcoming, MaxPlayers := 2, MaxTeams := 8, AdminID := 9 }

/-- A store holding only `sampleTournament`. -/
def db0 : DB := { tournaments := [sampleTournament], nextTournamentID := 2 }

/-- A store whose only tournament, with key 1, is completed. -/
def dbClosed : DB :=
  { tournaments := [{ sampleTournament with Status := TournamentCompleted }],
    nextTournamentID := 2 }

/-- The store `db0` after player 1 registered. -/
def dbP1 : DB := (RegisterForTournament db0 (samplePlayer 1) "1").1

/-- The store `dbP1` after player 2 registered: the tournament is at capacity. -/
def dbP1P2 : DB := (RegisterForTournament dbP1 (samplePlayer 2) "1").1

/-- The store `dbP1P2` after player 1 withdrew. -/
def dbP2 : DB := (UnregisterFromTournament dbP1P2 (samplePlayer 1) "1").1

/-- The store `dbP1` after player 1 withdrew. -/
def dbNone : DB := (UnregisterFromTournament dbP1 (samplePlayer 1) "1").1

/-- An upcoming doubles tournament with key 1 and room for one team. -/
def sampleDoubles : Tournament :=
  { ID := 1, Name := "Pairs", Description := "", Type_ := TournamentDoubles,
    Status := TournamentUpcoming, MaxPlayers := 16, MaxTeams := 1, AdminID := 9 }

/-- A store with `sampleDoubles` and two teams: players 1, 2 form team 1 and players 3, 4
form team 2. -/
def dbTeams : DB :=
  { tournaments := [sampleDoubles],
    teams := [{ ID := 1, Name := "A", Description := "" },
              { ID := 2, Name := "B", Description := "" }],
    teamPlayers := [{ ID := 1, TeamID := 1, PlayerID := 1, Role := "captain" },
                    { ID := 2, TeamID := 1, PlayerID := 2, Role := "player" },
                    { ID := 3, TeamID := 2, PlayerID := 3, Role := "captain" },
                    { ID := 4, TeamID := 2, PlayerID := 4, Role := "player" }],
    nextTeamID := 3, nextTeamPlayerID := 5, nextTournamentID := 2 }

/-- The store `dbTeams` after player 1 registered team 1. -/
def dbTeam1 : DB := (RegisterTeamForTournament dbTeams (samplePlayer 1) "1" (Except.ok 1)).1

/-- The store `dbTeams` with its doubles tournament completed. -/
def dbTeamsDone : DB :=
  { dbTeams with tournaments := [{ sampleDoubles with Status := TournamentCompleted }] }

/-- A pending singles match between players 1 and 2 with no winner yet. -/
def sampleMatch : Match :=
  { ID := 1, TournamentID := some 1, Type_ := MatchSingles, Status := MatchPending,
    MatchDate := 0, Round := "final", Player1ID := some 1, Player2ID := some 2,
    Player1Score := 21, Player2Score := 15, Team1ID := none, Team2ID := none,
    Team1Score := 0, Team2Score := 0, WinnerPlayerID := none, WinnerTeamID := none }

/-- A player account of the club. -/
def alice : User :=
  { ID := 1, Username := "alice", Email := "alice@example.org", Password := "",
    FullName := "Alice", Role := RolePlayer, IsActive := true, Ranking := 3 }

/-- A second player account of the club. -/
def bob : User :=
  { ID := 2, Username := "bob", Email := "bob@example.org", Password := "",
    FullName := "Bob", Role := RolePlayer, IsActive := true, Ranking := 5 }

/-- The admin account of the club. -/
def carol : User :=
  { ID := 3, Username := "carol", Email := "carol@example.org", Password := "",
    FullName := "Carol", Role := RoleAdmin, IsActive := true, Ranking := 0 }

/-- A sample environment: hashing prepends a marker, every token is "t", an address needs
an at sign, and the store finds nothing for a text that is no plain numeral. -/
def sampleEnv : Env :=
  { GenerateFromPassword := fun p => some ("$2a$" ++ p),
    CompareHashAndPassword := fun h p => h == "$2a$" ++ p,
    GenerateToken := fun _ => some "t",
    isEmail := fun s => s.toList.contains '@',
    rawFirst := fun _ _ => none }

/-- The account of `bob` with its password set to the sample hash of "secret1" and the
account switched off. -/
def bobOff : User := { bob with Password := "$2a$secret1", IsActive := false }

/-- The account of `alice` with its password set to the sample hash of "secret1". -/
def aliceKeyed : User := { alice with Password := "$2a$secret1" }

/-- A store with the keyed accounts of `alice` and `bobOff`. -/
def dbLogin : DB := { users := [aliceKeyed, bobOff], nextUserID := 3 }

/-- A store with the three accounts and no tournament. -/
def dbAccounts : DB := { users := [alice, bob, carol], nextUserID := 4 }

/-- The store `dbAccounts` after `carol` created the tournament "Cup" in her own name. -/
def dbCup : DB :=
  (CreateTournament dbAccounts carol
    (Except.ok { Name := some "Cup", AdminID := some 3 })).1

/-- A store with three accounts, the doubles tournament and no team. -/
def dbClub : DB :=
  { users := [alice, bob, carol], tournaments := [sampleDoubles],
    nextUserID := 4, nextTournamentID := 2 }

/-- The store `dbClub` after `alice` formed the team "A" with `bob`. -/
def dbClubTeam : DB :=
  (CreateTeam dbClub alice (Except.ok { Name := "A", Description := "", PartnerID := 2 })).1


/-! ## the branches of the handlers -/

theorem register_not_player (db : DB) (u : User) (param : String) (h : u.IsPlayer = false) :
    RegisterForTournament db u param =
      (db, errorJSON StatusForbidden "player_required"
        "Only players can register for tournaments") := by
  simp [RegisterForTournament, h]

theorem register_bad_param (db : DB) (u : User) (param : String) (h : u.IsPlayer = true)
    (hp : ParseUint32 param = none) :
    RegisterForTournament db u param =
      (db, errorJSON StatusBadRequest "invalid_tournament_id" "Invalid tournament ID") := by
  simp [RegisterForTournament, h, hp]

theorem register_not_found (db : DB) (u : User) (param : String) (tid : Nat)
    (h : u.IsPlayer = true) (hp : ParseUint32 param = some tid)
    (ht : db.firstTournament tid = none) :
    RegisterForTournament db u param =
      (db, errorJSON StatusNotFound "tournament_not_found" "Tournament not found") := by
  simp [RegisterForTournament, h, hp, ht]

theorem register_closed (db : DB) (u : User) (param : String) (tid : Nat) (t : Tournament)
    (h : u.IsPlayer = true) (hp : ParseUint32 param = some tid)
    (ht : db.firstTournament tid = some t) (hs : t.Status ≠ TournamentUpcoming) :
    RegisterForTournament db u param =
      (db, errorJSON StatusBadRequest "registration_closed"
        "Registration is closed for this tournament") := by
  simp [RegisterForTournament, h, hp, ht, hs]

theorem register_already (db : DB) (u : User) (param : String) (tid : Nat) (t : Tournament)
    (r : TournamentPlayer)
    (h : u.IsPlayer = true) (hp : ParseUint32 param = some tid)
    (ht : db.firstTournament tid = some t) (hs : t.Status = TournamentUpcoming)
    (hr : db.firstTournamentPlayer tid u.ID = some r) :
    RegisterForTournament db u param =
      (db, errorJSON StatusConflict "already_registered"
        "You are already registered for this tournament") := by
  simp [RegisterForTournament, h, hp, ht, hs, hr]

theorem register_full (db : DB) (u : User) (param : String) (tid : Nat) (t : Tournament)
    (h : u.IsPlayer = true) (hp : ParseUint32 param = some tid)
    (ht : db.firstTournament tid = some t) (hs : t.Status = TournamentUpcoming)
    (hr : db.firstTournamentPlayer tid u.ID = none)
    (hc : t.GetMaxParticipants ≤ (db.countTournamentPlayers tid : Int)) :
    RegisterForTournament db u param =
      (db, errorJSON StatusBadRequest "tournament_full" "Tournament is full") := by
  simp [RegisterForTournament, h, hp, ht, hs, hr, hc]

theorem register_success (db : DB) (u : User) (param : String) (tid : Nat) (t : Tournament)
    (h : u.IsPlayer = true) (hp : ParseUint32 param = some tid)
    (ht : db.firstTournament tid = some t) (hs : t.Status = TournamentUpcoming)
    (hr : db.firstTournamentPlayer tid u.ID = none)
    (hc : (db.countTournamentPlayers tid : Int) < t.GetMaxParticipants) :
    RegisterForTournament db u param =
      ({ db with
          tournamentPlayers := db.tournamentPlayers ++ [newRegistration db tid u.ID],
          nextTournamentPlayerID := db.nextTournamentPlayerID + 1 },
        successJSON StatusCreated "Successfully registered for tournament"
          (some [("registration_id", Value.num db.nextTournamentPlayerID)])) := by
  have hc1 : ¬ t.GetMaxParticipants ≤ (db.countTournamentPlayers tid : Int) := not_le.mpr hc
  simp [RegisterForTournament, h, hp, ht, hs, hr, hc1, DB.createTournamentPlayer,
    newRegistration]

theorem register_cases (db : DB) (u : User) (param : String) :
    (RegisterForTournament db u param).1 = db ∨
    ∃ tid t, ParseUint32 param = some tid ∧ db.firstTournament tid = some t ∧
      db.firstTournamentPlayer tid u.ID = none ∧
      (db.countTournamentPlayers tid : Int) < t.GetMaxParticipants ∧
      (RegisterForTournament db u param).1 =
        { db with
          tournamentPlayers := db.tournamentPlayers ++ [newRegistration db tid u.ID],
          nextTournamentPlayerID := db.nextTournamentPlayerID + 1 } := by
  cases h : u.IsPlayer with
  | false => left; rw [register_not_player db u param h]
  | true =>
    cases hp : ParseUint32 param with
    | none => left; rw [register_bad_param db u param h hp]
    | some tid =>
      cases ht : db.firstTournament tid with
      | none => left; rw [register_not_found db u param tid h hp ht]
      | some t =>
        by_cases hs : t.Status = TournamentUpcoming
        · cases hr : db.firstTournamentPlayer tid u.ID with
          | some r => left; rw [register_already db u param tid t r h hp ht hs hr]
          | none =>
            by_cases hc : (db.countTournamentPlayers tid : Int) < t.GetMaxParticipants
            · right
              exact ⟨tid, t, rfl, ht, hr, hc, by
                rw [register_success db u param tid t h hp ht hs hr hc]⟩
            · left; rw [register_full db u param tid t h hp ht hs hr (not_lt.mp hc)]
        · left; rw [register_closed db u param tid t h hp ht hs]

theorem unregister_bad_param (db : DB) (u : User) (param : String)
    (hp : ParseUint32 param = none) :
    UnregisterFromTournament db u param =
      (db, errorJSON StatusBadRequest "invalid_tournament_id" "Invalid tournament ID") := by
  simp [UnregisterFromTournament, hp]

theorem unregister_not_found (db : DB) (u : User) (param : String) (tid : Nat)
    (hp : ParseUint32 param = some tid) (hr : db.firstTournamentPlayer tid u.ID = none) :
    UnregisterFromTournament db u param =
      (db, errorJSON StatusNotFound "registration_not_found"
        "You are not registered for this tournament") := by
  simp [UnregisterFromTournament, hp, hr]

theorem unregister_success (db : DB) (u : User) (param : String) (tid : Nat)
    (r : TournamentPlayer)
    (hp : ParseUint32 param = some tid) (hr : db.firstTournamentPlayer tid u.ID = some r) :
    UnregisterFromTournament db u param =
      (db.saveTournamentPlayer { r with Status := "withdrawn" },
        successJSON StatusOK "Successfully withdrawn from tournament" none) := by
  simp [UnregisterFromTournament, hp, hr]

theorem unregister_cases (db : DB) (u : User) (param : String) :
    (UnregisterFromTournament db u param).1 = db ∨
    ∃ tid r, ParseUint32 param = some tid ∧ db.firstTournamentPlayer tid u.ID = some r ∧
      (UnregisterFromTournament db u param).1 =
        db.saveTournamentPlayer { r with Status := "withdrawn" } := by
  cases hp : ParseUint32 param with
  | none => left; rw [unregister_bad_param db u param hp]
  | some tid =>
    cases hr : db.firstTournamentPlayer tid u.ID with
    | none => left; rw [unregister_not_found db u param tid hp hr]
    | some r =>
      right
      exact ⟨tid, r, rfl, hr, by rw [unregister_success db u param tid r hp hr]⟩


/-! ## counting registrations -/

theorem active_le_count (db : DB) (tid : Nat) :
    db.activePlayerCount tid ≤ db.countTournamentPlayers tid := by
  unfold DB.activePlayerCount DB.countTournamentPlayers
  apply List.countP_mono_left
  intro x _ hx
  simp only [Bool.and_eq_true] at hx
  exact hx.1

theorem countP_save_le (p : TournamentPlayer → Bool) (rows : List TournamentPlayer)
    (r : TournamentPlayer) (hr : p r = false) :
    (rows.map (fun x => if x.ID = r.ID then r else x)).countP p ≤ rows.countP p := by
  rw [List.countP_map]
  apply List.countP_mono_left
  intro x _ hx
  simp only [Function.comp] at hx
  by_cases h : x.ID = r.ID
  · simp [h, hr] at hx
  · simpa [h] using hx

theorem register_tournaments (db : DB) (u : User) (param : String) :
    (RegisterForTournament db u param).1.tournaments = db.tournaments := by
  rcases register_cases db u param with h | ⟨_, _, _, _, _, _, h⟩ <;> rw [h]

theorem unregister_tournaments (db : DB) (u : User) (param : String) :
    (UnregisterFromTournament db u param).1.tournaments = db.tournaments := by
  rcases unregister_cases db u param with h | ⟨_, _, _, _, h⟩ <;> rw [h]
  rfl

theorem register_active_le (db : DB) (u : User) (param : String) (tid : Nat)
    (t : Tournament) (ht : db.firstTournament tid = some t)
    (hinv : (db.activePlayerCount tid : Int) ≤ t.GetMaxParticipants) :
    ((RegisterForTournament db u param).1.activePlayerCount tid : Int)
      ≤ t.GetMaxParticipants := by
  rcases register_cases db u param with h | ⟨tid1, t1, _, ht1, _, hlt, h⟩
  · rw [h]; exact hinv
  · rw [h]
    by_cases e : tid1 = tid
    · subst e
      rw [ht] at ht1
      cases ht1
      have hle := active_le_count db tid1
      have hc : ({ db with
          tournamentPlayers := db.tournamentPlayers ++ [newRegistration db tid1 u.ID],
          nextTournamentPlayerID := db.nextTournamentPlayerID + 1 } : DB).activePlayerCount
            tid1 ≤ db.activePlayerCount tid1 + 1 := by
        simp only [DB.activePlayerCount, List.countP_append]
        have := List.countP_le_length
          (fun r : TournamentPlayer => r.TournamentID == tid1 && r.active)
          (l := [newRegistration db tid1 u.ID])
        simp only [List.length_singleton] at this
        omega
      omega
    · have hc : ({ db with
          tournamentPlayers := db.tournamentPlayers ++ [newRegistration db tid1 u.ID],
          nextTournamentPlayerID := db.nextTournamentPlayerID + 1 } : DB).activePlayerCount
            tid = db.activePlayerCount tid := by
        simp [DB.activePlayerCount, List.countP_append, newRegistration, e]
      rw [hc]; exact hinv

theorem unregister_active_le (db : DB) (u : User) (param : String) (tid : Nat) :
    (UnregisterFromTournament db u param).1.activePlayerCount tid
      ≤ db.activePlayerCount tid := by
  rcases unregister_cases db u param with h | ⟨_, r, _, _, h⟩
  · rw [h]
  · rw [h]
    unfold DB.activePlayerCount DB.saveTournamentPlayer
    apply countP_save_le
    simp [TournamentPlayer.active]

/-- C3. Sequential capacity invariant of the player path: for a tournament `t` stored
under key `tid`, if the number of active (non-withdrawn) player registrations of `tid` is
at most `GetMaxParticipants t`, it is still at most that after one `RegisterForTournament`
call, after one `UnregisterFromTournament` call, and after any sequence of such calls, by
any callers and with any path parameters. -/
theorem C3_capacity_invariant (db : DB) (tid : Nat) (t : Tournament)
    (ht : db.firstTournament tid = some t)
    (hinv : (db.activePlayerCount tid : Int) ≤ t.GetMaxParticipants) :
    (∀ (u : User) (param : String),
      ((RegisterForTournament db u param).1.activePlayerCount tid : Int)
        ≤ t.GetMaxParticipants) ∧
    (∀ (u : User) (param : String),
      ((UnregisterFromTournament db u param).1.activePlayerCount tid : Int)
        ≤ t.GetMaxParticipants) ∧
    (∀ calls : List Call,
      (runCalls db calls).firstTournament tid = some t ∧
      ((runCalls db calls).activePlayerCount tid : Int) ≤ t.GetMaxParticipants) := by
  have hstep : ∀ (d : DB) (c : Call), d.firstTournament tid = some t →
      (d.activePlayerCount tid : Int) ≤ t.GetMaxParticipants →
      (c.run d).firstTournament tid = some t ∧
        ((c.run d).activePlayerCount tid : Int) ≤ t.GetMaxParticipants := by
    intro d c hd hi
    cases c with
    | register u p =>
      refine ⟨?_, register_active_le d u p tid t hd hi⟩
      simp only [Call.run, DB.firstTournament, register_tournaments]
      exact hd
    | unregister u p =>
      constructor
      · simp only [Call.run, DB.firstTournament, unregister_tournaments]
        exact hd
      · have := unregister_active_le d u p tid
        simp only [Call.run]
        omega
  refine ⟨fun u p => register_active_le db u p tid t ht hinv, fun u p => ?_, ?_⟩
  · have := unregister_active_le db u p tid
    omega
  · intro calls
    induction calls generalizing db with
    | nil => exact ⟨ht, hinv⟩
    | cons c cs ih =>
      obtain ⟨h1, h2⟩ := hstep db c ht hinv
      exact ih (c.run db) h1 h2

/-- Witness of C3 on the sample store at capacity: player 3 is turned away, player 1
withdraws, and the count stays within the two places. -/
theorem C3_capacity_invariant_witness :
    dbP1P2.firstTournament 1 = some sampleTournament ∧
    (dbP1P2.activePlayerCount 1 : Int) ≤ sampleTournament.GetMaxParticipants ∧
    ((runCalls dbP1P2 [Call.register (samplePlayer 3) "1",
        Call.unregister (samplePlayer 1) "1"]).activePlayerCount 1 : Int)
      ≤ sampleTournament.GetMaxParticipants :=
  ⟨by decide, by decide,
    ((C3_capacity_invariant dbP1P2 1 sampleTournament (by decide) (by decide)).2.2
      [Call.register (samplePlayer 3) "1", Call.unregister (samplePlayer 1) "1"]).2⟩


/-! ## C1, C2: withdrawal and the slot it should free -/

/-- C1. The spec's scenario on the code: in a tournament with two places, players 1 and 2
register (201), player 3 is turned away, player 1 withdraws (200) and is no longer active,
so one of the two places is free and player 3 holds no row; yet the second attempt of
player 3 is rejected with `tournament_full`, since the count of line 83 includes the
withdrawn row. -/
theorem C1_withdrawal_does_not_free_slot :
    (RegisterForTournament db0 (samplePlayer 1) "1").2.status = StatusCreated ∧
    (RegisterForTournament dbP1 (samplePlayer 2) "1").2.status = StatusCreated ∧
    RegisterForTournament dbP1P2 (samplePlayer 3) "1" =
      (dbP1P2, errorJSON StatusBadRequest "tournament_full" "Tournament is full") ∧
    (UnregisterFromTournament dbP1P2 (samplePlayer 1) "1").2.status = StatusOK ∧
    dbP2.firstTournament 1 = some sampleTournament ∧
    sampleTournament.Status = TournamentUpcoming ∧
    sampleTournament.GetMaxParticipants = 2 ∧
    dbP2.activePlayerCount 1 = 1 ∧
    dbP2.firstTournamentPlayer 1 3 = none ∧
    RegisterForTournament dbP2 (samplePlayer 3) "1" =
      (dbP2, errorJSON StatusBadRequest "tournament_full" "Tournament is full") := by
  decide

/-- C2. Withdrawal followed by registration of the same player on the code: player 1
registers (201) in a tournament with two places and withdraws (200); the tournament then
has no active registration at all, yet the new registration of player 1 is rejected with
409 `already_registered`, since the lookup of line 72 finds the withdrawn row, and the
player is left without an active registration. -/
theorem C2_reregistration_after_withdrawal_rejected :
    (RegisterForTournament db0 (samplePlayer 1) "1").2.status = StatusCreated ∧
    (UnregisterFromTournament dbP1 (samplePlayer 1) "1").2.status = StatusOK ∧
    dbNone.firstTournament 1 = some sampleTournament ∧
    sampleTournament.Status = TournamentUpcoming ∧
    sampleTournament.GetMaxParticipants = 2 ∧
    dbNone.activePlayerCount 1 = 0 ∧
    RegisterForTournament dbNone (samplePlayer 1) "1" =
      (dbNone, errorJSON StatusConflict "already_registered"
        "You are already registered for this tournament") ∧
    dbNone.activeRegistrations 1 1 = 0 ∧
    GetMyRegistrations dbNone (samplePlayer 1) = [] := by
  decide

/-! ## C4: no second registration -/

theorem find_isSome_of_mem {α : Type} (p : α → Bool) (l : List α) (x : α) (hx : x ∈ l)
    (hp : p x = true) : ∃ y, l.find? p = some y := by
  cases h : l.find? p with
  | some y => exact ⟨y, rfl⟩
  | none =>
    rw [List.find?_eq_none] at h
    exact absurd hp (h x hx)

theorem register_activeRegistrations_le (db : DB) (u : User) (param : String) (t p : Nat)
    (h : db.activeRegistrations t p ≤ 1) :
    (RegisterForTournament db u param).1.activeRegistrations t p ≤ 1 := by
  rcases register_cases db u param with e | ⟨tid, _, _, _, hnone, _, e⟩
  · rw [e]; exact h
  · rw [e]
    by_cases hk : tid = t ∧ u.ID = p
    · obtain ⟨rfl, rfl⟩ := hk
      have h0 : db.activeRegistrations tid u.ID = 0 := by
        unfold DB.activeRegistrations
        rw [List.countP_eq_zero]
        intro x hx hpx
        unfold DB.firstTournamentPlayer at hnone
        rw [List.find?_eq_none] at hnone
        apply hnone x hx
        simp only [Bool.and_eq_true] at hpx ⊢
        exact hpx.1
      simp only [DB.activeRegistrations, List.countP_append] at h0 ⊢
      have := List.countP_le_length
        (fun r : TournamentPlayer => r.TournamentID == tid && r.PlayerID == u.ID && r.active)
        (l := [newRegistration db tid u.ID])
      simp only [List.length_singleton] at this
      omega
    · have hc : ({ db with
          tournamentPlayers := db.tournamentPlayers ++ [newRegistration db tid u.ID],
          nextTournamentPlayerID := db.nextTournamentPlayerID + 1 } : DB).activeRegistrations
            t p = db.activeRegistrations t p := by
        simp only [DB.activeRegistrations, List.countP_append, newRegistration]
        simp only [List.countP_cons, List.countP_nil]
        have : ((tid == t) && (u.ID == p)) = false := by
          simp only [Bool.and_eq_false_iff, beq_eq_false_iff_ne]
          by_contra hcon
          push_neg at hcon
          exact hk hcon
        simp [this]
      rw [hc]; exact h

theorem unregister_activeRegistrations_le (db : DB) (u : User) (param : String)
    (t p : Nat) :
    (UnregisterFromTournament db u param).1.activeRegistrations t p
      ≤ db.activeRegistrations t p := by
  rcases unregister_cases db u param with h | ⟨_, r, _, _, h⟩
  · rw [h]
  · rw [h]
    unfold DB.activeRegistrations DB.saveTournamentPlayer
    apply countP_save_le
    simp [TournamentPlayer.active]

/-- C4. A player who holds an active registration for an upcoming tournament and calls
`RegisterForTournament` for it again gets 409 `already_registered` and the store is left
as it was; and whatever the call, a pair (tournament, player) with at most one active
registration has at most one after a `RegisterForTournament` call and after an
`UnregisterFromTournament` call, so no player comes to hold two. -/
theorem C4_second_registration_conflict (db : DB) (u : User) (param : String) (tid : Nat)
    (t : Tournament) (r : TournamentPlayer)
    (hplayer : u.IsPlayer = true) (hparse : ParseUint32 param = some tid)
    (ht : db.firstTournament tid = some t) (hup : t.Status = TournamentUpcoming)
    (hr : r ∈ db.tournamentPlayers) (hrt : r.TournamentID = tid) (hrp : r.PlayerID = u.ID)
    (hact : r.active = true) :
    RegisterForTournament db u param =
      (db, errorJSON StatusConflict "already_registered"
        "You are already registered for this tournament") ∧
    (RegisterForTournament db u param).2.status = 409 ∧
    ∀ (d : DB) (v : User) (q : String) (t1 p1 : Nat), d.activeRegistrations t1 p1 ≤ 1 →
      (RegisterForTournament d v q).1.activeRegistrations t1 p1 ≤ 1 ∧
      (UnregisterFromTournament d v q).1.activeRegistrations t1 p1 ≤ 1 := by
  have _ := hact
  obtain ⟨y, hy⟩ := find_isSome_of_mem
    (fun x : TournamentPlayer => x.TournamentID == tid && x.PlayerID == u.ID)
    db.tournamentPlayers r hr (by simp [hrt, hrp])
  have e := register_already db u param tid t y hplayer hparse ht hup hy
  refine ⟨e, ?_, fun d v q t1 p1 h =>
    ⟨register_activeRegistrations_le d v q t1 p1 h,
      le_trans (unregister_activeRegistrations_le d v q t1 p1) h⟩⟩
  rw [e]; rfl

/-- Witness of C4: player 1, registered in the sample tournament, registers again. -/
theorem C4_second_registration_conflict_witness :
    (samplePlayer 1).IsPlayer = true ∧ ParseUint32 "1" = some 1 ∧
    dbP1.firstTournament 1 = some sampleTournament ∧
    sampleTournament.Status = TournamentUpcoming ∧
    newRegistration db0 1 1 ∈ dbP1.tournamentPlayers ∧
    (newRegistration db0 1 1).active = true ∧
    RegisterForTournament dbP1 (samplePlayer 1) "1" =
      (dbP1, errorJSON StatusConflict "already_registered"
        "You are already registered for this tournament") :=
  ⟨by decide, by decide, by decide, by decide, by decide, by decide,
    (C4_second_registration_conflict dbP1 (samplePlayer 1) "1" 1 sampleTournament
      (newRegistration db0 1 1) (by decide) (by decide) (by decide) (by decide) (by decide)
      (by decide) (by decide) (by decide)).1⟩

/-! ## C5: a full tournament -/

/-- C5, as stated, fails on the code: the sample tournament is upcoming and at capacity
(two active registrations, two places), player 3 holds no registration for it, and the
rejection carries status 400, not 409 (Conflict). -/
theorem C5_counterexample :
    (samplePlayer 3).IsPlayer = true ∧ ParseUint32 "1" = some 1 ∧
    dbP1P2.firstTournament 1 = some sampleTournament ∧
    sampleTournament.Status = TournamentUpcoming ∧
    sampleTournament.GetMaxParticipants ≤ (dbP1P2.activePlayerCount 1 : Int) ∧
    (∀ r ∈ dbP1P2.tournamentPlayers, ¬ (r.TournamentID = 1 ∧ r.PlayerID = 3)) ∧
    (RegisterForTournament dbP1P2 (samplePlayer 3) "1").2.status ≠ StatusConflict ∧
    (RegisterForTournament dbP1P2 (samplePlayer 3) "1").2.status = StatusBadRequest := by
  decide

theorem first_none_of_no_row (db : DB) (tid p : Nat)
    (h : ∀ r ∈ db.tournamentPlayers, ¬ (r.TournamentID = tid ∧ r.PlayerID = p)) :
    db.firstTournamentPlayer tid p = none := by
  unfold DB.firstTournamentPlayer
  rw [List.find?_eq_none]
  intro x hx hpx
  apply h x hx
  simpa using hpx

theorem no_row_of_first_none (db : DB) (tid p : Nat)
    (h : db.firstTournamentPlayer tid p = none) :
    ∀ r ∈ db.tournamentPlayers, ¬ (r.TournamentID = tid ∧ r.PlayerID = p) := by
  unfold DB.firstTournamentPlayer at h
  rw [List.find?_eq_none] at h
  intro x hx hpx
  apply h x hx
  simpa using hpx

/-- C5, amended. For an upcoming tournament whose count of active registrations is at
least its capacity (`MaxTeams` if its type is doubles, else `MaxPlayers`), a
`RegisterForTournament` call by a player with no registration row for it is rejected with
status 400 (BadRequest) and error `tournament_full`, and the store is left as it was. -/
theorem C5_full_tournament_rejected (db : DB) (u : User) (param : String) (tid : Nat)
    (t : Tournament)
    (hplayer : u.IsPlayer = true) (hparse : ParseUint32 param = some tid)
    (ht : db.firstTournament tid = some t) (hup : t.Status = TournamentUpcoming)
    (hfull : (if t.Type_ = TournamentDoubles then t.MaxTeams else t.MaxPlayers)
      ≤ (db.activePlayerCount tid : Int))
    (hnone : ∀ r ∈ db.tournamentPlayers, ¬ (r.TournamentID = tid ∧ r.PlayerID = u.ID)) :
    RegisterForTournament db u param =
      (db, errorJSON 400 "tournament_full" "Tournament is full") ∧
    (RegisterForTournament db u param).1.tournamentPlayers = db.tournamentPlayers := by
  have hcap : t.GetMaxParticipants ≤ (db.countTournamentPlayers tid : Int) := by
    have h1 := active_le_count db tid
    have h2 : t.GetMaxParticipants
        = (if t.Type_ = TournamentDoubles then t.MaxTeams else t.MaxPlayers) := by
      simp [Tournament.GetMaxParticipants, Tournament.IsTeamTournament]
    rw [h2]
    omega
  have e := register_full db u param tid t hplayer hparse ht hup
    (first_none_of_no_row db tid u.ID hnone) hcap
  exact ⟨e, by rw [e]⟩

/-- Witness of C5 (amended): player 3 at the sample tournament at capacity. -/
theorem C5_full_tournament_rejected_witness :
    (samplePlayer 3).IsPlayer = true ∧ ParseUint32 "1" = some 1 ∧
    dbP1P2.firstTournament 1 = some sampleTournament ∧
    sampleTournament.Status = TournamentUpcoming ∧
    RegisterForTournament dbP1P2 (samplePlayer 3) "1" =
      (dbP1P2, errorJSON 400 "tournament_full" "Tournament is full") :=
  ⟨by decide, by decide, by decide, by decide,
    (C5_full_tournament_rejected dbP1P2 (samplePlayer 3) "1" 1 sampleTournament
      (by decide) (by decide) (by decide) (by decide) (by decide) (by decide)).1⟩

/-! ## C6: the guards of RegisterForTournament -/

/-- C6. The guards of `RegisterForTournament` in order, each leaving the store as it was:
a caller whose role is not `player` gets 403 whatever the path parameter and the store;
otherwise, for a key with no tournament, 404; otherwise, for a tournament whose status is
not `upcoming`, `registration_closed`. -/
theorem C6_guards_in_order (db : DB) (u : User) (param : String) :
    (u.Role ≠ RolePlayer →
      RegisterForTournament db u param =
        (db, errorJSON 403 "player_required"
          "Only players can register for tournaments")) ∧
    (u.Role = RolePlayer → ∀ tid, ParseUint32 param = some tid →
      (db.firstTournament tid = none →
        RegisterForTournament db u param =
          (db, errorJSON 404 "tournament_not_found" "Tournament not found")) ∧
      (∀ t, db.firstTournament tid = some t → t.Status ≠ TournamentUpcoming →
        RegisterForTournament db u param =
          (db, errorJSON StatusBadRequest "registration_closed"
            "Registration is closed for this tournament"))) := by
  constructor
  · intro h
    exact register_not_player db u param (by simp [User.IsPlayer, h])
  · intro h tid hp
    have hpl : u.IsPlayer = true := by simp [User.IsPlayer, h]
    exact ⟨fun hn => register_not_found db u param tid hpl hp hn,
      fun t ht hs => register_closed db u param tid t hpl hp ht hs⟩

/-- Witness of C6: an admin is refused with 403 for a parameter that is not even a number,
a player gets 404 for the unused key 7 and `registration_closed` for a completed
tournament. -/
theorem C6_guards_in_order_witness :
    RegisterForTournament db0 (sampleAdmin 5) "x" =
      (db0, errorJSON 403 "player_required" "Only players can register for tournaments") ∧
    RegisterForTournament db0 (samplePlayer 1) "7" =
      (db0, errorJSON 404 "tournament_not_found" "Tournament not found") ∧
    RegisterForTournament dbClosed (samplePlayer 1) "1" =
      (dbClosed, errorJSON StatusBadRequest "registration_closed"
        "Registration is closed for this tournament") :=
  ⟨(C6_guards_in_order db0 (sampleAdmin 5) "x").1 (by decide),
    ((C6_guards_in_order db0 (samplePlayer 1) "7").2 (by decide) 7 (by decide)).1
      (by decide),
    ((C6_guards_in_order dbClosed (samplePlayer 1) "1").2 (by decide) 1 (by decide)).2
      { sampleTournament with Status := TournamentCompleted } (by decide) (by decide)⟩

/-! ## C7: a successful registration -/

/-- C7. If the caller is a player, the tournament exists and is upcoming, the caller has no
registration row for it and the number of its registration rows is below its capacity, then
`RegisterForTournament` answers 201 with the key of a new row as `registration_id`; the
registration table is the old one followed by exactly that row, which carries the
tournament key, the caller's key and status `registered`; the new key is the one the store
hands out, different from every key in use when those are below it; and no other table
changes. -/
theorem C7_register_success (db : DB) (u : User) (param : String) (tid : Nat)
    (t : Tournament)
    (hplayer : u.IsPlayer = true) (hparse : ParseUint32 param = some tid)
    (ht : db.firstTournament tid = some t) (hup : t.Status = TournamentUpcoming)
    (hnone : ∀ r ∈ db.tournamentPlayers, ¬ (r.TournamentID = tid ∧ r.PlayerID = u.ID))
    (hroom : (db.countTournamentPlayers tid : Int) < t.GetMaxParticipants) :
    ∃ row : TournamentPlayer,
      row.TournamentID = tid ∧ row.PlayerID = u.ID ∧ row.Status = "registered" ∧
      row.ID = db.nextTournamentPlayerID ∧
      ((∀ r ∈ db.tournamentPlayers, r.ID < db.nextTournamentPlayerID) →
        ∀ r ∈ db.tournamentPlayers, r.ID ≠ row.ID) ∧
      (RegisterForTournament db u param).2 =
        successJSON 201 "Successfully registered for tournament"
          (some [("registration_id", Value.num row.ID)]) ∧
      (RegisterForTournament db u param).1.tournamentPlayers
        = db.tournamentPlayers ++ [row] ∧
      (RegisterForTournament db u param).1 =
        { db with tournamentPlayers := db.tournamentPlayers ++ [row],
                  nextTournamentPlayerID := db.nextTournamentPlayerID + 1 } := by
  have e := register_success db u param tid t hplayer hparse ht hup
    (first_none_of_no_row db tid u.ID hnone) hroom
  refine ⟨newRegistration db tid u.ID, rfl, rfl, rfl, rfl, ?_, ?_, ?_, ?_⟩
  · intro hlt r hr heq
    have := hlt r hr
    simp only [newRegistration] at heq
    omega
  · rw [e]; rfl
  · rw [e]
  · rw [e]

/-- Witness of C7: player 2 registers in the sample tournament after player 1. -/
theorem C7_register_success_witness :
    (samplePlayer 2).IsPlayer = true ∧ ParseUint32 "1" = some 1 ∧
    dbP1.firstTournament 1 = some sampleTournament ∧
    sampleTournament.Status = TournamentUpcoming ∧
    (dbP1.countTournamentPlayers 1 : Int) < sampleTournament.GetMaxParticipants ∧
    ∃ row : TournamentPlayer,
      row.TournamentID = 1 ∧ row.PlayerID = (samplePlayer 2).ID ∧
      row.Status = "registered" ∧
      row.ID = dbP1.nextTournamentPlayerID ∧
      ((∀ r ∈ dbP1.tournamentPlayers, r.ID < dbP1.nextTournamentPlayerID) →
        ∀ r ∈ dbP1.tournamentPlayers, r.ID ≠ row.ID) ∧
      (RegisterForTournament dbP1 (samplePlayer 2) "1").2 =
        successJSON 201 "Successfully registered for tournament"
          (some [("registration_id", Value.num row.ID)]) ∧
      (RegisterForTournament dbP1 (samplePlayer 2) "1").1.tournamentPlayers
        = dbP1.tournamentPlayers ++ [row] ∧
      (RegisterForTournament dbP1 (samplePlayer 2) "1").1 =
        { dbP1 with tournamentPlayers := dbP1.tournamentPlayers ++ [row],
                    nextTournamentPlayerID := dbP1.nextTournamentPlayerID + 1 } :=
  ⟨by decide, by decide, by decide, by decide, by decide,
    C7_register_success dbP1 (samplePlayer 2) "1" 1 sampleTournament
      (by decide) (by decide) (by decide) (by decide) (by decide) (by decide)⟩

/-! ## C8, C9: withdrawal -/

/-- C8, as stated, fails on the code: in `dbNone` player 1 has withdrawn and holds no
active registration for tournament 1; the next `UnregisterFromTournament` call answers
200, not 404. -/
theorem C8_counterexample :
    ParseUint32 "1" = some 1 ∧
    (UnregisterFromTournament dbP1 (samplePlayer 1) "1").2.status = StatusOK ∧
    (UnregisterFromTournament dbP1 (samplePlayer 1) "1").1 = dbNone ∧
    (∀ r ∈ dbNone.tournamentPlayers,
      r.TournamentID = 1 → r.PlayerID = (samplePlayer 1).ID → r.active = false) ∧
    (UnregisterFromTournament dbNone (samplePlayer 1) "1").2.status ≠ StatusNotFound ∧
    (UnregisterFromTournament dbNone (samplePlayer 1) "1").2.status = StatusOK := by
  decide

theorem find_map_save (p : TournamentPlayer → Bool) (r0 r1 : TournamentPlayer)
    (hp : p r1 = true) (hid : r1.ID = r0.ID) (l : List TournamentPlayer)
    (h : l.find? p = some r0) :
    (l.map (fun x => if x.ID = r1.ID then r1 else x)).find? p = some r1 := by
  induction l with
  | nil => simp at h
  | cons x xs ih =>
    rw [List.map_cons, List.find?_cons]
    by_cases hx : x.ID = r1.ID
    · simp [hx, hp]
    · rw [if_neg hx]
      rw [List.find?_cons] at h
      cases hpx : p x with
      | true =>
        rw [hpx] at h
        simp only [Option.some.injEq] at h
        exact absurd (by rw [h, hid]) hx
      | false =>
        rw [hpx] at h
        simp only
        exact ih h

theorem first_withdrawn (db : DB) (tid p : Nat) (r0 : TournamentPlayer)
    (h : db.firstTournamentPlayer tid p = some r0) :
    (db.saveTournamentPlayer { r0 with Status := "withdrawn" }).firstTournamentPlayer tid p
      = some { r0 with Status := "withdrawn" } := by
  unfold DB.firstTournamentPlayer at h
  have hp : (fun r : TournamentPlayer => r.TournamentID == tid && r.PlayerID == p)
      ({ r0 with Status := "withdrawn" } : TournamentPlayer) = true := by
    have := List.find?_some h
    simpa using this
  exact find_map_save _ r0 { r0 with Status := "withdrawn" } hp rfl db.tournamentPlayers h

/-- C8, amended. `UnregisterFromTournament` answers 404 `registration_not_found` exactly
when the caller has no registration row, whatever its status, for the tournament, and
answers 200 otherwise; in particular a call repeated after a successful withdrawal answers
200 again. -/
theorem C8_not_found_iff_no_row (db : DB) (u : User) (param : String) (tid : Nat)
    (hparse : ParseUint32 param = some tid) :
    ((UnregisterFromTournament db u param).2 =
        errorJSON 404 "registration_not_found" "You are not registered for this tournament"
      ↔ ∀ r ∈ db.tournamentPlayers, ¬ (r.TournamentID = tid ∧ r.PlayerID = u.ID)) ∧
    ((UnregisterFromTournament db u param).2.status = 404 ∨
      (UnregisterFromTournament db u param).2.status = 200) ∧
    ((UnregisterFromTournament db u param).2.status = 200 →
      (UnregisterFromTournament (UnregisterFromTournament db u param).1 u param).2.status
        = 200) := by
  cases hr : db.firstTournamentPlayer tid u.ID with
  | none =>
    have e := unregister_not_found db u param tid hparse hr
    refine ⟨⟨fun _ => no_row_of_first_none db tid u.ID hr, fun _ => by rw [e]; rfl⟩,
      Or.inl (by rw [e]; rfl), ?_⟩
    rw [e]
    intro h
    simp [errorJSON, StatusNotFound] at h
  | some r0 =>
    have e := unregister_success db u param tid r0 hparse hr
    refine ⟨⟨?_, ?_⟩, Or.inr (by rw [e]; rfl), ?_⟩
    · rw [e]
      intro h
      simp [errorJSON, successJSON] at h
    · intro h
      rw [first_none_of_no_row db tid u.ID h] at hr
      exact absurd hr (by simp)
    · intro _
      rw [e]
      rw [unregister_success _ u param tid _ hparse (first_withdrawn db tid u.ID r0 hr)]
      rfl

/-- Witness of C8 (amended): player 1 withdraws from the sample tournament twice. -/
theorem C8_not_found_iff_no_row_witness :
    ParseUint32 "1" = some 1 ∧
    (UnregisterFromTournament dbP1 (samplePlayer 1) "1").2.status = 200 ∧
    (UnregisterFromTournament (UnregisterFromTournament dbP1 (samplePlayer 1) "1").1
      (samplePlayer 1) "1").2.status = 200 :=
  ⟨by decide, by decide,
    (C8_not_found_iff_no_row dbP1 (samplePlayer 1) "1" 1 (by decide)).2.2 (by decide)⟩

theorem save_eq_of_nodup (rows : List TournamentPlayer) (r0 : TournamentPlayer)
    (hkey : (rows.map (fun r => r.ID)).Nodup) (hmem : r0 ∈ rows) :
    rows.map (fun x => if x.ID = ({ r0 with Status := "withdrawn" } : TournamentPlayer).ID
        then ({ r0 with Status := "withdrawn" } : TournamentPlayer) else x)
      = rows.map (fun x => if x = r0 then { x with Status := "withdrawn" } else x) := by
  apply List.map_congr_left
  intro x hx
  have hinj := List.inj_on_of_nodup_map hkey
  by_cases h : x = r0
  · subst h
    simp
  · have hne : ¬ x.ID = r0.ID := fun hid => h (hinj hx hmem hid)
    simp [h, hne]

theorem map_withdraw_key (rows : List TournamentPlayer) (r0 : TournamentPlayer) :
    (rows.map (fun x => if x = r0 then { x with Status := "withdrawn" } else x)).map
        TournamentPlayer.key
      = rows.map TournamentPlayer.key := by
  rw [List.map_map]
  apply List.map_congr_left
  intro x _
  by_cases h : x = r0 <;> simp [h, TournamentPlayer.key]

theorem unregister_twice (db : DB) (u : User) (param : String) :
    (UnregisterFromTournament (UnregisterFromTournament db u param).1 u param).1
      = (UnregisterFromTournament db u param).1 := by
  cases hp : ParseUint32 param with
  | none => simp [unregister_bad_param db u param hp]
  | some tid =>
    cases hr : db.firstTournamentPlayer tid u.ID with
    | none => simp [unregister_not_found db u param tid hp hr]
    | some r0 =>
      rw [unregister_success db u param tid r0 hp hr]
      rw [unregister_success _ u param tid _ hp (first_withdrawn db tid u.ID r0 hr)]
      simp only [DB.saveTournamentPlayer, List.map_map]
      congr 1
      apply List.map_congr_left
      intro x _
      by_cases h : x.ID = r0.ID <;> simp [h]

/-- C9. `UnregisterFromTournament` never deletes.  With the keys of the registration table
pairwise different: when the answer is not 200 the store is unchanged; when it is 200 the
caller has a first row `r0` for the tournament, the table has the same length and the same
(id, tournamentId, playerId) triples in the same order, every row other than `r0` is
unchanged and `r0` has become `r0` with status `withdrawn`, and no other table changes;
and a second identical call leaves the store of the first. -/
theorem C9_unregister_frame (db : DB) (u : User) (param : String)
    (hkey : (db.tournamentPlayers.map (fun r => r.ID)).Nodup) :
    ((UnregisterFromTournament db u param).2.status ≠ 200 →
      (UnregisterFromTournament db u param).1 = db) ∧
    ((UnregisterFromTournament db u param).2.status = 200 →
      ∃ tid r0, ParseUint32 param = some tid ∧ r0 ∈ db.tournamentPlayers ∧
        r0.TournamentID = tid ∧ r0.PlayerID = u.ID ∧
        (UnregisterFromTournament db u param).1 =
          { db with tournamentPlayers := (db.tournamentPlayers.map
              (fun x => if x = r0 then { x with Status := "withdrawn" } else x)) } ∧
        (UnregisterFromTournament db u param).1.tournamentPlayers.length
          = db.tournamentPlayers.length ∧
        (UnregisterFromTournament db u param).1.tournamentPlayers.map TournamentPlayer.key
          = db.tournamentPlayers.map TournamentPlayer.key) ∧
    (UnregisterFromTournament (UnregisterFromTournament db u param).1 u param).1
      = (UnregisterFromTournament db u param).1 := by
  refine ⟨?_, ?_, unregister_twice db u param⟩
  · intro hs
    rcases unregister_cases db u param with h | ⟨tid, r, hp, hr, _⟩
    · exact h
    · rw [unregister_success db u param tid r hp hr] at hs
      exact absurd rfl hs
  · intro hs
    cases hp : ParseUint32 param with
    | none =>
      rw [unregister_bad_param db u param hp] at hs
      simp [errorJSON, StatusBadRequest] at hs
    | some tid =>
      cases hr : db.firstTournamentPlayer tid u.ID with
      | none =>
        rw [unregister_not_found db u param tid hp hr] at hs
        simp [errorJSON, StatusNotFound] at hs
      | some r0 =>
        have hmem : r0 ∈ db.tournamentPlayers := List.mem_of_find?_eq_some hr
        have hmatch := List.find?_some hr
        simp only [Bool.and_eq_true, beq_iff_eq] at hmatch
        have e : (UnregisterFromTournament db u param).1 =
            { db with tournamentPlayers := (db.tournamentPlayers.map
                (fun x => if x = r0 then { x with Status := "withdrawn" } else x)) } := by
          rw [unregister_success db u param tid r0 hp hr]
          simp only [DB.saveTournamentPlayer]
          rw [save_eq_of_nodup db.tournamentPlayers r0 hkey hmem]
        refine ⟨tid, r0, rfl, hmem, hmatch.1, hmatch.2, e, ?_, ?_⟩
        · rw [e]; simp
        · rw [e]; exact map_withdraw_key db.tournamentPlayers r0

/-- Witness of C9: player 1 withdraws from the sample tournament at capacity. -/
theorem C9_unregister_frame_witness :
    (dbP1P2.tournamentPlayers.map (fun r => r.ID)).Nodup ∧
    (UnregisterFromTournament dbP1P2 (samplePlayer 1) "1").2.status = 200 ∧
    (UnregisterFromTournament (UnregisterFromTournament dbP1P2 (samplePlayer 1) "1").1
        (samplePlayer 1) "1").1
      = (UnregisterFromTournament dbP1P2 (samplePlayer 1) "1").1 :=
  ⟨by decide, by decide,
    (C9_unregister_frame dbP1P2 (samplePlayer 1) "1" (by decide)).2.2⟩

/-! ## C10: team registrations and `MaxTeams` -/

/-- C10. Two `RegisterTeamForTournament` calls on the code: the doubles tournament has
`MaxTeams = 1`; player 1 registers team 1 (201), which brings the count of active team
registrations to `MaxTeams`; player 3 then registers team 2 and is answered 201 as well,
leaving two active team registrations, one more than `MaxTeams`. -/
theorem C10_team_registration_exceeds_maxTeams :
    dbTeams.firstTournament 1 = some sampleDoubles ∧
    sampleDoubles.IsTeamTournament = true ∧ sampleDoubles.MaxTeams = 1 ∧
    (RegisterTeamForTournament dbTeams (samplePlayer 1) "1" (Except.ok 1)).2.status
      = StatusCreated ∧
    dbTeam1.activeTeamCount 1 = 1 ∧
    (RegisterTeamForTournament dbTeam1 (samplePlayer 3) "1" (Except.ok 2)).2.status
      = StatusCreated ∧
    (RegisterTeamForTournament dbTeam1 (samplePlayer 3) "1" (Except.ok 2)).1.activeTeamCount 1
      = 2 ∧
    (runTeamCalls dbTeams [⟨samplePlayer 1, "1", Except.ok 1⟩,
      ⟨samplePlayer 3, "1", Except.ok 2⟩]).activeTeamCount 1 = 2 := by
  decide


/-! ## C11: registrations and the tournament status -/

/-- C11. `RegisterTeamForTournament` on a tournament that is not upcoming: the doubles
tournament of `dbTeamsDone` has status `completed` and no team registration; player 1, a
member of team 1, registers the team and is answered 201, and the table of team
registrations holds a new row with status `registered`. -/
theorem C11_team_registration_ignores_status :
    dbTeamsDone.firstTournament 1
      = some { sampleDoubles with Status := TournamentCompleted } ∧
    TournamentCompleted ≠ TournamentUpcoming ∧
    dbTeamsDone.tournamentTeams = [] ∧
    (RegisterTeamForTournament dbTeamsDone (samplePlayer 1) "1" (Except.ok 1)).2.status
      = StatusCreated ∧
    (RegisterTeamForTournament dbTeamsDone (samplePlayer 1) "1" (Except.ok 1)).1.tournamentTeams
      = [{ ID := 1, TournamentID := 1, TeamID := 1, Status := "registered" }] := by
  decide

/-- The player path honours the status: for a tournament that is not upcoming
`RegisterForTournament` leaves the store as it was, whoever calls. -/
theorem register_not_upcoming_unchanged (db : DB) (u : User) (param : String) (tid : Nat)
    (t : Tournament) (hp : ParseUint32 param = some tid)
    (ht : db.firstTournament tid = some t) (hs : t.Status ≠ TournamentUpcoming) :
    (RegisterForTournament db u param).1 = db := by
  cases h : u.IsPlayer with
  | false => rw [register_not_player db u param h]
  | true => rw [register_closed db u param tid t h hp ht hs]

/-! ## C12, C13: the guards of RegisterTeamForTournament -/

theorem registerTeam_not_found (db : DB) (u : User) (param : String) (tid teamID : Nat)
    (hp : ParseUint32 param = some tid) (h0 : teamID ≠ 0)
    (ht : db.firstTournament tid = none) :
    RegisterTeamForTournament db u param (Except.ok teamID) =
      (db, errorJSON StatusNotFound "tournament_not_found" "Tournament not found") := by
  simp [RegisterTeamForTournament, hp, h0, ht]

theorem registerTeam_singles (db : DB) (u : User) (param : String) (tid teamID : Nat)
    (t : Tournament) (hp : ParseUint32 param = some tid) (h0 : teamID ≠ 0)
    (ht : db.firstTournament tid = some t) (hd : t.IsTeamTournament = false) :
    RegisterTeamForTournament db u param (Except.ok teamID) =
      (db, errorJSON StatusBadRequest "singles_tournament"
        "This is a singles tournament, not doubles") := by
  simp [RegisterTeamForTournament, hp, h0, ht, hd]

theorem registerTeam_not_member (db : DB) (u : User) (param : String) (tid teamID : Nat)
    (t : Tournament) (hp : ParseUint32 param = some tid) (h0 : teamID ≠ 0)
    (ht : db.firstTournament tid = some t) (hd : t.IsTeamTournament = true)
    (hm : db.firstTeamPlayer teamID u.ID = none) :
    RegisterTeamForTournament db u param (Except.ok teamID) =
      (db, errorJSON StatusForbidden "not_team_member"
        "You are not a member of this team") := by
  simp [RegisterTeamForTournament, hp, h0, ht, hd, hm]

theorem registerTeam_success (db : DB) (u : User) (param : String) (tid teamID : Nat)
    (t : Tournament) (m : TeamPlayer) (hp : ParseUint32 param = some tid) (h0 : teamID ≠ 0)
    (ht : db.firstTournament tid = some t) (hd : t.IsTeamTournament = true)
    (hm : db.firstTeamPlayer teamID u.ID = some m)
    (hr : db.firstTournamentTeam tid teamID = none) :
    RegisterTeamForTournament db u param (Except.ok teamID) =
      ({ db with
          tournamentTeams := db.tournamentTeams ++ [newTeamRegistration db tid teamID],
          nextTournamentTeamID := db.nextTournamentTeamID + 1 },
        successJSON StatusCreated "Team successfully registered for tournament"
          (some [("registration_id", Value.num db.nextTournamentTeamID)])) := by
  simp [RegisterTeamForTournament, hp, h0, ht, hd, hm, hr, DB.createTournamentTeam,
    newTeamRegistration]

/-- C12. For a path parameter that names a key and a request that carries a team key:
when the tournament exists and its type is not `doubles`, `RegisterTeamForTournament`
answers 400 `singles_tournament` for every team and every caller, member or not, and the
store is left as it was; when no tournament has the key it answers 404. -/
theorem C12_wrong_tournament_type (db : DB) (u : User) (param : String) (tid teamID : Nat)
    (hparse : ParseUint32 param = some tid) (hteam : teamID ≠ 0) :
    (∀ t, db.firstTournament tid = some t → t.Type_ ≠ TournamentDoubles →
      RegisterTeamForTournament db u param (Except.ok teamID) =
        (db, errorJSON 400 "singles_tournament"
          "This is a singles tournament, not doubles")) ∧
    (db.firstTournament tid = none →
      RegisterTeamForTournament db u param (Except.ok teamID) =
        (db, errorJSON 404 "tournament_not_found" "Tournament not found")) := by
  constructor
  · intro t ht hty
    exact registerTeam_singles db u param tid teamID t hparse hteam ht
      (by simp [Tournament.IsTeamTournament, hty])
  · intro ht
    exact registerTeam_not_found db u param tid teamID hparse hteam ht

/-- Witness of C12: in the store with the singles tournament 1, player 5, member of no
team, registers team 3, and registers it for the unused key 7. -/
theorem C12_wrong_tournament_type_witness :
    RegisterTeamForTournament db0 (samplePlayer 5) "1" (Except.ok 3) =
      (db0, errorJSON 400 "singles_tournament"
        "This is a singles tournament, not doubles") ∧
    RegisterTeamForTournament db0 (samplePlayer 5) "7" (Except.ok 3) =
      (db0, errorJSON 404 "tournament_not_found" "Tournament not found") :=
  ⟨(C12_wrong_tournament_type db0 (samplePlayer 5) "1" 1 3 (by decide) (by decide)).1
      sampleTournament (by decide) (by decide),
    (C12_wrong_tournament_type db0 (samplePlayer 5) "7" 7 3 (by decide) (by decide)).2
      (by decide)⟩


/-! ## C13, C14, C15: team formation -/

theorem createTeam_not_found (db : DB) (u : User) (req : CreateTeamRequest)
    (hn : req.Name ≠ "") (hp : req.PartnerID ≠ 0)
    (h : db.firstUser req.PartnerID = none) :
    CreateTeam db u (Except.ok req) =
      (db, errorJSON StatusNotFound "partner_not_found" "Partner not found") := by
  simp [CreateTeam, validate, firstFailure, hn, hp, h]

theorem createTeam_not_player (db : DB) (u : User) (req : CreateTeamRequest)
    (partner : User) (hn : req.Name ≠ "") (hp : req.PartnerID ≠ 0)
    (h : db.firstUser req.PartnerID = some partner) (hr : partner.IsPlayer = false) :
    CreateTeam db u (Except.ok req) =
      (db, errorJSON StatusBadRequest "partner_not_player" "Partner must be a player") := by
  simp [CreateTeam, validate, firstFailure, hn, hp, h, hr]

theorem createTeam_success (db : DB) (u : User) (req : CreateTeamRequest)
    (partner : User) (hn : req.Name ≠ "") (hp : req.PartnerID ≠ 0)
    (h : db.firstUser req.PartnerID = some partner) (hr : partner.IsPlayer = true) :
    CreateTeam db u (Except.ok req) =
      ({ db with
          teams := db.teams ++
            [{ ID := db.nextTeamID, Name := req.Name, Description := req.Description }],
          nextTeamID := db.nextTeamID + 1,
          teamPlayers := db.teamPlayers ++
            [{ ID := db.nextTeamPlayerID, TeamID := db.nextTeamID, PlayerID := u.ID,
               Role := "captain" },
             { ID := db.nextTeamPlayerID + 1, TeamID := db.nextTeamID,
               PlayerID := partner.ID, Role := "player" }],
          nextTeamPlayerID := db.nextTeamPlayerID + 1 + 1 },
        successJSON StatusCreated "Team created successfully"
          (some [("team_id", Value.num db.nextTeamID),
                 ("team_name", Value.str req.Name)])) := by
  simp [CreateTeam, validate, firstFailure, hn, hp, h, hr, DB.createTeam,
    DB.createTeamPlayer]

theorem registerTeam_member_success (db : DB) (u : User) (param : String)
    (tid teamID : Nat) (t : Tournament) (row : TeamPlayer)
    (hp : ParseUint32 param = some tid) (h0 : teamID ≠ 0)
    (ht : db.firstTournament tid = some t) (hd : t.IsTeamTournament = true)
    (hrow : row ∈ db.teamPlayers) (hrt : row.TeamID = teamID) (hrp : row.PlayerID = u.ID)
    (hno : ∀ r ∈ db.tournamentTeams, ¬ (r.TournamentID = tid ∧ r.TeamID = teamID)) :
    RegisterTeamForTournament db u param (Except.ok teamID) =
      ({ db with
          tournamentTeams := db.tournamentTeams ++ [newTeamRegistration db tid teamID],
          nextTournamentTeamID := db.nextTournamentTeamID + 1 },
        successJSON StatusCreated "Team successfully registered for tournament"
          (some [("registration_id", Value.num db.nextTournamentTeamID)])) := by
  obtain ⟨m, hm⟩ := find_isSome_of_mem
    (fun r : TeamPlayer => r.TeamID == teamID && r.PlayerID == u.ID) db.teamPlayers row hrow
    (by simp [hrt, hrp])
  have hr : db.firstTournamentTeam tid teamID = none := by
    unfold DB.firstTournamentTeam
    rw [List.find?_eq_none]
    intro x hx hpx
    apply hno x hx
    simpa using hpx
  exact registerTeam_success db u param tid teamID t m hp h0 ht hd hm hr

/-- C13. Membership gates team registration.  For a doubles tournament `t` under the key
named by the path parameter: (1) a caller with no team-player row for the team is answered
403 `not_team_member` and the store is left as it was; (2) after a successful `CreateTeam`
by `p1` with partner `p2`, which gives the team the next team key, a
`RegisterTeamForTournament` call for that team by a caller with the key of `p2`, the team
not being registered for the tournament yet, is answered 201 and appends exactly one team
registration row with the tournament key, the team key and status `registered`. -/
theorem C13_membership_gates_team_registration (db : DB) (param : String) (tid : Nat)
    (t : Tournament) (hparse : ParseUint32 param = some tid)
    (ht : db.firstTournament tid = some t) (hdoubles : t.Type_ = TournamentDoubles) :
    (∀ (u : User) (teamID : Nat), teamID ≠ 0 →
      (∀ r ∈ db.teamPlayers, ¬ (r.TeamID = teamID ∧ r.PlayerID = u.ID)) →
      RegisterTeamForTournament db u param (Except.ok teamID) =
        (db, errorJSON 403 "not_team_member" "You are not a member of this team")) ∧
    (∀ (p1 p2 u : User) (req : CreateTeamRequest),
      req.Name ≠ "" → req.PartnerID ≠ 0 → db.firstUser req.PartnerID = some p2 →
      p2.Role = RolePlayer → u.ID = p2.ID → db.nextTeamID ≠ 0 →
      (∀ r ∈ db.tournamentTeams, ¬ (r.TournamentID = tid ∧ r.TeamID = db.nextTeamID)) →
      (CreateTeam db p1 (Except.ok req)).2.status = 201 ∧
      (RegisterTeamForTournament (CreateTeam db p1 (Except.ok req)).1 u param
          (Except.ok db.nextTeamID)).2 =
        successJSON 201 "Team successfully registered for tournament"
          (some [("registration_id", Value.num db.nextTournamentTeamID)]) ∧
      (RegisterTeamForTournament (CreateTeam db p1 (Except.ok req)).1 u param
          (Except.ok db.nextTeamID)).1.tournamentTeams =
        db.tournamentTeams ++
          [{ ID := db.nextTournamentTeamID, TournamentID := tid, TeamID := db.nextTeamID,
             Status := "registered" }]) := by
  have hd : t.IsTeamTournament = true := by simp [Tournament.IsTeamTournament, hdoubles]
  constructor
  · intro u teamID h0 hno
    apply registerTeam_not_member db u param tid teamID t hparse h0 ht hd
    unfold DB.firstTeamPlayer
    rw [List.find?_eq_none]
    intro x hx hpx
    apply hno x hx
    simpa using hpx
  · intro p1 p2 u req hn hp hfirst hrole hu hnext hnotreg
    have hpl : p2.IsPlayer = true := by simp [User.IsPlayer, hrole]
    have e := createTeam_success db p1 req p2 hn hp hfirst hpl
    rw [e]
    refine ⟨rfl, ?_⟩
    have key := registerTeam_member_success
      ({ db with
          teams := db.teams ++
            [{ ID := db.nextTeamID, Name := req.Name, Description := req.Description }],
          nextTeamID := db.nextTeamID + 1,
          teamPlayers := db.teamPlayers ++
            [{ ID := db.nextTeamPlayerID, TeamID := db.nextTeamID, PlayerID := p1.ID,
               Role := "captain" },
             { ID := db.nextTeamPlayerID + 1, TeamID := db.nextTeamID,
               PlayerID := p2.ID, Role := "player" }],
          nextTeamPlayerID := db.nextTeamPlayerID + 1 + 1 } : DB)
      u param tid db.nextTeamID t
      ({ ID := db.nextTeamPlayerID + 1, TeamID := db.nextTeamID,
         PlayerID := p2.ID, Role := "player" } : TeamPlayer)
      hparse hnext ht hd (by simp) rfl hu.symm hnotreg
    rw [key]
    exact ⟨rfl, rfl⟩

/-- Witness of C13 in the club store: `carol`, member of no team, is refused for team 1;
`alice` forms a team with `bob`, and `bob` registers it for the doubles tournament. -/
theorem C13_membership_gates_team_registration_witness :
    RegisterTeamForTournament dbClub carol "1" (Except.ok 1) =
      (dbClub, errorJSON 403 "not_team_member" "You are not a member of this team") ∧
    (RegisterTeamForTournament dbClubTeam bob "1" (Except.ok 1)).2.status = 201 ∧
    (RegisterTeamForTournament dbClubTeam bob "1" (Except.ok 1)).1.tournamentTeams =
      [{ ID := 1, TournamentID := 1, TeamID := 1, Status := "registered" }] :=
  ⟨(C13_membership_gates_team_registration dbClub "1" 1 sampleDoubles (by decide)
      (by decide) (by decide)).1 carol 1 (by decide) (by decide),
    by decide,
    ((C13_membership_gates_team_registration dbClub "1" 1 sampleDoubles (by decide)
      (by decide) (by decide)).2 alice bob bob
      { Name := "A", Description := "", PartnerID := 2 } (by decide) (by decide)
      (by decide) (by decide) (by decide) (by decide) (by decide)).2.2⟩

/-- C14. For a bound `CreateTeam` request (name and partner key present): when no user has
the partner key the answer is 404 `partner_not_found`, when the partner is not a player it
is 400 `partner_not_player`, and in both the store is left as it was; when the partner
exists and is a player the answer is 201 with the key and name of the team, the team table
gains exactly one row with the requested name and description, the team-player table gains
exactly two rows for that team, the caller as `captain` followed by the partner as
`player`, and nothing else in the store changes but the two key counters. -/
theorem C14_create_team (db : DB) (p1 : User) (req : CreateTeamRequest)
    (hname : req.Name ≠ "") (hpartner : req.PartnerID ≠ 0) :
    (db.firstUser req.PartnerID = none →
      CreateTeam db p1 (Except.ok req) =
        (db, errorJSON 404 "partner_not_found" "Partner not found")) ∧
    (∀ p2, db.firstUser req.PartnerID = some p2 → p2.Role ≠ RolePlayer →
      CreateTeam db p1 (Except.ok req) =
        (db, errorJSON 400 "partner_not_player" "Partner must be a player")) ∧
    (∀ p2, db.firstUser req.PartnerID = some p2 → p2.Role = RolePlayer →
      (CreateTeam db p1 (Except.ok req)).2 =
        successJSON 201 "Team created successfully"
          (some [("team_id", Value.num db.nextTeamID),
                 ("team_name", Value.str req.Name)]) ∧
      (CreateTeam db p1 (Except.ok req)).1.teams = db.teams ++
        [{ ID := db.nextTeamID, Name := req.Name, Description := req.Description }] ∧
      (CreateTeam db p1 (Except.ok req)).1.teamPlayers = db.teamPlayers ++
        [{ ID := db.nextTeamPlayerID, TeamID := db.nextTeamID, PlayerID := p1.ID,
           Role := "captain" },
         { ID := db.nextTeamPlayerID + 1, TeamID := db.nextTeamID, PlayerID := p2.ID,
           Role := "player" }] ∧
      p2.ID = req.PartnerID ∧
      (CreateTeam db p1 (Except.ok req)).1 =
        { db with
          teams := (CreateTeam db p1 (Except.ok req)).1.teams,
          teamPlayers := (CreateTeam db p1 (Except.ok req)).1.teamPlayers,
          nextTeamID := db.nextTeamID + 1,
          nextTeamPlayerID := db.nextTeamPlayerID + 2 }) := by
  refine ⟨fun h => createTeam_not_found db p1 req hname hpartner h, ?_, ?_⟩
  · intro p2 h hr
    exact createTeam_not_player db p1 req p2 hname hpartner h
      (by simp [User.IsPlayer, hr])
  · intro p2 h hr
    have e := createTeam_success db p1 req p2 hname hpartner h
      (by simp [User.IsPlayer, hr])
    have hid : p2.ID = req.PartnerID := by
      have := List.find?_some h
      simpa using this
    rw [e]
    exact ⟨rfl, rfl, rfl, hid, rfl⟩

/-- Witness of C14 in the club store: `alice` forms the team "A" with `bob`; a partner key
in use by nobody gives 404 and the admin `carol` as partner gives 400. -/
theorem C14_create_team_witness :
    (CreateTeam dbClub alice (Except.ok { Name := "A", Description := "", PartnerID := 2 })
      ).1.teamPlayers =
      [{ ID := 1, TeamID := 1, PlayerID := 1, Role := "captain" },
       { ID := 2, TeamID := 1, PlayerID := 2, Role := "player" }] ∧
    CreateTeam dbClub alice (Except.ok { Name := "A", Description := "", PartnerID := 8 }) =
      (dbClub, errorJSON 404 "partner_not_found" "Partner not found") ∧
    CreateTeam dbClub alice (Except.ok { Name := "A", Description := "", PartnerID := 3 }) =
      (dbClub, errorJSON 400 "partner_not_player" "Partner must be a player") :=
  ⟨((C14_create_team dbClub alice { Name := "A", Description := "", PartnerID := 2 }
      (by decide) (by decide)).2.2 bob (by decide) (by decide)).2.2.1,
    (C14_create_team dbClub alice { Name := "A", Description := "", PartnerID := 8 }
      (by decide) (by decide)).1 (by decide),
    (C14_create_team dbClub alice { Name := "A", Description := "", PartnerID := 3 }
      (by decide) (by decide)).2.1 carol (by decide) (by decide)⟩

/-- C15. `CreateTeam` with the caller as the partner, on the code: `alice` (key 1, a
player) sends partner key 1; the answer is 201 and the two membership rows created for
the new team both name player 1, once as `captain` and once as `player`, so the team has
one player and the pair (team, player) occurs twice. -/
theorem C15_team_with_oneself :
    dbClub.firstUser 1 = some alice ∧ alice.IsPlayer = true ∧
    (CreateTeam dbClub alice
      (Except.ok { Name := "Solo", Description := "", PartnerID := 1 })).2.status
      = StatusCreated ∧
    (CreateTeam dbClub alice
      (Except.ok { Name := "Solo", Description := "", PartnerID := 1 })).1.teamPlayers =
      [{ ID := 1, TeamID := 1, PlayerID := 1, Role := "captain" },
       { ID := 2, TeamID := 1, PlayerID := 1, Role := "player" }] ∧
    ¬ ((CreateTeam dbClub alice
      (Except.ok { Name := "Solo", Description := "", PartnerID := 1 })).1.teamPlayers.map
        (fun r => (r.TeamID, r.PlayerID))).Nodup := by
  decide

/-! ## C16: capacity -/

/-- C16. `GetMaxParticipants` is `MaxTeams` when the type is `doubles` and `MaxPlayers`
for every other type value, and `IsTeamTournament` holds exactly when the type is
`doubles`. -/
theorem C16_capacity_by_type (t : Tournament) :
    TournamentDoubles = "doubles" ∧
    t.GetMaxParticipants = (if t.Type_ = "doubles" then t.MaxTeams else t.MaxPlayers) ∧
    (t.IsTeamTournament = true ↔ t.Type_ = "doubles") := by
  refine ⟨rfl, ?_, ?_⟩
  · by_cases h : t.Type_ = "doubles" <;>
      simp [Tournament.GetMaxParticipants, Tournament.IsTeamTournament, TournamentDoubles, h]
  · simp [Tournament.IsTeamTournament, TournamentDoubles]

/-! ## C17: the winner of a match -/

/-- C17. `SetWinner` on any match and any pair of optional references yields a match with
status `completed`; for a `doubles` match `WinnerTeamID` is the team reference and
`WinnerPlayerID` is as before, for every other type `WinnerPlayerID` is the player
reference and `WinnerTeamID` is as before; key, tournament, type, date, round,
participants and scores are as before.  The references are not compared with the
participants: the sample singles match of players 1 and 2 gets player 99 as its winner. -/
theorem C17_set_winner (m : Match) (playerID teamID : Option Nat) :
    (m.SetWinner playerID teamID).Status = "completed" ∧
    (m.SetWinner playerID teamID).WinnerTeamID
      = (if m.Type_ = "doubles" then teamID else m.WinnerTeamID) ∧
    (m.SetWinner playerID teamID).WinnerPlayerID
      = (if m.Type_ = "doubles" then m.WinnerPlayerID else playerID) ∧
    m.SetWinner playerID teamID =
      { m with Status := (m.SetWinner playerID teamID).Status,
               WinnerPlayerID := (m.SetWinner playerID teamID).WinnerPlayerID,
               WinnerTeamID := (m.SetWinner playerID teamID).WinnerTeamID } ∧
    (sampleMatch.Player1ID = some 1 ∧ sampleMatch.Player2ID = some 2 ∧
      (sampleMatch.SetWinner (some 99) none).WinnerPlayerID = some 99) := by
  by_cases h : m.Type_ = "doubles"
  · have hb : m.IsTeamMatch = true := by simp [Match.IsTeamMatch, MatchDoubles, h]
    simp [Match.SetWinner, hb, h, MatchCompleted]
    decide
  · have hb : m.IsTeamMatch = false := by simp [Match.IsTeamMatch, MatchDoubles, h]
    simp [Match.SetWinner, hb, h, MatchCompleted]
    decide

/-! ## C18: the owner of a tournament -/

/-- C18, as stated, fails on the code: `carol` (key 3, admin) creates a tournament with
`admin_id` 2 in the body and the stored tournament has owner 2; and on the tournament she
created with owner 3 an update whose body carries `admin_id` 1 is answered 200 and the
stored owner is 1. -/
theorem C18_counterexample :
    carol.IsAdmin = true ∧ carol.ID = 3 ∧
    (CreateTournament dbAccounts carol
      (Except.ok { Name := some "Cup", AdminID := some 2 })).2.status = StatusCreated ∧
    (CreateTournament dbAccounts carol
      (Except.ok { Name := some "Cup", AdminID := some 2 })).1.tournaments.map
        (fun t => t.AdminID) = [2] ∧
    dbCup.tournaments.map (fun t => (t.ID, t.AdminID)) = [(1, 3)] ∧
    (UpdateTournament dbCup carol "1" (Except.ok { AdminID := some 1 })).2.status
      = StatusOK ∧
    (UpdateTournament dbCup carol "1" (Except.ok { AdminID := some 1 })).1.tournaments.map
        (fun t => (t.ID, t.AdminID)) = [(1, 1)] := by
  decide

theorem saveAdmin_frame (db : DB) (admin : User) :
    (db.saveAdmin admin).1.tournaments = db.tournaments ∧
    (db.saveAdmin admin).1.nextTournamentID = db.nextTournamentID := by
  unfold DB.saveAdmin
  split
  · split
    · exact ⟨rfl, rfl⟩
    · rename_i created hc
      unfold DB.createUser at hc
      simp only at hc
      split at hc
      · exact absurd hc (by simp)
      · simp only [Option.some.injEq] at hc
        subst hc
        exact ⟨rfl, rfl⟩
  · split <;> exact ⟨rfl, rfl⟩

theorem withAdmin_frame (db : DB) (t : Tournament) (admin : User) :
    (db.withAdmin t admin).1.tournaments = db.tournaments ∧
    (db.withAdmin t admin).1.nextTournamentID = db.nextTournamentID := by
  unfold DB.withAdmin
  split
  · exact ⟨rfl, rfl⟩
  · exact saveAdmin_frame db admin

theorem withAdmin_row (db : DB) (j : TournamentJSON) (t : Tournament) :
    (db.withAdmin (j.bind t) j.boundAdmin).2 =
      { j.bind t with AdminID := j.owner db t.AdminID } := by
  unfold DB.withAdmin TournamentJSON.owner
  split <;> rfl

theorem withAdmin_absent (db : DB) (j : TournamentJSON) (t : Tournament)
    (h : j.Admin = none) : db.withAdmin t j.boundAdmin = (db, t) := by
  simp [DB.withAdmin, TournamentJSON.boundAdmin, h]

theorem saveAdmin_key (db : DB) (admin : User) :
    (admin.ID ≠ 0 → (db.saveAdmin admin).2 = admin.ID) ∧
    (admin.ID = 0 →
      (∀ x ∈ db.users, x.Username ≠ admin.Username ∧ x.Email ≠ admin.Email) →
      (db.saveAdmin admin).2 = db.nextUserID) ∧
    (admin.ID = 0 →
      (∃ x ∈ db.users, x.Username = admin.Username ∨ x.Email = admin.Email) →
      (db.saveAdmin admin).2 = 0) := by
  refine ⟨?_, ?_, ?_⟩
  · intro h
    unfold DB.saveAdmin
    simp only [h, if_false]
    split <;> rfl
  · intro h hfresh
    have hany : db.users.any (fun x => x.Username == admin.Username ||
        x.Email == admin.Email) = false := by
      rw [List.any_eq_false]
      intro x hx
      simp [(hfresh x hx).1, (hfresh x hx).2]
    simp [DB.saveAdmin, h, DB.createUser, hany]
  · intro h hheld
    have hany : db.users.any (fun x => x.Username == admin.Username ||
        x.Email == admin.Email) = true := by
      rw [List.any_eq_true]
      obtain ⟨x, hx, hxe⟩ := hheld
      exact ⟨x, hx, by simpa using hxe⟩
    simp [DB.saveAdmin, h, DB.createUser, hany]

/-- C18, amended, for a request body without the member `id`.  The owner of a tournament
is what the body says, whoever the caller is: the key of the user under the member `admin`
when the body carries one that is not the zero value, else the member `admin_id`
(`TournamentJSON.owner`).  `CreateTournament` gives every caller the same result, answers
201 and appends exactly one tournament, with the next key, whose `AdminID` is the owner
the body names, 0 when it names none.  For a path parameter that names the key, not 0,
of a stored tournament, `UpdateTournament` gives every caller the same result, answers
200 and rewrites the rows with that key to the stored tournament with the body written
over it, whose `AdminID` is the owner the body names, the stored `AdminID` when it names
none.  Without
the member `admin` no other table is written.  The key of the user under `admin` is the
key the body gives it; without one it is the next key of the user table when no stored user
holds the username or the email, and 0 when one does. -/
theorem C18_owner_from_body (db : DB) (a : User) (j : TournamentJSON) (hid : j.ID = none) :
    ((∀ b : User, CreateTournament db b (Except.ok j) = CreateTournament db a (Except.ok j)) ∧
      ∃ row : Tournament,
        row.ID = db.nextTournamentID ∧ row.AdminID = j.owner db 0 ∧
        (CreateTournament db a (Except.ok j)).2.status = 201 ∧
        (CreateTournament db a (Except.ok j)).1.tournaments = db.tournaments ++ [row] ∧
        (j.Admin = none →
          (CreateTournament db a (Except.ok j)).1 =
            { db with tournaments := db.tournaments ++ [row],
                      nextTournamentID := db.nextTournamentID + 1 })) ∧
    (∀ (idParam : String) (id : Nat) (t : Tournament),
      ParseUint32 idParam = some id → 0 < id → db.firstTournament id = some t →
      (∀ b : User, UpdateTournament db b idParam (Except.ok j) =
        UpdateTournament db a idParam (Except.ok j)) ∧
      (UpdateTournament db a idParam (Except.ok j)).2.status = 200 ∧
      (UpdateTournament db a idParam (Except.ok j)).1.tournaments =
        db.tournaments.map (fun x =>
          if x.ID = id then { j.bind t with AdminID := j.owner db t.AdminID } else x) ∧
      (j.Admin = none →
        (UpdateTournament db a idParam (Except.ok j)).1 =
          { db with tournaments :=
              (db.tournaments.map (fun x => if x.ID = id then j.bind t else x)) }) ∧
      (j.bind t).ID = id) ∧
    ((j.Admin = none → ∀ stored, j.owner db stored = j.AdminID.getD stored) ∧
      (∀ admin : User, j.Admin = some admin → admin ≠ User.zero → ∀ stored,
        (admin.ID ≠ 0 → j.owner db stored = admin.ID) ∧
        (admin.ID = 0 →
          (∀ x ∈ db.users, x.Username ≠ admin.Username ∧ x.Email ≠ admin.Email) →
          j.owner db stored = db.nextUserID) ∧
        (admin.ID = 0 →
          (∃ x ∈ db.users, x.Username = admin.Username ∨ x.Email = admin.Email) →
          j.owner db stored = 0))) := by
  have hb0 : ∀ t : Tournament, (j.bind t).ID = t.ID := by
    intro t
    simp [TournamentJSON.bind, hid]
  refine ⟨⟨fun _ => rfl, ?_⟩, ?_, ?_, ?_⟩
  · have hrow := withAdmin_row db j Tournament.zero
    have hfr := withAdmin_frame db (j.bind Tournament.zero) j.boundAdmin
    have hz : (db.withAdmin (j.bind Tournament.zero) j.boundAdmin).2.ID = 0 := by
      rw [hrow]
      exact hb0 Tournament.zero
    refine ⟨((db.withAdmin (j.bind Tournament.zero) j.boundAdmin).1.appendTournament
      (db.withAdmin (j.bind Tournament.zero) j.boundAdmin).2).2, ?_, ?_, ?_, ?_, ?_⟩
    · simp only [DB.appendTournament]
      exact hfr.2
    · simp only [DB.appendTournament, Tournament.withDefaults, hrow]
      rfl
    · simp only [CreateTournament, DB.createTournament, hz, if_true]
      rfl
    · simp only [CreateTournament, DB.createTournament, hz, if_true, DB.appendTournament]
      rw [hfr.1, hfr.2]
    · intro hnone
      have hw := withAdmin_absent db j (j.bind Tournament.zero) hnone
      simp only [CreateTournament, DB.createTournament, hz, if_true]
      rw [hw]
      rfl
  · intro idParam id t hp hpos ht
    have htid : t.ID = id := by
      have := List.find?_some ht
      simpa using this
    have hrow := withAdmin_row db j t
    have hfr := withAdmin_frame db (j.bind t) j.boundAdmin
    have hkey : (db.withAdmin (j.bind t) j.boundAdmin).2.ID = id := by
      rw [hrow]
      exact (hb0 t).trans htid
    have hne : ¬ (db.withAdmin (j.bind t) j.boundAdmin).2.ID = 0 := by
      rw [hkey]; omega
    have hany : (db.withAdmin (j.bind t) j.boundAdmin).1.tournaments.any
        (fun x => x.ID == (db.withAdmin (j.bind t) j.boundAdmin).2.ID) = true := by
      rw [hfr.1, hkey, List.any_eq_true]
      exact ⟨t, List.mem_of_find?_eq_some ht, by simpa using htid⟩
    have hsave : (db.withAdmin (j.bind t) j.boundAdmin).1.saveTournament
        (db.withAdmin (j.bind t) j.boundAdmin).2 =
        ({ (db.withAdmin (j.bind t) j.boundAdmin).1 with
            tournaments := (db.tournaments.map (fun x =>
              if x.ID = id then { j.bind t with AdminID := j.owner db t.AdminID } else x)) },
          { j.bind t with AdminID := j.owner db t.AdminID }) := by
      unfold DB.saveTournament
      rw [if_neg hne, if_pos hany, hfr.1, hkey, hrow]
    refine ⟨fun _ => rfl, ?_, ?_, ?_, (hb0 t).trans htid⟩
    · simp [UpdateTournament, hp, ht, successJSON, StatusOK]
    · simp only [UpdateTournament, hp, ht, hsave]
    · intro hnone
      have hw := withAdmin_absent db j (j.bind t) hnone
      have ho : j.owner db t.AdminID = (j.bind t).AdminID := by
        simp [TournamentJSON.owner, TournamentJSON.boundAdmin, hnone, TournamentJSON.bind]
      simp only [UpdateTournament, hp, ht, hsave]
      rw [hw, ho]
  · intro hnone stored
    simp [TournamentJSON.owner, TournamentJSON.boundAdmin, hnone]
  · intro admin hsome hnz stored
    have ho : j.owner db stored = (db.saveAdmin admin).2 := by
      simp [TournamentJSON.owner, TournamentJSON.boundAdmin, hsome, hnz]
    rw [ho]
    exact saveAdmin_key db admin

/-- Witness of C18 (amended): `carol` updates the tournament she created, with a body
that carries no `admin_id` and no `admin`, and the owner stays 3; and a body that carries
`admin_id` 3 and under `admin` the user with key 2 names the owner 2, which is what
`CreateTournament` stores. -/
theorem C18_owner_from_body_witness :
    ({ Name := some "Cup 2" } : TournamentJSON).ID = none ∧
    ParseUint32 "1" = some 1 ∧
    (UpdateTournament dbCup carol "1" (Except.ok { Name := some "Cup 2" })).2.status = 200 ∧
    (UpdateTournament dbCup carol "1" (Except.ok { Name := some "Cup 2" })).1.tournaments.map
      (fun t => (t.ID, t.Name, t.AdminID)) = [(1, "Cup 2", 3)] ∧
    ({ Name := some "Cup", AdminID := some 3,
       Admin := some { User.zero with ID := 2 } } : TournamentJSON).owner dbAccounts 0 = 2 ∧
    (CreateTournament dbAccounts carol
      (Except.ok { Name := some "Cup", AdminID := some 3,
                   Admin := some { User.zero with ID := 2 } })).1.tournaments.map
      (fun t => (t.ID, t.AdminID)) = [(1, 2)] :=
  ⟨rfl, by decide,
    ((C18_owner_from_body dbCup carol { Name := some "Cup 2" } rfl).2.1 "1" 1
      { ID := 1, Name := "Cup", Description := "", Type_ := "singles",
        Status := "upcoming", MaxPlayers := 16, MaxTeams := 8, AdminID := 3 }
      (by decide) (by decide) (by decide)).2.1,
    (congrArg (fun l => l.map (fun t : Tournament => (t.ID, t.Name, t.AdminID)))
      ((C18_owner_from_body dbCup carol { Name := some "Cup 2" } rfl).2.1 "1" 1
        { ID := 1, Name := "Cup", Description := "", Type_ := "singles",
          Status := "upcoming", MaxPlayers := 16, MaxTeams := 8, AdminID := 3 }
        (by decide) (by decide) (by decide)).2.2.1).trans (by decide),
    ((C18_owner_from_body dbAccounts carol
      { Name := some "Cup", AdminID := some 3, Admin := some { User.zero with ID := 2 } }
      rfl).2.2.2 { User.zero with ID := 2 } rfl (by decide) 0).1 (by decide),
    by decide⟩

/-! ## C19: changing a role -/

/-- C19, as stated, fails on the code: for the role string "" (another string than
`player` and `admin`) the answer is 400 with error `invalid_input`, not `invalid_role`. -/
theorem C19_counterexample :
    ("" : String) ≠ RolePlayer ∧ ("" : String) ≠ RoleAdmin ∧
    (UpdateUserRole sampleEnv dbAccounts "2" (Except.ok "")).2.status = StatusBadRequest ∧
    (UpdateUserRole sampleEnv dbAccounts "2" (Except.ok "")).2.errorCode
      = some "invalid_input" ∧
    (UpdateUserRole sampleEnv dbAccounts "2" (Except.ok "")).2.errorCode
      ≠ some "invalid_role" := by
  decide

theorem firstUserWhere_key (db : DB) (env : Env) (userID : String) (id : Nat)
    (h : parseKey userID = some id) : db.firstUserWhere env userID = db.firstUser id := by
  simp [DB.firstUserWhere, h, DB.firstUser]

theorem firstUser_mem (db : DB) (id : Nat) (target : User)
    (h : db.firstUser id = some target) : target ∈ db.users ∧ target.ID = id := by
  refine ⟨List.mem_of_find?_eq_some h, ?_⟩
  have := List.find?_some h
  simpa using this

theorem userConflict_congr (db : DB) (u v : User) (hid : u.ID = v.ID)
    (hn : u.Username = v.Username) (he : u.Email = v.Email) :
    db.userConflict u = db.userConflict v := by
  simp only [DB.userConflict, hid, hn, he]

theorem userConflict_of_distinct (db : DB) (target u1 : User)
    (huniq : db.usersDistinct = true) (hmem : target ∈ db.users) (hid : u1.ID = target.ID)
    (hn : u1.Username = target.Username) (he : u1.Email = target.Email) :
    db.userConflict u1 = false := by
  rw [userConflict_congr db u1 target hid hn he]
  have h := List.all_eq_true.mp huniq target hmem
  simpa using h

theorem updateUserRole_empty (env : Env) (db : DB) (userID : String) :
    UpdateUserRole env db userID (Except.ok "") =
      (db, errorJSON StatusBadRequest "invalid_input" (fieldError "Role" "required")) := by
  simp [UpdateUserRole, validate, firstFailure]
  rfl

theorem updateUserRole_invalid (env : Env) (db : DB) (userID role : String)
    (h0 : role ≠ "") (h1 : role ≠ RolePlayer) (h2 : role ≠ RoleAdmin) :
    UpdateUserRole env db userID (Except.ok role) =
      (db, errorJSON StatusBadRequest "invalid_role" "Role must be 'player' or 'admin'") := by
  simp [UpdateUserRole, validate, firstFailure, h0, h1, h2]

theorem role_nonempty (role : String) (h : role = RolePlayer ∨ role = RoleAdmin) :
    role ≠ "" := by
  rcases h with h | h <;> rw [h] <;> decide

theorem updateUserRole_not_found (env : Env) (db : DB) (userID role : String)
    (h : role = RolePlayer ∨ role = RoleAdmin)
    (hf : db.firstUserWhere env userID = none) :
    UpdateUserRole env db userID (Except.ok role) =
      (db, errorJSON StatusNotFound "user_not_found" "User not found") := by
  have h0 := role_nonempty role h
  have hv : (role != RolePlayer && role != RoleAdmin) = false := by
    rcases h with h | h <;> simp [h]
  simp [UpdateUserRole, validate, firstFailure, h0, hv, hf]

theorem updateUserRole_success (env : Env) (db : DB) (userID role : String)
    (target : User) (h : role = RolePlayer ∨ role = RoleAdmin)
    (hf : db.firstUserWhere env userID = some target)
    (hc : db.userConflict { target with Role := role } = false) :
    UpdateUserRole env db userID (Except.ok role) =
      ({ db with users :=
          (db.users.map (fun x => if x.ID = target.ID then { target with Role := role }
            else x)) },
        successJSON StatusOK "User role updated successfully"
          (some (ToUserResponse { target with Role := role }).members)) := by
  have h0 := role_nonempty role h
  have hv : (role != RolePlayer && role != RoleAdmin) = false := by
    rcases h with h | h <;> simp [h]
  simp [UpdateUserRole, validate, firstFailure, h0, hv, hf, DB.saveUser, hc]

theorem saveRow_eq_of_nodup (users : List User) (target u1 : User)
    (hkey : (users.map (fun u => u.ID)).Nodup) (hmem : target ∈ users)
    (hid : u1.ID = target.ID) :
    users.map (fun x => if x.ID = u1.ID then u1 else x) =
      users.map (fun x => if x = target then u1 else x) := by
  apply List.map_congr_left
  intro x hx
  have hinj := List.inj_on_of_nodup_map hkey
  by_cases h : x = target
  · subst h
    simp [hid]
  · have hne : ¬ x.ID = u1.ID := fun e => h (hinj hx hmem (e.trans hid))
    simp [h, hne]

/-- C19, amended, for a path parameter `user_id` that is a plain numeral, the key `id`.
`UpdateUserRole` accepts only the role strings `player` and `admin`: the empty string is
answered 400 `invalid_input` and every other string 400 `invalid_role`, with the store
unchanged; for a valid role, when no user has the key `id` the answer is 404
`user_not_found` with the store unchanged, and when the user `target` has it the answer is
200 with the user response of `target` under the new role, the role of `target` is the
requested one and no other field and no other user changes (keys of the table pairwise
different, usernames and emails of the table pairwise different).  Whatever the body, if
every stored role is `player` or `admin` before the call, so it is after. -/
theorem C19_update_user_role (env : Env) (db : DB) (userID : String) (id : Nat)
    (hnum : parseKey userID = some id)
    (hkey : (db.users.map (fun u => u.ID)).Nodup)
    (huniq : db.usersDistinct = true) :
    UpdateUserRole env db userID (Except.ok "") =
      (db, errorJSON 400 "invalid_input" (fieldError "Role" "required")) ∧
    (∀ role : String, role ≠ "" → role ≠ "player" → role ≠ "admin" →
      UpdateUserRole env db userID (Except.ok role) =
        (db, errorJSON 400 "invalid_role" "Role must be 'player' or 'admin'")) ∧
    (∀ role : String, role = "player" ∨ role = "admin" →
      ((∀ x ∈ db.users, x.ID ≠ id) →
        UpdateUserRole env db userID (Except.ok role) =
          (db, errorJSON 404 "user_not_found" "User not found")) ∧
      (∀ target ∈ db.users, target.ID = id →
        UpdateUserRole env db userID (Except.ok role) =
          ({ db with users :=
              (db.users.map (fun x => if x = target then { x with Role := role } else x)) },
            successJSON 200 "User role updated successfully"
              (some (ToUserResponse { target with Role := role }).members)))) ∧
    (∀ body, (∀ x ∈ db.users, x.Role = "player" ∨ x.Role = "admin") →
      ∀ x ∈ (UpdateUserRole env db userID body).1.users,
        x.Role = "player" ∨ x.Role = "admin") := by
  have hfirst := firstUserWhere_key db env userID id hnum
  have hok : ∀ role : String, role = "player" ∨ role = "admin" →
      ∀ target ∈ db.users, target.ID = id →
        UpdateUserRole env db userID (Except.ok role) =
          ({ db with users :=
              (db.users.map (fun x => if x = target then { x with Role := role } else x)) },
            successJSON 200 "User role updated successfully"
              (some (ToUserResponse { target with Role := role }).members)) := by
    intro role hrole target hmem hid
    have hf : db.firstUserWhere env userID = some target := by
      rw [hfirst]
      cases hq : db.firstUser id with
      | none =>
        have := List.find?_eq_none.mp hq target hmem
        simp [hid] at this
      | some t2 =>
        have h2 := firstUser_mem db id t2 hq
        have hinj := List.inj_on_of_nodup_map hkey
        rw [hinj h2.1 hmem (h2.2.trans hid.symm)]
    rw [updateUserRole_success env db userID role target hrole hf
      (userConflict_of_distinct db target _ huniq hmem rfl rfl rfl)]
    have hrow := saveRow_eq_of_nodup db.users target { target with Role := role } hkey
      hmem rfl
    have hrow2 : db.users.map (fun x => if x = target then { target with Role := role }
        else x) = db.users.map (fun x => if x = target then { x with Role := role }
        else x) := by
      apply List.map_congr_left
      intro x _
      by_cases h : x = target
      · subst h; simp
      · simp [h]
    simp only [StatusOK]
    rw [show (List.map (fun x => if x.ID = target.ID then { target with Role := role }
        else x) db.users) = List.map (fun x => if x = target then
          { x with Role := role } else x) db.users from hrow.trans hrow2]
  refine ⟨updateUserRole_empty env db userID, ?_, ?_, ?_⟩
  · intro role h0 h1 h2
    exact updateUserRole_invalid env db userID role h0 h1 h2
  · intro role hrole
    refine ⟨?_, hok role hrole⟩
    intro hnone
    apply updateUserRole_not_found env db userID role hrole
    rw [hfirst]
    apply List.find?_eq_none.mpr
    intro x hx
    simpa using hnone x hx
  · intro body hall x hx
    cases body with
    | error msg =>
      simp only [UpdateUserRole] at hx
      exact hall x hx
    | ok role =>
      by_cases h0 : role = ""
      · subst h0
        rw [updateUserRole_empty env db userID] at hx
        exact hall x hx
      · by_cases hrole : role = "player" ∨ role = "admin"
        · cases hf : db.firstUser id with
          | none =>
            rw [updateUserRole_not_found env db userID role hrole (hfirst.trans hf)] at hx
            exact hall x hx
          | some target =>
            have h2 := firstUser_mem db id target hf
            rw [hok role hrole target h2.1 h2.2] at hx
            simp only [List.mem_map] at hx
            obtain ⟨y, hy, hxy⟩ := hx
            by_cases hyt : y = target
            · rw [if_pos hyt] at hxy
              rw [← hxy]
              exact hrole
            · rw [if_neg hyt] at hxy
              rw [← hxy]
              exact hall y hy
        · push_neg at hrole
          rw [updateUserRole_invalid env db userID role h0 hrole.1 hrole.2] at hx
          exact hall x hx

/-- Witness of C19 (amended): in the store of the three accounts the admin makes `bob`
(key 2) an admin; `alice` and `carol` are as before. -/
theorem C19_update_user_role_witness :
    parseKey "2" = some 2 ∧
    (dbAccounts.users.map (fun u => u.ID)).Nodup ∧
    dbAccounts.usersDistinct = true ∧
    bob ∈ dbAccounts.users ∧ bob.ID = 2 ∧
    (UpdateUserRole sampleEnv dbAccounts "2" (Except.ok "admin")).2.status = 200 ∧
    (UpdateUserRole sampleEnv dbAccounts "2" (Except.ok "admin")).1 =
      { dbAccounts with users := [alice, { bob with Role := "admin" }, carol] } :=
  ⟨by decide, by decide, by decide, by decide, by decide,
    (congrArg (fun r => r.2.status)
      (((C19_update_user_role sampleEnv dbAccounts "2" 2 (by decide) (by decide)
        (by decide)).2.2.1 "admin" (Or.inr rfl)).2 bob (by decide) (by decide))).trans
      (by decide),
    (congrArg (fun r => r.1)
      (((C19_update_user_role sampleEnv dbAccounts "2" 2 (by decide) (by decide)
        (by decide)).2.2.1 "admin" (Or.inr rfl)).2 bob (by decide) (by decide))).trans
      (by decide)⟩

/-! ## C20: who changes a role -/

theorem roles_saveRow (users : List User) (u : User)
    (h : ∀ x ∈ users, x.ID = u.ID → x.Role = u.Role) :
    (users.map (fun x => if x.ID = u.ID then u else x)).map (fun x => (x.ID, x.Role)) =
      users.map (fun x => (x.ID, x.Role)) := by
  simp only [List.map_map]
  apply List.map_congr_left
  intro x hx
  by_cases e : x.ID = u.ID
  · simp [e, h x hx e]
  · simp [e]

theorem roles_saveUser (db db1 : DB) (u : User)
    (h : ∀ x ∈ db.users, x.ID = u.ID → x.Role = u.Role)
    (hs : db.saveUser u = some db1) : db1.roles = db.roles := by
  unfold DB.saveUser at hs
  split at hs
  · exact absurd hs (by simp)
  · simp only [Option.some.injEq] at hs
    subst hs
    exact roles_saveRow db.users u h

theorem updatedProfile_role (u : User) (req : UpdateProfileRequest) :
    (updatedProfile u req).Role = u.Role ∧ (updatedProfile u req).ID = u.ID := by
  unfold updatedProfile
  simp only
  split_ifs <;> exact ⟨rfl, rfl⟩

theorem updatedPlayer_role (u : User) (req : UpdatePlayerRequest) :
    (updatedPlayer u req).Role = u.Role ∧ (updatedPlayer u req).ID = u.ID := by
  unfold updatedPlayer
  simp only
  split_ifs <;> exact ⟨rfl, rfl⟩

theorem length_ne_empty (s : String) (h : 6 ≤ s.length) : s ≠ "" := by
  intro e
  rw [e] at h
  simp at h

theorem createUser_fresh (db : DB) (u : User)
    (h : ∀ x ∈ db.users, x.Username ≠ u.Username ∧ x.Email ≠ u.Email) :
    db.createUser u =
      some ({ db with
              users := (db.users ++
                [({ u with
                    ID := db.nextUserID,
                    Role := if u.Role = "" then "player" else u.Role,
                    IsActive := if u.IsActive = false then true else u.IsActive } : User)]),
              nextUserID := db.nextUserID + 1 },
            { u with
              ID := db.nextUserID,
              Role := if u.Role = "" then "player" else u.Role,
              IsActive := if u.IsActive = false then true else u.IsActive }) := by
  have hany : db.users.any (fun x => x.Username == u.Username || x.Email == u.Email)
      = false := by
    rw [List.any_eq_false]
    intro x hx
    simp [(h x hx).1, (h x hx).2]
  simp [DB.createUser, hany]

theorem createUser_users (db db1 : DB) (u u1 : User) (h : db.createUser u = some (db1, u1)) :
    u1.ID = db.nextUserID ∧ u1.Role = (if u.Role = "" then "player" else u.Role) ∧
    db1.users = db.users ++ [u1] := by
  unfold DB.createUser at h
  simp only at h
  split at h
  · exact absurd h (by simp)
  · simp only [Option.some.injEq, Prod.mk.injEq] at h
    obtain ⟨h1, h2⟩ := h
    subst h1 h2
    exact ⟨rfl, rfl, rfl⟩

theorem register_users (env : Env) (db : DB) (body : Except String RegisterRequest) :
    (Register env db body).1.users = db.users ∨
    ∃ u : User, u.Role = "player" ∧ u.ID = db.nextUserID ∧
      (Register env db body).1.users = db.users ++ [u] := by
  unfold Register
  split
  · exact Or.inl rfl
  · split
    · exact Or.inl rfl
    · simp only [User.HashPassword]
      split
      · exact Or.inl rfl
      · rename_i u hu
        split at hu
        · exact absurd hu (by simp)
        · simp only [Option.some.injEq] at hu
          subst hu
          split
          · exact Or.inl rfl
          · rename_i created hc
            obtain ⟨db1, u1⟩ := created
            have h := createUser_users db db1 _ u1 hc
            split <;> exact Or.inr ⟨u1, by simpa [RolePlayer] using h.2.1, h.1, h.2.2⟩

theorem createPlayer_users (env : Env) (db : DB) (body : Except String CreatePlayerRequest) :
    (CreatePlayer env db body).1.users = db.users ∨
    ∃ u : User, u.Role = "player" ∧ u.ID = db.nextUserID ∧
      (CreatePlayer env db body).1.users = db.users ++ [u] := by
  unfold CreatePlayer
  split
  · exact Or.inl rfl
  · split
    · exact Or.inl rfl
    · simp only [User.HashPassword]
      split
      · exact Or.inl rfl
      · rename_i u hu
        split at hu
        · exact absurd hu (by simp)
        · simp only [Option.some.injEq] at hu
          subst hu
          split
          · exact Or.inl rfl
          · rename_i created hc
            obtain ⟨db1, u1⟩ := created
            have h := createUser_users db db1 _ u1 hc
            exact Or.inr ⟨u1, by simpa [RolePlayer] using h.2.1, h.1, h.2.2⟩

theorem changePassword_users (env : Env) (db : DB) (userObj : User)
    (body : Except String ChangePasswordRequest) :
    (ChangePassword env db userObj body).1 = db ∨
    ∃ u : User, u.Role = userObj.Role ∧ u.ID = userObj.ID ∧
      db.saveUser u = some (ChangePassword env db userObj body).1 := by
  unfold ChangePassword
  split
  · exact Or.inl rfl
  · split
    · exact Or.inl rfl
    · split
      · exact Or.inl rfl
      · simp only [User.HashPassword]
        split
        · exact Or.inl rfl
        · rename_i u hu
          split at hu
          · exact absurd hu (by simp)
          · simp only [Option.some.injEq] at hu
            subst hu
            split
            · exact Or.inl rfl
            · rename_i db1 hs
              refine Or.inr ⟨_, ?_, ?_, hs⟩ <;> rfl

theorem updatePlayer_users (db : DB) (idParam : String)
    (body : Except String UpdatePlayerRequest) :
    (UpdatePlayer db idParam body).1 = db ∨
    ∃ found u : User, found ∈ db.users ∧ u.Role = found.Role ∧ u.ID = found.ID ∧
      db.saveUser u = some (UpdatePlayer db idParam body).1 := by
  unfold UpdatePlayer
  split
  · exact Or.inl rfl
  · split
    · exact Or.inl rfl
    · rename_i found hf
      split
      · exact Or.inl rfl
      · rename_i req
        simp only
        split
        · exact Or.inl rfl
        · rename_i db1 hs
          exact Or.inr ⟨found, updatedPlayer found req,
            List.mem_of_find?_eq_some hf, (updatedPlayer_role found req).1,
            (updatedPlayer_role found req).2, hs⟩

theorem register_created (env : Env) (db : DB) (req : RegisterRequest) (hash : String)
    (h1 : req.Username ≠ "") (h2 : req.Email ≠ "") (h3 : env.isEmail req.Email = true)
    (h4 : 6 ≤ req.Password.length) (h5 : req.FullName ≠ "")
    (hh : env.GenerateFromPassword req.Password = some hash)
    (hfresh : ∀ x ∈ db.users, x.Username ≠ req.Username ∧ x.Email ≠ req.Email) :
    (Register env db (Except.ok req)).1 =
      { db with
        users := (db.users ++
          [({ ID := db.nextUserID, Username := req.Username, Email := req.Email,
              Password := hash, FullName := req.FullName, Role := "player",
              IsActive := true, Ranking := 0 } : User)]),
        nextUserID := db.nextUserID + 1 } ∧
    ((Register env db (Except.ok req)).2.status = 201 ∨
      (Register env db (Except.ok req)).2 =
        errorJSON 500 "token_generation_failed"
          "Failed to generate authentication token") := by
  have h0 := length_ne_empty req.Password h4
  have hc : db.createUser
      { ID := 0, Username := req.Username, Email := req.Email, Password := hash,
        FullName := req.FullName, Role := RolePlayer, IsActive := false, Ranking := 0 } =
      some ({ db with
              users := (db.users ++
                [({ ID := db.nextUserID, Username := req.Username, Email := req.Email,
                    Password := hash, FullName := req.FullName, Role := "player",
                    IsActive := true, Ranking := 0 } : User)]),
              nextUserID := db.nextUserID + 1 },
            { ID := db.nextUserID, Username := req.Username, Email := req.Email,
              Password := hash, FullName := req.FullName, Role := "player",
              IsActive := true, Ranking := 0 }) := by
    rw [createUser_fresh db _ hfresh]
    simp [RolePlayer]
  have hv : validate
      [("Username", [("required", req.Username != "")]),
       ("Email", [("required", req.Email != ""), ("email", env.isEmail req.Email)]),
       ("Password", [("required", req.Password != ""),
                     ("min", decide (6 ≤ req.Password.length))]),
       ("FullName", [("required", req.FullName != "")])] = none := by
    simp [validate, firstFailure, h1, h2, h3, h4, h5, h0]
  simp only [Register, hv, User.HashPassword, hh, hc]
  constructor
  · split <;> rfl
  · split
    · right; rfl
    · left; rfl

theorem createPlayer_created (env : Env) (db : DB) (req : CreatePlayerRequest)
    (hash : String)
    (h1 : req.Name ≠ "") (h2 : req.Email ≠ "") (h3 : env.isEmail req.Email = true)
    (h4 : req.Username ≠ "") (h5 : 6 ≤ req.Password.length)
    (hh : env.GenerateFromPassword req.Password = some hash)
    (hfresh : ∀ x ∈ db.users, x.Username ≠ req.Username ∧ x.Email ≠ req.Email) :
    CreatePlayer env db (Except.ok req) =
      ({ db with
          users := (db.users ++
            [({ ID := db.nextUserID, Username := req.Username, Email := req.Email,
                Password := hash, FullName := req.Name, Role := "player",
                IsActive := true, Ranking := req.Ranking } : User)]),
          nextUserID := db.nextUserID + 1 },
        successJSON 201 "Player created successfully"
          (some ({ ID := db.nextUserID, Name := req.Name, Email := req.Email,
                   Ranking := req.Ranking } : PlayerResponse).members)) := by
  have h0 := length_ne_empty req.Password h5
  have hc : db.createUser
      { ID := 0, Username := req.Username, Email := req.Email, Password := hash,
        FullName := req.Name, Role := RolePlayer, IsActive := true,
        Ranking := req.Ranking } =
      some ({ db with
              users := (db.users ++
                [({ ID := db.nextUserID, Username := req.Username, Email := req.Email,
                    Password := hash, FullName := req.Name, Role := "player",
                    IsActive := true, Ranking := req.Ranking } : User)]),
              nextUserID := db.nextUserID + 1 },
            { ID := db.nextUserID, Username := req.Username, Email := req.Email,
              Password := hash, FullName := req.Name, Role := "player",
              IsActive := true, Ranking := req.Ranking }) := by
    rw [createUser_fresh db _ hfresh]
    simp [RolePlayer]
  have hv : validate
      [("Name", [("required", req.Name != "")]),
       ("Email", [("required", req.Email != ""), ("email", env.isEmail req.Email)]),
       ("Username", [("required", req.Username != "")]),
       ("Password", [("required", req.Password != ""),
                     ("min", decide (6 ≤ req.Password.length))])] = none := by
    simp [validate, firstFailure, h1, h2, h3, h4, h5, h0]
  simp only [CreatePlayer, hv, User.HashPassword, hh, hc]
  rfl

theorem updateProfile_cases (db : DB) (userObj : User) (req : UpdateProfileRequest) :
    (db.userConflict (updatedProfile userObj req) = true ∧
      UpdateProfile db userObj (Except.ok req) =
        (db, errorJSON 500 "database_error" "Failed to update profile")) ∨
    (db.userConflict (updatedProfile userObj req) = false ∧
      UpdateProfile db userObj (Except.ok req) =
        ({ db with users := (db.users.map (fun x =>
              if x.ID = (updatedProfile userObj req).ID then updatedProfile userObj req
              else x)) },
          successJSON 200 "Profile updated successfully"
            (some (ToUserResponse (updatedProfile userObj req)).members))) := by
  cases hc : db.userConflict (updatedProfile userObj req) with
  | true =>
    left
    refine ⟨rfl, ?_⟩
    simp only [UpdateProfile, DB.saveUser, hc]
    rfl
  | false =>
    right
    refine ⟨rfl, ?_⟩
    simp only [UpdateProfile, DB.saveUser, hc]
    rfl

theorem updatePlayer_stored (db : DB) (idParam : String) (id : Nat) (found : User)
    (req : UpdatePlayerRequest) (hp : ParseUint32 idParam = some id)
    (hf : db.firstPlayer id = some found)
    (hc : db.userConflict (updatedPlayer found req) = false) :
    UpdatePlayer db idParam (Except.ok req) =
      ({ db with users := (db.users.map (fun x =>
          if x.ID = (updatedPlayer found req).ID then updatedPlayer found req else x)) },
        successJSON 200 "Player updated successfully"
          (some (({ ID := (updatedPlayer found req).ID,
                    Name := (updatedPlayer found req).FullName,
                    Email := (updatedPlayer found req).Email,
                    Ranking := (updatedPlayer found req).Ranking } :
                  PlayerResponse).members))) := by
  simp only [UpdatePlayer, hp, hf, DB.saveUser, hc]
  rfl

theorem changePassword_stored (env : Env) (db : DB) (userObj : User)
    (req : ChangePasswordRequest) (hash : String)
    (h1 : req.CurrentPassword ≠ "") (h2 : 6 ≤ req.NewPassword.length)
    (h3 : userObj.CheckPassword env req.CurrentPassword = true)
    (hh : env.GenerateFromPassword req.NewPassword = some hash)
    (hc : db.userConflict { userObj with Password := hash } = false) :
    ChangePassword env db userObj (Except.ok req) =
      ({ db with users := (db.users.map (fun x =>
          if x.ID = userObj.ID then { userObj with Password := hash } else x)) },
        successJSON 200 "Password changed successfully" none) := by
  have h0 := length_ne_empty req.NewPassword h2
  have hv : validate
      [("CurrentPassword", [("required", req.CurrentPassword != "")]),
       ("NewPassword", [("required", req.NewPassword != ""),
                        ("min", decide (6 ≤ req.NewPassword.length))])] = none := by
    simp [validate, firstFailure, h1, h2, h0]
  simp only [ChangePassword, hv, h3, User.HashPassword, hh, DB.saveUser, hc]
  rfl

/-- C20. Outside `UpdateUserRole` no account handler changes a role.  Whatever the body,
`Register` and `CreatePlayer` leave the user table as it was or append exactly one user,
with the next key and role `player`; and for a request that passes the `binding` tags,
whose password is hashed and whose username and email no stored user holds, they do append
the user of the request, with the next key and role `player` (`CreatePlayer` answers 201;
`Register` answers 201 unless no token can be issued).  `UpdateProfile`, `ChangePassword`
and `UpdatePlayer` leave the pairs (key, role) of the user table as they were, the context
user carrying its stored role and the keys of the table being pairwise different.
`UpdateProfile` answers 500 `database_error` with the store unchanged when another user
holds the resulting username or email, and otherwise answers 200 with, and stores under
the key of the context user, a user that has the role of the context user.  When no other
user holds the resulting username or email, `UpdatePlayer` on a player found under the key
of the path parameter and `ChangePassword` with the right current password likewise
answer 200 and store, under the key they had, a user with the role it had. -/
theorem C20_role_changes_only_by_admin (env : Env) (db : DB) (userObj : User)
    (hkey : (db.users.map (fun u => u.ID)).Nodup)
    (hctx : ∀ x ∈ db.users, x.ID = userObj.ID → x.Role = userObj.Role) :
    (∀ body, (Register env db body).1.users = db.users ∨
      ∃ u : User, u.Role = "player" ∧ u.ID = db.nextUserID ∧
        (Register env db body).1.users = db.users ++ [u]) ∧
    (∀ (req : RegisterRequest) (hash : String),
      req.Username ≠ "" → req.Email ≠ "" → env.isEmail req.Email = true →
      6 ≤ req.Password.length → req.FullName ≠ "" →
      env.GenerateFromPassword req.Password = some hash →
      (∀ x ∈ db.users, x.Username ≠ req.Username ∧ x.Email ≠ req.Email) →
      (Register env db (Except.ok req)).1 =
        { db with
          users := (db.users ++
            [({ ID := db.nextUserID, Username := req.Username, Email := req.Email,
                Password := hash, FullName := req.FullName, Role := "player",
                IsActive := true, Ranking := 0 } : User)]),
          nextUserID := db.nextUserID + 1 } ∧
      ((Register env db (Except.ok req)).2.status = 201 ∨
        (Register env db (Except.ok req)).2 =
          errorJSON 500 "token_generation_failed"
            "Failed to generate authentication token")) ∧
    (∀ body, (CreatePlayer env db body).1.users = db.users ∨
      ∃ u : User, u.Role = "player" ∧ u.ID = db.nextUserID ∧
        (CreatePlayer env db body).1.users = db.users ++ [u]) ∧
    (∀ (req : CreatePlayerRequest) (hash : String),
      req.Name ≠ "" → req.Email ≠ "" → env.isEmail req.Email = true →
      req.Username ≠ "" → 6 ≤ req.Password.length →
      env.GenerateFromPassword req.Password = some hash →
      (∀ x ∈ db.users, x.Username ≠ req.Username ∧ x.Email ≠ req.Email) →
      CreatePlayer env db (Except.ok req) =
        ({ db with
            users := (db.users ++
              [({ ID := db.nextUserID, Username := req.Username, Email := req.Email,
                  Password := hash, FullName := req.Name, Role := "player",
                  IsActive := true, Ranking := req.Ranking } : User)]),
            nextUserID := db.nextUserID + 1 },
          successJSON 201 "Player created successfully"
            (some ({ ID := db.nextUserID, Name := req.Name, Email := req.Email,
                     Ranking := req.Ranking } : PlayerResponse).members))) ∧
    (∀ body, (UpdateProfile db userObj body).1.roles = db.roles) ∧
    (∀ req,
      (db.userConflict (updatedProfile userObj req) = true ∧
        UpdateProfile db userObj (Except.ok req) =
          (db, errorJSON 500 "database_error" "Failed to update profile")) ∨
      (db.userConflict (updatedProfile userObj req) = false ∧
        ∃ v : User, v.Role = userObj.Role ∧ v.ID = userObj.ID ∧
          UpdateProfile db userObj (Except.ok req) =
            ({ db with users :=
                (db.users.map (fun x => if x.ID = userObj.ID then v else x)) },
              successJSON 200 "Profile updated successfully"
                (some (ToUserResponse v).members)))) ∧
    (∀ body, (ChangePassword env db userObj body).1.roles = db.roles) ∧
    (∀ (req : ChangePasswordRequest) (hash : String),
      req.CurrentPassword ≠ "" → 6 ≤ req.NewPassword.length →
      userObj.CheckPassword env req.CurrentPassword = true →
      env.GenerateFromPassword req.NewPassword = some hash →
      db.userConflict { userObj with Password := hash } = false →
      ∃ v : User, v.Role = userObj.Role ∧ v.ID = userObj.ID ∧
        ChangePassword env db userObj (Except.ok req) =
          ({ db with users :=
              (db.users.map (fun x => if x.ID = userObj.ID then v else x)) },
            successJSON 200 "Password changed successfully" none)) ∧
    (∀ idParam body, (UpdatePlayer db idParam body).1.roles = db.roles) ∧
    (∀ (idParam : String) (id : Nat) (found : User) (req : UpdatePlayerRequest),
      ParseUint32 idParam = some id → db.firstPlayer id = some found →
      db.userConflict (updatedPlayer found req) = false →
      ∃ v : User, v.Role = found.Role ∧ v.ID = found.ID ∧
        (UpdatePlayer db idParam (Except.ok req)).2.status = 200 ∧
        (UpdatePlayer db idParam (Except.ok req)).1 =
          { db with users :=
              (db.users.map (fun x => if x.ID = found.ID then v else x)) }) := by
  refine ⟨register_users env db, ?_, createPlayer_users env db, ?_, ?_, ?_, ?_, ?_, ?_, ?_⟩
  · intro req hash h1 h2 h3 h4 h5 hh hfresh
    exact register_created env db req hash h1 h2 h3 h4 h5 hh hfresh
  · intro req hash h1 h2 h3 h4 h5 hh hfresh
    exact createPlayer_created env db req hash h1 h2 h3 h4 h5 hh hfresh
  · intro body
    cases body with
    | error msg => rfl
    | ok req =>
      have hr := updatedProfile_role userObj req
      rcases updateProfile_cases db userObj req with ⟨_, h⟩ | ⟨_, h⟩
      · rw [h]
      · rw [h]
        apply roles_saveRow
        intro x hx e
        rw [hr.1]
        exact hctx x hx (e.trans hr.2)
  · intro req
    have hr := updatedProfile_role userObj req
    rcases updateProfile_cases db userObj req with ⟨hc, h⟩ | ⟨hc, h⟩
    · exact Or.inl ⟨hc, h⟩
    · refine Or.inr ⟨hc, updatedProfile userObj req, hr.1, hr.2, ?_⟩
      rw [h, hr.2]
  · intro body
    rcases changePassword_users env db userObj body with h | ⟨u, hrole, hid, h⟩
    · rw [h]
    · apply roles_saveUser db _ u _ h
      intro x hx e
      rw [hrole]
      exact hctx x hx (e.trans hid)
  · intro req hash h1 h2 h3 hh hc
    exact ⟨{ userObj with Password := hash }, rfl, rfl,
      changePassword_stored env db userObj req hash h1 h2 h3 hh hc⟩
  · intro idParam body
    rcases updatePlayer_users db idParam body with h | ⟨found, u, hmem, hrole, hid, h⟩
    · rw [h]
    · apply roles_saveUser db _ u _ h
      intro x hx e
      have hinj := List.inj_on_of_nodup_map hkey
      have : x = found := hinj hx hmem (e.trans hid)
      rw [hrole, this]
  · intro idParam id found req hp hf hc
    have hr := updatedPlayer_role found req
    refine ⟨updatedPlayer found req, hr.1, hr.2, ?_, ?_⟩
    · rw [updatePlayer_stored db idParam id found req hp hf hc]
      rfl
    · rw [updatePlayer_stored db idParam id found req hp hf hc, hr.2]

/-- Witness of C20 in the store of the three accounts with `alice` as the context user:
`CreatePlayer` with a fresh username and email appends the player `dan` with key 4, a
registration whose values all look like an admin appends a player, and an update of the
profile of `alice` leaves every role as it was. -/
theorem C20_role_changes_only_by_admin_witness :
    (dbAccounts.users.map (fun u => u.ID)).Nodup ∧
    (CreatePlayer sampleEnv dbAccounts (Except.ok
      { Name := "Dan", Email := "dan@example.org", Username := "dan",
        Password := "secret1", Ranking := 7 })).1.users
      = [alice, bob, carol,
          { ID := 4, Username := "dan", Email := "dan@example.org",
            Password := "$2a$secret1", FullName := "Dan", Role := "player",
            IsActive := true, Ranking := 7 }] ∧
    (Register sampleEnv dbAccounts (Except.ok
      { Username := "admin", Email := "admin@example.org", Password := "admin1",
        FullName := "admin" })).1.roles
      = [(1, "player"), (2, "player"), (3, "admin"), (4, "player")] ∧
    (UpdateProfile dbAccounts alice
      (Except.ok { FullName := "Al", Email := "", Ranking := 1 })).1.roles
      = dbAccounts.roles :=
  ⟨by decide,
    (congrArg (fun r => r.1.users)
      ((C20_role_changes_only_by_admin sampleEnv dbAccounts alice (by decide)
        (by decide)).2.2.2.1
        { Name := "Dan", Email := "dan@example.org", Username := "dan",
          Password := "secret1", Ranking := 7 } "$2a$secret1"
        (by decide) (by decide) (by decide) (by decide) (by decide) (by decide)
        (by decide))).trans (by decide),
    (congrArg DB.roles
      ((C20_role_changes_only_by_admin sampleEnv dbAccounts alice (by decide)
        (by decide)).2.1
        { Username := "admin", Email := "admin@example.org", Password := "admin1",
          FullName := "admin" } "$2a$admin1"
        (by decide) (by decide) (by decide) (by decide) (by decide) (by decide)
        (by decide)).1).trans (by decide),
    (C20_role_changes_only_by_admin sampleEnv dbAccounts alice (by decide)
      (by decide)).2.2.2.2.1
      (Except.ok { FullName := "Al", Email := "", Ranking := 1 })⟩

/-! ## C21: the password and the user response -/

/-- C21. `ToUserResponse` does not read the password: two users that differ only in their
`Password` field have equal responses, every field of the response is the field of the
same name of the user, and rewriting the password of a user leaves its response as it
was. -/
theorem C21_password_not_serialized (u v : User)
    (h : ({ u with Password := v.Password } : User) = v) :
    ToUserResponse u = ToUserResponse v ∧
    (ToUserResponse u).ID = u.ID ∧ (ToUserResponse u).Username = u.Username ∧
    (ToUserResponse u).Email = u.Email ∧ (ToUserResponse u).FullName = u.FullName ∧
    (ToUserResponse u).Role = u.Role ∧ (ToUserResponse u).IsActive = u.IsActive ∧
    (ToUserResponse u).Ranking = u.Ranking ∧
    (∀ p : String, ToUserResponse { u with Password := p } = ToUserResponse u) := by
  refine ⟨?_, rfl, rfl, rfl, rfl, rfl, rfl, rfl, fun _ => rfl⟩
  rw [← h]
  rfl

/-- Witness of C21: `alice` with and without the sample hash as password. -/
theorem C21_password_not_serialized_witness :
    ({ alice with Password := aliceKeyed.Password } : User) = aliceKeyed ∧
    alice.Password ≠ aliceKeyed.Password ∧
    ToUserResponse alice = ToUserResponse aliceKeyed :=
  ⟨by decide, by decide, (C21_password_not_serialized alice aliceKeyed (by decide)).1⟩

/-! ## C22: the shape of the responses -/

/-- C22. `GetProfile` and `GetMyRegistrations` on the code: both answer 200, the first
with the bare user object of `alice` as body and the second with the bare list of the
caller's rows, so neither body is a `SuccessResponse` with `message` and `data`. -/
theorem C22_bare_success_bodies :
    (GetProfile alice).status = 200 ∧
    (GetProfile alice).body = Body.user (ToUserResponse alice) ∧
    (∀ s : SuccessResponse, (GetProfile alice).body ≠ Body.success s) ∧
    (GetProfile alice).wellShaped = false ∧
    (GetMyRegistrationsResponse dbP1P2 (samplePlayer 1)).status = 200 ∧
    (GetMyRegistrationsResponse dbP1P2 (samplePlayer 1)).body =
      Body.registrations [{ ID := 1, TournamentID := 1, PlayerID := 1,
                            Status := "registered" }] ∧
    (∀ s : SuccessResponse,
      (GetMyRegistrationsResponse dbP1P2 (samplePlayer 1)).body ≠ Body.success s) ∧
    (GetMyRegistrationsResponse dbP1P2 (samplePlayer 1)).wellShaped = false := by
  refine ⟨by decide, by decide, ?_, by decide, by decide, by decide, ?_, by decide⟩
  · intro s h
    simp [GetProfile] at h
  · intro s h
    simp [GetMyRegistrationsResponse] at h

theorem errorJSON_wellShaped (status : Nat) (e m : String) (h1 : 400 ≤ status)
    (h2 : status < 600) : (errorJSON status e m).wellShaped = true := by
  simp [errorJSON, HTTPResponse.wellShaped, h1, h2]

theorem successJSON_wellShaped (status : Nat) (m : String)
    (d : Option (List (String × Value))) (h1 : 200 ≤ status) (h2 : status < 300) :
    (successJSON status m d).wellShaped = true := by
  simp [successJSON, HTTPResponse.wellShaped, h1, h2]

/-- The handlers that register, withdraw, form teams and log in do send the agreed
shapes. -/
theorem registration_handlers_wellShaped (env : Env) (db : DB) (u : User) (param : String) :
    (RegisterForTournament db u param).2.wellShaped = true ∧
    (UnregisterFromTournament db u param).2.wellShaped = true ∧
    (∀ body, (RegisterTeamForTournament db u param body).2.wellShaped = true) ∧
    (∀ body, (CreateTeam db u body).2.wellShaped = true) ∧
    (∀ body, (Login env db body).wellShaped = true) := by
  refine ⟨?_, ?_, ?_, ?_, ?_⟩
  · unfold RegisterForTournament
    repeat' first | split | dsimp only
    all_goals first
      | exact errorJSON_wellShaped _ _ _ (by decide) (by decide)
      | exact successJSON_wellShaped _ _ _ (by decide) (by decide)
  · unfold UnregisterFromTournament
    repeat' first | split | dsimp only
    all_goals first
      | exact errorJSON_wellShaped _ _ _ (by decide) (by decide)
      | exact successJSON_wellShaped _ _ _ (by decide) (by decide)
  · intro body
    unfold RegisterTeamForTournament
    repeat' first | split | dsimp only
    all_goals first
      | exact errorJSON_wellShaped _ _ _ (by decide) (by decide)
      | exact successJSON_wellShaped _ _ _ (by decide) (by decide)
  · intro body
    unfold CreateTeam
    repeat' first | split | dsimp only
    all_goals first
      | exact errorJSON_wellShaped _ _ _ (by decide) (by decide)
      | exact successJSON_wellShaped _ _ _ (by decide) (by decide)
  · intro body
    unfold Login
    repeat' first | split | dsimp only
    all_goals first
      | exact errorJSON_wellShaped _ _ _ (by decide) (by decide)
      | exact successJSON_wellShaped _ _ _ (by decide) (by decide)

/-- The handlers of tournaments and accounts do send the agreed shapes. -/
theorem account_handlers_wellShaped (env : Env) (db : DB) (u : User) (param : String) :
    (∀ body, (CreateTournament db u body).2.wellShaped = true) ∧
    (∀ body, (UpdateTournament db u param body).2.wellShaped = true) ∧
    (∀ body, (Register env db body).2.wellShaped = true) ∧
    (∀ body, (CreatePlayer env db body).2.wellShaped = true) ∧
    (∀ body, (UpdateProfile db u body).2.wellShaped = true) ∧
    (∀ body, (ChangePassword env db u body).2.wellShaped = true) ∧
    (∀ body, (UpdatePlayer db param body).2.wellShaped = true) ∧
    (∀ body, (UpdateUserRole env db param body).2.wellShaped = true) := by
  refine ⟨?_, ?_, ?_, ?_, ?_, ?_, ?_, ?_⟩
  · intro body
    unfold CreateTournament
    repeat' first | split | dsimp only
    all_goals first
      | exact errorJSON_wellShaped _ _ _ (by decide) (by decide)
      | exact successJSON_wellShaped _ _ _ (by decide) (by decide)
  · intro body
    unfold UpdateTournament
    repeat' first | split | dsimp only
    all_goals first
      | exact errorJSON_wellShaped _ _ _ (by decide) (by decide)
      | exact successJSON_wellShaped _ _ _ (by decide) (by decide)
  · intro body
    unfold Register
    repeat' first | split | dsimp only
    all_goals first
      | exact errorJSON_wellShaped _ _ _ (by decide) (by decide)
      | exact successJSON_wellShaped _ _ _ (by decide) (by decide)
  · intro body
    unfold CreatePlayer
    repeat' first | split | dsimp only
    all_goals first
      | exact errorJSON_wellShaped _ _ _ (by decide) (by decide)
      | exact successJSON_wellShaped _ _ _ (by decide) (by decide)
  · intro body
    unfold UpdateProfile
    repeat' first | split | dsimp only
    all_goals first
      | exact errorJSON_wellShaped _ _ _ (by decide) (by decide)
      | exact successJSON_wellShaped _ _ _ (by decide) (by decide)
  · intro body
    unfold ChangePassword
    repeat' first | split | dsimp only
    all_goals first
      | exact errorJSON_wellShaped _ _ _ (by decide) (by decide)
      | exact successJSON_wellShaped _ _ _ (by decide) (by decide)
  · intro body
    unfold UpdatePlayer
    repeat' first | split | dsimp only
    all_goals first
      | exact errorJSON_wellShaped _ _ _ (by decide) (by decide)
      | exact successJSON_wellShaped _ _ _ (by decide) (by decide)
  · intro body
    unfold UpdateUserRole
    repeat' first | split | dsimp only
    all_goals first
      | exact errorJSON_wellShaped _ _ _ (by decide) (by decide)
      | exact successJSON_wellShaped _ _ _ (by decide) (by decide)

/-! ## C24: logging in -/

/-- C24, as stated, fails on the code: a request that names `alice` and carries the empty
password is answered 400 `invalid_input`, an outcome that is neither success nor 401. -/
theorem C24_counterexample :
    dbLogin.firstUserByLogin "alice" = some aliceKeyed ∧
    (Login sampleEnv dbLogin (Except.ok { Username := "alice", Password := "" })).status
      = StatusBadRequest ∧
    (Login sampleEnv dbLogin (Except.ok { Username := "alice", Password := "" })).status
      ≠ StatusOK ∧
    (Login sampleEnv dbLogin (Except.ok { Username := "alice", Password := "" })).status
      ≠ StatusUnauthorized ∧
    (Login sampleEnv dbLogin (Except.ok { Username := "alice", Password := "" })).errorCode
      = some "invalid_input" := by
  decide

theorem login_unbound (env : Env) (db : DB) (req : LoginRequest)
    (h : req.Username = "" ∨ req.Password = "") :
    ∃ msg, Login env db (Except.ok req) = errorJSON StatusBadRequest "invalid_input" msg := by
  unfold Login
  simp only
  split
  · exact ⟨_, rfl⟩
  · rename_i hv
    exfalso
    rcases h with h | h <;> simp [validate, firstFailure, h] at hv

theorem login_unknown (env : Env) (db : DB) (req : LoginRequest)
    (hu : req.Username ≠ "") (hp : req.Password ≠ "")
    (hf : db.firstUserByLogin req.Username = none) :
    Login env db (Except.ok req) =
      errorJSON StatusUnauthorized "invalid_credentials" "Invalid username or password" := by
  simp [Login, validate, firstFailure, hu, hp, hf]

theorem login_wrong_password (env : Env) (db : DB) (req : LoginRequest) (u : User)
    (hu : req.Username ≠ "") (hp : req.Password ≠ "")
    (hf : db.firstUserByLogin req.Username = some u)
    (hc : u.CheckPassword env req.Password = false) :
    Login env db (Except.ok req) =
      errorJSON StatusUnauthorized "invalid_credentials" "Invalid username or password" := by
  simp [Login, validate, firstFailure, hu, hp, hf, hc]

theorem login_deactivated (env : Env) (db : DB) (req : LoginRequest) (u : User)
    (hu : req.Username ≠ "") (hp : req.Password ≠ "")
    (hf : db.firstUserByLogin req.Username = some u)
    (hc : u.CheckPassword env req.Password = true) (ha : u.IsActive = false) :
    Login env db (Except.ok req) =
      errorJSON StatusUnauthorized "account_deactivated"
        "Your account has been deactivated" := by
  simp [Login, validate, firstFailure, hu, hp, hf, hc, ha]

theorem login_success (env : Env) (db : DB) (req : LoginRequest) (u : User)
    (token : String) (hu : req.Username ≠ "") (hp : req.Password ≠ "")
    (hf : db.firstUserByLogin req.Username = some u)
    (hc : u.CheckPassword env req.Password = true) (ha : u.IsActive = true)
    (ht : env.GenerateToken u = some token) :
    Login env db (Except.ok req) =
      successJSON StatusOK "Login successful"
        (some [("user", Value.user (ToUserResponse u)), ("token", Value.str token)]) := by
  simp [Login, validate, firstFailure, hu, hp, hf, hc, ha, ht]

/-- C24, amended. A request with an empty username or an empty password is answered 400
`invalid_input`.  For a request that carries both, and a token issuer that issues a token
for the user found: `Login` answers 200, with the user and a token, exactly when the first
user whose username or email equals the supplied name exists, the supplied password
verifies against its stored hash and it is active; every other answer is 401; an unknown
name and a wrong password get the same `invalid_credentials` response; and
`account_deactivated` is answered exactly when the password verified for an inactive
user. -/
theorem C24_login_outcomes (env : Env) (db : DB) (req : LoginRequest) :
    (req.Username = "" ∨ req.Password = "" →
      ∃ msg, Login env db (Except.ok req) = errorJSON 400 "invalid_input" msg) ∧
    (req.Username ≠ "" → req.Password ≠ "" →
      (∀ u, db.firstUserByLogin req.Username = some u → ∃ t, env.GenerateToken u = some t) →
      ((Login env db (Except.ok req)).status = 200 ↔
        ∃ u, db.firstUserByLogin req.Username = some u ∧
          u.CheckPassword env req.Password = true ∧ u.IsActive = true) ∧
      (∀ u, db.firstUserByLogin req.Username = some u →
        u ∈ db.users ∧ (u.Username = req.Username ∨ u.Email = req.Username)) ∧
      (∀ u, db.firstUserByLogin req.Username = some u →
        u.CheckPassword env req.Password = true → u.IsActive = true →
        ∃ t, env.GenerateToken u = some t ∧
          Login env db (Except.ok req) =
            successJSON 200 "Login successful"
              (some [("user", Value.user (ToUserResponse u)), ("token", Value.str t)])) ∧
      ((Login env db (Except.ok req)).status = 200 ∨
        (Login env db (Except.ok req)).status = 401) ∧
      (db.firstUserByLogin req.Username = none →
        Login env db (Except.ok req) =
          errorJSON 401 "invalid_credentials" "Invalid username or password") ∧
      (∀ u, db.firstUserByLogin req.Username = some u →
        u.CheckPassword env req.Password = false →
        Login env db (Except.ok req) =
          errorJSON 401 "invalid_credentials" "Invalid username or password") ∧
      ((Login env db (Except.ok req)).errorCode = some "account_deactivated" ↔
        ∃ u, db.firstUserByLogin req.Username = some u ∧
          u.CheckPassword env req.Password = true ∧ u.IsActive = false)) := by
  refine ⟨login_unbound env db req, ?_⟩
  intro hu hp htok
  have hmem : ∀ u, db.firstUserByLogin req.Username = some u →
      u ∈ db.users ∧ (u.Username = req.Username ∨ u.Email = req.Username) := by
    intro u hf
    refine ⟨List.mem_of_find?_eq_some hf, ?_⟩
    have := List.find?_some hf
    simpa using this
  have hsucc : ∀ u, db.firstUserByLogin req.Username = some u →
      u.CheckPassword env req.Password = true → u.IsActive = true →
      ∃ t, env.GenerateToken u = some t ∧
        Login env db (Except.ok req) =
          successJSON 200 "Login successful"
            (some [("user", Value.user (ToUserResponse u)), ("token", Value.str t)]) := by
    intro u hf hc ha
    obtain ⟨t, ht⟩ := htok u hf
    exact ⟨t, ht, login_success env db req u t hu hp hf hc ha ht⟩
  cases hf : db.firstUserByLogin req.Username with
  | none =>
    have e := login_unknown env db req hu hp hf
    refine ⟨?_, ?_, ?_, Or.inr (by rw [e]; rfl), fun _ => e, ?_, ?_⟩
    · rw [e]
      constructor
      · intro h
        simp [errorJSON, StatusUnauthorized] at h
      · rintro ⟨u, h, _⟩
        cases h
    · intro u h
      cases h
    · intro u h
      cases h
    · intro u h
      cases h
    · rw [e]
      constructor
      · intro h
        simp [errorJSON, HTTPResponse.errorCode] at h
      · rintro ⟨u, h, _⟩
        cases h
  | some u =>
    rw [hf] at hmem hsucc
    cases hc : u.CheckPassword env req.Password with
    | false =>
      have e := login_wrong_password env db req u hu hp hf hc
      refine ⟨?_, hmem, hsucc, Or.inr (by rw [e]; rfl), ?_, ?_, ?_⟩
      · rw [e]
        constructor
        · intro h
          simp [errorJSON, StatusUnauthorized] at h
        · rintro ⟨v, hv, hcv, _⟩
          cases hv
          rw [hc] at hcv
          cases hcv
      · intro h
        cases h
      · intro v hv _
        exact e
      · rw [e]
        constructor
        · intro h
          simp [errorJSON, HTTPResponse.errorCode] at h
        · rintro ⟨v, hv, hcv, _⟩
          cases hv
          rw [hc] at hcv
          cases hcv
    | true =>
      cases ha : u.IsActive with
      | false =>
        have e := login_deactivated env db req u hu hp hf hc ha
        refine ⟨?_, hmem, hsucc, Or.inr (by rw [e]; rfl), ?_, ?_, ?_⟩
        · rw [e]
          constructor
          · intro h
            simp [errorJSON, StatusUnauthorized] at h
          · rintro ⟨v, hv, _, hav⟩
            cases hv
            rw [ha] at hav
            cases hav
        · intro h
          cases h
        · intro v hv hcv
          cases hv
          rw [hc] at hcv
          cases hcv
        · rw [e]
          exact ⟨fun _ => ⟨u, rfl, hc, ha⟩, fun _ => rfl⟩
      | true =>
        obtain ⟨t, _, e⟩ := hsucc u rfl hc ha
        refine ⟨?_, hmem, hsucc, Or.inl (by rw [e]; rfl), ?_, ?_, ?_⟩
        · rw [e]
          exact ⟨fun _ => ⟨u, rfl, hc, ha⟩, fun _ => rfl⟩
        · intro h
          cases h
        · intro v hv hcv
          cases hv
          rw [hc] at hcv
          cases hcv
        · rw [e]
          constructor
          · intro h
            simp [successJSON, HTTPResponse.errorCode] at h
          · rintro ⟨v, hv, _, hav⟩
            cases hv
            rw [ha] at hav
            cases hav

/-- Witness of C24 (amended) in the store of the keyed accounts: `alice` logs in with her
email address, and `bob`, whose account is switched off, gets `account_deactivated` with
the right password. -/
theorem C24_login_outcomes_witness :
    dbLogin.firstUserByLogin "alice@example.org" = some aliceKeyed ∧
    (Login sampleEnv dbLogin
      (Except.ok { Username := "alice@example.org", Password := "secret1" })).status = 200 ∧
    (Login sampleEnv dbLogin
      (Except.ok { Username := "bob", Password := "secret1" })).errorCode
      = some "account_deactivated" :=
  ⟨by decide,
    ((C24_login_outcomes sampleEnv dbLogin
      { Username := "alice@example.org", Password := "secret1" }).2 (by decide) (by decide)
      (fun _ _ => ⟨"t", rfl⟩)).1.mpr ⟨aliceKeyed, by decide, by decide, by decide⟩,
    ((C24_login_outcomes sampleEnv dbLogin
      { Username := "bob", Password := "secret1" }).2 (by decide) (by decide)
      (fun _ _ => ⟨"t", rfl⟩)).2.2.2.2.2.2.mpr ⟨bobOff, by decide, by decide, by decide⟩⟩

/-! ## C25: the two ways to update a profile -/

theorem updatedPlayer_eq (u : User) (r : UpdatePlayerRequest) :
    updatedPlayer u r = storedByUpdatePlayer u r := by
  unfold updatedPlayer storedByUpdatePlayer
  by_cases hn : r.Name = "" <;> by_cases he : r.Email = "" <;> simp [hn, he]

theorem updatedProfile_eq (u : User) (r : UpdateProfileRequest) :
    updatedProfile u r = storedByUpdateProfile u r := by
  obtain ⟨⟨id⟩, username, email, password, fullName, role, isActive, ranking⟩ := u
  unfold updatedProfile storedByUpdateProfile
  by_cases hn : r.FullName = "" <;> by_cases he : r.Email = "" <;>
    by_cases hr : r.Ranking > 0 <;> by_cases hp : role = "player" <;>
    simp [hn, he, hr, hp, User.IsPlayer, RolePlayer]

theorem userConflict_iff_email (db : DB) (u v : User) (h : db.userConflict u = false)
    (hid : v.ID = u.ID) (hn : v.Username = u.Username) :
    db.userConflict v = true ↔ ∃ x ∈ db.users, x.ID ≠ u.ID ∧ x.Email = v.Email := by
  unfold DB.userConflict at h ⊢
  rw [List.any_eq_true]
  rw [List.any_eq_false] at h
  constructor
  · rintro ⟨x, hx, hc⟩
    have hx1 := h x hx
    simp only [hid, hn, Bool.and_eq_true, bne_iff_ne, ne_eq, Bool.or_eq_true,
      beq_iff_eq] at hc
    simp only [Bool.and_eq_true, bne_iff_ne, ne_eq, Bool.or_eq_true, beq_iff_eq, not_and,
      not_or] at hx1
    refine ⟨x, hx, hc.1, ?_⟩
    rcases hc.2 with hu | he
    · exact absurd hu (hx1 hc.1).1
    · exact he
  · rintro ⟨x, hx, hne, he⟩
    refine ⟨x, hx, ?_⟩
    simp [hid, hne, he]

/-- C25, as stated, fails on the code: `alice` is a player and the request carries the
non-empty email of `bob`; `UpdatePlayer` and `UpdateProfile` both answer 500
`database_error` and store nothing, so the email of `alice` is not the email of the
request. -/
theorem C25_counterexample :
    dbAccounts.firstPlayer 1 = some alice ∧ alice.IsPlayer = true ∧
    bob ∈ dbAccounts.users ∧ bob.Email = "bob@example.org" ∧
    UpdatePlayer dbAccounts "1"
        (Except.ok { Name := "", Email := "bob@example.org", Ranking := 4 })
      = (dbAccounts, errorJSON 500 "database_error" "Failed to update player") ∧
    UpdateProfile dbAccounts alice
        (Except.ok { FullName := "", Email := "bob@example.org", Ranking := 4 })
      = (dbAccounts, errorJSON 500 "database_error" "Failed to update profile") ∧
    dbAccounts.users.map (fun u => u.Email)
      = ["alice@example.org", "bob@example.org", "carol@example.org"] := by
  decide

theorem updatePlayer_found (db : DB) (idParam : String) (id : Nat) (u : User)
    (rp : UpdatePlayerRequest) (hp : ParseUint32 idParam = some id)
    (hf : db.firstPlayer id = some u) :
    UpdatePlayer db idParam (Except.ok rp) =
      (if db.userConflict (storedByUpdatePlayer u rp) = true then
        (db, errorJSON 500 "database_error" "Failed to update player")
      else
        ({ db with users := (db.users.map (fun x =>
            if x.ID = u.ID then storedByUpdatePlayer u rp else x)) },
          successJSON 200 "Player updated successfully"
            (some (({ ID := u.ID,
                      Name := (storedByUpdatePlayer u rp).FullName,
                      Email := (storedByUpdatePlayer u rp).Email,
                      Ranking := rp.Ranking } : PlayerResponse).members)))) := by
  simp only [UpdatePlayer, hp, hf, updatedPlayer_eq, DB.saveUser]
  cases hc : db.userConflict (storedByUpdatePlayer u rp) <;>
    simp only [↓reduceIte, Bool.false_eq_true] <;> rfl

theorem updateProfile_found (db : DB) (u : User) (rq : UpdateProfileRequest) :
    UpdateProfile db u (Except.ok rq) =
      (if db.userConflict (storedByUpdateProfile u rq) = true then
        (db, errorJSON 500 "database_error" "Failed to update profile")
      else
        ({ db with users := (db.users.map (fun x =>
            if x.ID = u.ID then storedByUpdateProfile u rq else x)) },
          successJSON 200 "Profile updated successfully"
            (some (ToUserResponse (storedByUpdateProfile u rq)).members))) := by
  simp only [UpdateProfile, updatedProfile_eq, DB.saveUser]
  cases hc : db.userConflict (storedByUpdateProfile u rq) <;>
    simp only [↓reduceIte, Bool.false_eq_true] <;> rfl

/-- C25, amended. The two profile-update paths and an omitted ranking, the `unique` tags
of username and email taken into account.  For a player row `u` found under the key of the
path parameter, `UpdatePlayer` computes `u` with `FullName` the request's name if
non-empty, `Email` the request's email if non-empty, and `Ranking` the request's ranking
whatever it is, so a request without ranking (decoded as 0) gives 0; `UpdateProfile`
computes the context user with the same rule for `FullName` and `Email`, and with
`Ranking` the request's ranking only when that is positive and the caller's role is
`player`, the stored ranking otherwise.  Both leave key, `Username`, `Password`, `Role`
and `IsActive` as they were.  When no user with another key holds the username or the
email of the computed user, the handler answers 200 and stores it: with pairwise different
keys the save rewrites that one row of the table and no other.  When such a user exists,
the handler answers 500 `database_error` and stores nothing.  In a table where no other
user holds the username or the email of `u`, such a user exists exactly when a user with
another key holds the email of the computed user. -/
theorem C25_profile_update_paths (db : DB) (u : User) (rp : UpdatePlayerRequest)
    (rq : UpdateProfileRequest) :
    (∀ (idParam : String) (id : Nat),
      ParseUint32 idParam = some id → db.firstPlayer id = some u →
      u.Role = "player" ∧
      (db.userConflict (storedByUpdatePlayer u rp) = false →
        (UpdatePlayer db idParam (Except.ok rp)).2.status = 200 ∧
        (UpdatePlayer db idParam (Except.ok rp)).1 =
          { db with users := (db.users.map (fun x =>
              if x.ID = u.ID then storedByUpdatePlayer u rp else x)) } ∧
        ((db.users.map (fun x => x.ID)).Nodup →
          (UpdatePlayer db idParam (Except.ok rp)).1.users =
            db.users.map (fun x => if x = u then storedByUpdatePlayer u rp else x))) ∧
      (db.userConflict (storedByUpdatePlayer u rp) = true →
        UpdatePlayer db idParam (Except.ok rp) =
          (db, errorJSON 500 "database_error" "Failed to update player"))) ∧
    ((db.userConflict (storedByUpdateProfile u rq) = false →
        (UpdateProfile db u (Except.ok rq)).2.status = 200 ∧
        (UpdateProfile db u (Except.ok rq)).1 =
          { db with users := (db.users.map (fun x =>
              if x.ID = u.ID then storedByUpdateProfile u rq else x)) } ∧
        ((db.users.map (fun x => x.ID)).Nodup → u ∈ db.users →
          (UpdateProfile db u (Except.ok rq)).1.users =
            db.users.map (fun x => if x = u then storedByUpdateProfile u rq else x))) ∧
      (db.userConflict (storedByUpdateProfile u rq) = true →
        UpdateProfile db u (Except.ok rq) =
          (db, errorJSON 500 "database_error" "Failed to update profile"))) ∧
    ((storedByUpdatePlayer u rp).FullName = (if rp.Name = "" then u.FullName else rp.Name) ∧
      (storedByUpdatePlayer u rp).Email = (if rp.Email = "" then u.Email else rp.Email) ∧
      (storedByUpdatePlayer u rp).Ranking = rp.Ranking ∧
      (rp.Ranking = 0 → (storedByUpdatePlayer u rp).Ranking = 0)) ∧
    ((storedByUpdateProfile u rq).FullName =
        (if rq.FullName = "" then u.FullName else rq.FullName) ∧
      (storedByUpdateProfile u rq).Email = (if rq.Email = "" then u.Email else rq.Email) ∧
      (storedByUpdateProfile u rq).Ranking =
        (if rq.Ranking > 0 ∧ u.Role = "player" then rq.Ranking else u.Ranking) ∧
      (rq.Ranking = 0 → (storedByUpdateProfile u rq).Ranking = u.Ranking)) ∧
    ((storedByUpdatePlayer u rp).Username = u.Username ∧
      (storedByUpdatePlayer u rp).Password = u.Password ∧
      (storedByUpdatePlayer u rp).IsActive = u.IsActive ∧
      (storedByUpdatePlayer u rp).Role = u.Role ∧
      (storedByUpdatePlayer u rp).ID = u.ID ∧
      (storedByUpdateProfile u rq).Username = u.Username ∧
      (storedByUpdateProfile u rq).Password = u.Password ∧
      (storedByUpdateProfile u rq).IsActive = u.IsActive ∧
      (storedByUpdateProfile u rq).Role = u.Role ∧
      (storedByUpdateProfile u rq).ID = u.ID) ∧
    (db.userConflict u = false →
      (db.userConflict (storedByUpdatePlayer u rp) = true ↔
        ∃ x ∈ db.users, x.ID ≠ u.ID ∧ x.Email = (storedByUpdatePlayer u rp).Email) ∧
      (db.userConflict (storedByUpdateProfile u rq) = true ↔
        ∃ x ∈ db.users, x.ID ≠ u.ID ∧ x.Email = (storedByUpdateProfile u rq).Email)) := by
  refine ⟨?_, ⟨?_, ?_⟩, ⟨rfl, rfl, rfl, fun h => h⟩, ⟨rfl, rfl, rfl, ?_⟩,
    ⟨rfl, rfl, rfl, rfl, rfl, rfl, rfl, rfl, rfl, rfl⟩,
    fun h => ⟨userConflict_iff_email db u _ h rfl rfl,
      userConflict_iff_email db u _ h rfl rfl⟩⟩
  · intro idParam id hp hf
    have e := updatePlayer_found db idParam id u rp hp hf
    have hmem : u ∈ db.users := List.mem_of_find?_eq_some hf
    have hrole : u.Role = "player" := by
      have := List.find?_some hf
      simp only [Bool.and_eq_true, beq_iff_eq] at this
      exact this.1
    refine ⟨hrole, ?_, ?_⟩
    · intro hc
      rw [e, hc]
      refine ⟨rfl, rfl, ?_⟩
      intro hkey
      exact saveRow_eq_of_nodup db.users u (storedByUpdatePlayer u rp) hkey hmem rfl
    · intro hc
      rw [e, hc]
      rfl
  · intro hc
    rw [updateProfile_found db u rq, hc]
    refine ⟨rfl, rfl, ?_⟩
    intro hkey hmem
    exact saveRow_eq_of_nodup db.users u (storedByUpdateProfile u rq) hkey hmem rfl
  · intro hc
    rw [updateProfile_found db u rq, hc]
    rfl
  · intro h
    simp [storedByUpdateProfile, h]

/-- Witness of C25 (amended) in the store of the three accounts: `alice` has ranking 3; a
request without ranking sent to `UpdatePlayer` stores ranking 0, sent to `UpdateProfile`
it keeps ranking 3. -/
theorem C25_profile_update_paths_witness :
    ParseUint32 "1" = some 1 ∧ dbAccounts.firstPlayer 1 = some alice ∧ alice.Ranking = 3 ∧
    dbAccounts.userConflict
      (storedByUpdatePlayer alice { Name := "", Email := "", Ranking := 0 }) = false ∧
    dbAccounts.userConflict
      (storedByUpdateProfile alice { FullName := "", Email := "", Ranking := 0 }) = false ∧
    (UpdatePlayer dbAccounts "1" (Except.ok { Name := "", Email := "", Ranking := 0 })).1
      = { dbAccounts with users := [{ alice with Ranking := 0 }, bob, carol] } ∧
    (UpdateProfile dbAccounts alice
        (Except.ok { FullName := "", Email := "", Ranking := 0 })).1
      = dbAccounts :=
  ⟨by decide, by decide, by decide, by decide, by decide,
    ((((C25_profile_update_paths dbAccounts alice { Name := "", Email := "", Ranking := 0 }
      { FullName := "", Email := "", Ranking := 0 }).1 "1" 1 (by decide)
      (by decide)).2.1 (by decide)).2.1).trans (by decide),
    (((C25_profile_update_paths dbAccounts alice { Name := "", Email := "", Ranking := 0 }
      { FullName := "", Email := "", Ranking := 0 }).2.1.1 (by decide)).2.1).trans
      (by decide)⟩

/-! ## C23: attempts handled at the same time -/

/-- The two parts make up the handler: the reading part followed at once by the writing
part is `RegisterForTournament`. -/
theorem register_two_steps (db : DB) (u : User) (param : String) :
    RegisterForTournament db u param =
      (match registerCheck db u param with
       | Except.error response => (db, response)
       | Except.ok registration => registerInsert db registration) := by
  unfold RegisterForTournament registerCheck registerInsert
  repeat' first | split | dsimp only
  all_goals first | rfl | simp_all

/-- C23, as stated, fails on the code: the sample tournament has two places and one
registration, so exactly one remaining slot; players 2 and 3 attempt to register at the
same time and each reads before either writes (schedule 0, 1, 0, 1); both are answered
201 and the tournament ends with three active registrations. -/
theorem C23_counterexample :
    dbP1.firstTournament 1 = some sampleTournament ∧
    sampleTournament.GetMaxParticipants = 2 ∧ dbP1.activePlayerCount 1 = 1 ∧
    ((Concurrent.init dbP1 [samplePlayer 2, samplePlayer 3] "1").run [0, 1, 0, 1]).succeeded
      = 2 ∧
    ((Concurrent.init dbP1 [samplePlayer 2, samplePlayer 3] "1").run
      [0, 1, 0, 1]).db.activePlayerCount 1 = 3 := by
  decide

theorem get_middle {α : Type} (pre post : List α) (x : α) :
    (pre ++ x :: post).get? pre.length = some x := by
  induction pre with
  | nil => rfl
  | cons a as ih => simpa using ih

theorem set_middle {α : Type} (pre post : List α) (x y : α) :
    (pre ++ x :: post).set pre.length y = pre ++ y :: post := by
  induction pre with
  | nil => rfl
  | cons a as ih => simp [List.set, ih]

theorem step_at_start (db : DB) (pre post : List Phase) (u : User) (param : String)
    (reg : TournamentPlayer) (h : registerCheck db u param = Except.ok reg) :
    Concurrent.step { db := db, requests := pre ++ Phase.start u param :: post } pre.length
      = { db := db, requests := pre ++ Phase.checked reg :: post } := by
  unfold Concurrent.step
  simp only [get_middle, h, set_middle]

theorem step_at_checked (db : DB) (pre post : List Phase) (reg : TournamentPlayer) :
    Concurrent.step { db := db, requests := pre ++ Phase.checked reg :: post } pre.length
      = { db := (registerInsert db reg).1,
          requests := pre ++ Phase.done (registerInsert db reg).2 :: post } := by
  unfold Concurrent.step
  simp only [get_middle, set_middle]

theorem range_shift (n k : Nat) :
    (List.range (n + 1)).map (fun i => i + k)
      = k :: (List.range n).map (fun i => i + (k + 1)) := by
  rw [List.range_succ_eq_map]
  simp only [List.map_cons, List.map_map, Nat.zero_add, List.cons.injEq, true_and]
  apply List.map_congr_left
  intro i _
  simp only [Function.comp]
  omega

/-- The reading parts of all requests, one after the other, on an unchanged store. -/
theorem run_checks (db : DB) (param : String) (reg : User → TournamentPlayer)
    (us : List User) (hus : ∀ u ∈ us, registerCheck db u param = Except.ok (reg u))
    (pre : List Phase) :
    Concurrent.run { db := db, requests := pre ++ us.map (fun u => Phase.start u param) }
        ((List.range us.length).map (fun i => i + pre.length))
      = { db := db, requests := pre ++ us.map (fun u => Phase.checked (reg u)) } := by
  induction us generalizing pre with
  | nil => rfl
  | cons u rest ih =>
    rw [List.length_cons, range_shift]
    simp only [Concurrent.run, List.foldl_cons, List.map_cons]
    rw [step_at_start db pre _ u param (reg u) (hus u (List.mem_cons_self u rest))]
    have h := ih (fun v hv => hus v (List.mem_cons_of_mem u hv)) (pre ++ [Phase.checked (reg u)])
    simp only [Concurrent.run, List.length_append, List.length_singleton,
      List.append_assoc, List.singleton_append] at h
    exact h

/-- The writing parts of all requests, one after the other: each is answered 201. -/
theorem run_inserts (regs : List TournamentPlayer) (db : DB) (pre : List Phase) :
    ∃ ds : List Phase, ds.length = regs.length ∧
      (∀ p ∈ ds, ∃ r : HTTPResponse, p = Phase.done r ∧ r.status = StatusCreated) ∧
      Concurrent.run { db := db, requests := pre ++ regs.map Phase.checked }
          ((List.range regs.length).map (fun i => i + pre.length))
        = { db := insertAll db regs, requests := pre ++ ds } := by
  induction regs generalizing db pre with
  | nil => exact ⟨[], rfl, by simp, rfl⟩
  | cons reg rest ih =>
    obtain ⟨ds, hlen, hall, hrun⟩ :=
      ih (registerInsert db reg).1 (pre ++ [Phase.done (registerInsert db reg).2])
    refine ⟨Phase.done (registerInsert db reg).2 :: ds, by simp [hlen], ?_, ?_⟩
    · intro p hp
      rcases List.mem_cons.mp hp with h | h
      · exact ⟨_, h, rfl⟩
      · exact hall p h
    · rw [List.length_cons, range_shift]
      simp only [Concurrent.run, List.foldl_cons, List.map_cons]
      rw [step_at_checked db pre _ reg]
      simp only [Concurrent.run, List.length_append, List.length_singleton,
        List.append_assoc, List.singleton_append] at hrun
      exact hrun

theorem registerCheck_ok (db : DB) (u : User) (param : String) (tid : Nat) (t : Tournament)
    (h : u.IsPlayer = true) (hp : ParseUint32 param = some tid)
    (ht : db.firstTournament tid = some t) (hs : t.Status = TournamentUpcoming)
    (hr : db.firstTournamentPlayer tid u.ID = none)
    (hc : (db.countTournamentPlayers tid : Int) < t.GetMaxParticipants) :
    registerCheck db u param = Except.ok (pendingRegistration tid u) := by
  have hc1 : ¬ t.GetMaxParticipants ≤ (db.countTournamentPlayers tid : Int) := not_le.mpr hc
  simp [registerCheck, h, hp, ht, hs, hr, hc1, pendingRegistration]

theorem registerInsert_active (db : DB) (reg : TournamentPlayer) (tid : Nat)
    (h1 : reg.TournamentID = tid) (h2 : reg.Status = "registered") :
    (registerInsert db reg).1.activePlayerCount tid = db.activePlayerCount tid + 1 := by
  simp [registerInsert, DB.createTournamentPlayer, DB.activePlayerCount,
    List.countP_append, TournamentPlayer.active, h1, h2]

theorem insertAll_active (regs : List TournamentPlayer) (db : DB) (tid : Nat)
    (h : ∀ r ∈ regs, r.TournamentID = tid ∧ r.Status = "registered") :
    (insertAll db regs).activePlayerCount tid = db.activePlayerCount tid + regs.length := by
  induction regs generalizing db with
  | nil => rfl
  | cons reg rest ih =>
    have h0 := h reg (List.mem_cons_self reg rest)
    have := ih (registerInsert db reg).1 (fun r hr => h r (List.mem_cons_of_mem reg hr))
    simp only [insertAll, List.foldl_cons] at this ⊢
    rw [this, registerInsert_active db reg tid h0.1 h0.2, List.length_cons]
    omega

theorem succeeded_all (d : DB) (ds : List Phase)
    (h : ∀ p ∈ ds, ∃ r : HTTPResponse, p = Phase.done r ∧ r.status = StatusCreated) :
    ({ db := d, requests := ds } : Concurrent).succeeded = ds.length := by
  unfold Concurrent.succeeded
  rw [List.countP_eq_length]
  intro p hp
  obtain ⟨r, rfl, hr⟩ := h p hp
  simp [hr]

theorem step_done (db : DB) (pre post : List Phase) (r : HTTPResponse) :
    Concurrent.step { db := db, requests := pre ++ Phase.done r :: post } pre.length
      = { db := db, requests := pre ++ Phase.done r :: post } := by
  unfold Concurrent.step
  simp only [get_middle]

/-- C23, amended. The handler's check and its insert are two steps with no transaction
around them.  (1) When the two steps of an attempt run back to back, the attempt is the
sequential handler `RegisterForTournament` on the store it meets.  (2) For an upcoming
tournament with exactly one remaining slot and no withdrawn row, and `N` attempts by
players without a registration for it, the interleaving in which every check precedes
every insert answers all `N` attempts with 201 and leaves `C - 1 + N` active
registrations, more than the capacity `C` as soon as `N` is at least 2. -/
theorem C23_over_admission (db : DB) (param : String) (tid : Nat) (t : Tournament)
    (us : List User) (hparse : ParseUint32 param = some tid)
    (ht : db.firstTournament tid = some t) (hup : t.Status = TournamentUpcoming)
    (hslot : (db.countTournamentPlayers tid : Int) + 1 = t.GetMaxParticipants)
    (hactive : db.activePlayerCount tid = db.countTournamentPlayers tid)
    (hplayers : ∀ u ∈ us, u.IsPlayer = true)
    (hnone : ∀ u ∈ us, ∀ r ∈ db.tournamentPlayers,
      ¬ (r.TournamentID = tid ∧ r.PlayerID = u.ID)) :
    (∀ (d : DB) (pre post : List Phase) (u : User) (p : String),
      Concurrent.run { db := d, requests := pre ++ Phase.start u p :: post }
          [pre.length, pre.length]
        = { db := (RegisterForTournament d u p).1,
            requests := pre ++ Phase.done (RegisterForTournament d u p).2 :: post }) ∧
    ((Concurrent.init db us param).run
        (List.range us.length ++ List.range us.length)).succeeded = us.length ∧
    (((Concurrent.init db us param).run
        (List.range us.length ++ List.range us.length)).db.activePlayerCount tid : Int)
      = t.GetMaxParticipants - 1 + us.length ∧
    (2 ≤ us.length →
      t.GetMaxParticipants <
        (((Concurrent.init db us param).run
          (List.range us.length ++ List.range us.length)).db.activePlayerCount tid : Int)) := by
  have hback : ∀ (d : DB) (pre post : List Phase) (u : User) (p : String),
      Concurrent.run { db := d, requests := pre ++ Phase.start u p :: post }
          [pre.length, pre.length]
        = { db := (RegisterForTournament d u p).1,
            requests := pre ++ Phase.done (RegisterForTournament d u p).2 :: post } := by
    intro d pre post u p
    simp only [Concurrent.run, List.foldl_cons, List.foldl_nil]
    rw [register_two_steps d u p]
    cases hc : registerCheck d u p with
    | error r =>
      have h1 : Concurrent.step { db := d, requests := pre ++ Phase.start u p :: post }
          pre.length = { db := d, requests := pre ++ Phase.done r :: post } := by
        unfold Concurrent.step
        simp only [get_middle, hc, set_middle]
      rw [h1, step_done]
    | ok reg =>
      rw [step_at_start d pre post u p reg hc, step_at_checked]
  have hchecks : ∀ u ∈ us, registerCheck db u param = Except.ok (pendingRegistration tid u) := by
    intro u hu
    apply registerCheck_ok db u param tid t (hplayers u hu) hparse ht hup
    · exact first_none_of_no_row db tid u.ID (hnone u hu)
    · omega
  have h1 := run_checks db param (pendingRegistration tid) us hchecks []
  obtain ⟨ds, hlen, hall, h2⟩ := run_inserts (us.map (pendingRegistration tid)) db []
  simp only [List.length_nil, Nat.add_zero, List.map_id', List.nil_append, List.length_map,
    List.map_map] at h1 h2
  have hrun : (Concurrent.init db us param).run
      (List.range us.length ++ List.range us.length)
      = { db := insertAll db (us.map (pendingRegistration tid)), requests := ds } := by
    unfold Concurrent.init
    unfold Concurrent.run at h1 h2 ⊢
    rw [List.foldl_append, h1]
    exact h2
  have hcount : (insertAll db (us.map (pendingRegistration tid))).activePlayerCount tid
      = db.activePlayerCount tid + us.length := by
    have := insertAll_active (us.map (pendingRegistration tid)) db tid (by
      intro r hr
      rw [List.mem_map] at hr
      obtain ⟨u, _, rfl⟩ := hr
      exact ⟨rfl, rfl⟩)
    simpa using this
  refine ⟨hback, ?_, ?_, ?_⟩
  · rw [hrun, succeeded_all _ ds hall]
    simpa using hlen
  · rw [hrun]
    simp only
    rw [hcount, hactive]
    push_cast
    omega
  · intro hN
    rw [hrun]
    simp only
    rw [hcount, hactive]
    push_cast
    omega

/-- Witness of C23 (amended): players 2 and 3 at the sample tournament with one place
left. -/
theorem C23_over_admission_witness :
    ParseUint32 "1" = some 1 ∧ dbP1.firstTournament 1 = some sampleTournament ∧
    (dbP1.countTournamentPlayers 1 : Int) + 1 = sampleTournament.GetMaxParticipants ∧
    ((Concurrent.init dbP1 [samplePlayer 2, samplePlayer 3] "1").run
        (List.range 2 ++ List.range 2)).succeeded = 2 ∧
    sampleTournament.GetMaxParticipants <
      (((Concurrent.init dbP1 [samplePlayer 2, samplePlayer 3] "1").run
        (List.range 2 ++ List.range 2)).db.activePlayerCount 1 : Int) :=
  ⟨by decide, by decide, by decide,
    (C23_over_admission dbP1 "1" 1 sampleTournament [samplePlayer 2, samplePlayer 3]
      (by decide) (by decide) (by decide) (by decide) (by decide) (by decide)
      (by decide)).2.1,
    (C23_over_admission dbP1 "1" 1 sampleTournament [samplePlayer 2, samplePlayer 3]
      (by decide) (by decide) (by decide) (by decide) (by decide) (by decide)
      (by decide)).2.2.2 (by decide)⟩

end Badminton
